import Mathlib

/-!
The V4L2 capture buffer ring of camunits (src/libcam/input_v4l2.c).

A shallow embedding of the streaming half of the V4L2 input unit:
`v4l2_stream_init`, `v4l2_stream_shutdown`, `v4l2_stream_on`,
`v4l2_stream_off` and `v4l2_try_produce_frame`.

The device is an oracle: every ioctl / mmap answer is a function of the
history of calls made so far, so a theorem quantified over `Device` holds for
every deterministic device behaviour.  Every call made by the code is appended,
together with its answer, to a chronological trace.

The struct `CamV4L2` is declared in `input_v4l2.h`, which is not among the
sources; its integer fields (`num_buffers`, `buffer_length`,
`buffers_outstanding`) are taken as natural numbers and the 32-bit quantities
reported by the device are stored in them unchanged.

The control side of the V4L2 unit (`add_control`, `add_user_controls`,
`update_video_standards`, `v4l2_try_set_control`) and the dc1394 unit of
src/plugins/dc1394/input_dc1394.c (`dc1394_stream_init`,
`dc1394_try_produce_frame`, `dc1394_try_set_control`) are embedded in the same
way, each with its own oracle and trace.  Arithmetic the C code does on
`uint32_t` and `uint64_t` values is reduced modulo 2^32 and 2^64 explicitly.
-/

namespace Camunits

/-- The requested ring size, `#define NUM_BUFFERS 5`. -/
def NUM_BUFFERS : Nat := 5

/-- A pointer value held in one entry of `self->buffers`: the indeterminate
content of freshly `malloc`ed memory, the failure value `MAP_FAILED` of
`mmap`, or the base address of a mapped region. -/
inductive Ptr where
  | uninit
  | map_failed
  | addr (a : Nat)
  deriving DecidableEq

/-- The value `mmap` hands back: `none` from the system stands for `MAP_FAILED`. -/
def Ptr.ofMmap : Option Nat → Ptr
  | none => Ptr.map_failed
  | some a => Ptr.addr a

/-- The fields of a `CamUnitFormat` the unit passes around. -/
structure CamUnitFormat where
  pixelformat : Nat
  width : Nat
  height : Nat
  deriving DecidableEq

/-- The `struct v4l2_buffer` fields that `VIDIOC_DQBUF` fills and the code reads. -/
structure DqBuf where
  index : Nat
  bytesused : Nat
  tv_sec : Int
  tv_usec : Int
  deriving DecidableEq

/-- A `CamFrameBuffer` as built by `cam_framebuffer_new` in `v4l2_try_produce_frame`. -/
structure CamFrameBuffer where
  data : Ptr
  length : Nat
  timestamp : Int
  bytesused : Nat
  deriving DecidableEq

/-- One call made by the unit, with the answer it received. -/
inductive Event where
  | s_fmt (fmt : CamUnitFormat) (ok : Bool)
  | reqbufs (count : Nat) (granted : Option Nat)
  | querybuf (index : Nat) (res : Option (Nat × Nat))
  | mmap (length offset : Nat) (res : Ptr)
  | qbuf (index : Nat) (ok : Bool)
  | dqbuf (res : Option DqBuf)
  | munmap (p : Ptr) (length : Nat)
  | streamon (ok : Bool)
  | streamoff (ok : Bool)
  | produce_frame (fbuf : CamFrameBuffer) (verdict : Nat)
  | nanosleep
  | close (fd : Int)
  deriving DecidableEq

/-- The call of an event without the answer: which operation, on which slot. -/
inductive Call where
  | s_fmt (fmt : CamUnitFormat)
  | reqbufs (count : Nat)
  | querybuf (index : Nat)
  | mmap
  | qbuf (index : Nat)
  | dqbuf
  | munmap (p : Ptr) (length : Nat)
  | streamon
  | streamoff
  | produce_frame
  | nanosleep
  | close (fd : Int)
  deriving DecidableEq

/-- Forget the answer of an event. -/
def Event.call : Event → Call
  | Event.s_fmt f _ => Call.s_fmt f
  | Event.reqbufs n _ => Call.reqbufs n
  | Event.querybuf i _ => Call.querybuf i
  | Event.mmap _ _ _ => Call.mmap
  | Event.qbuf i _ => Call.qbuf i
  | Event.dqbuf _ => Call.dqbuf
  | Event.munmap p l => Call.munmap p l
  | Event.streamon _ => Call.streamon
  | Event.streamoff _ => Call.streamoff
  | Event.produce_frame _ _ => Call.produce_frame
  | Event.nanosleep => Call.nanosleep
  | Event.close fd => Call.close fd

/-- The device behind `self->fd`: each answer depends on the calls made so far.
`reqbufs` answers the granted count, `querybuf` the pair (length, offset),
`mmap` the mapped address; `none` / `false` is the failure value `-1`
(`MAP_FAILED` for `mmap`). -/
structure Device where
  s_fmt : List Event → CamUnitFormat → Bool
  reqbufs : List Event → Nat → Option Nat
  querybuf : List Event → Nat → Option (Nat × Nat)
  mmap : List Event → Nat → Nat → Option Nat
  qbuf : List Event → Nat → Bool
  dqbuf : List Event → Option DqBuf
  streamon : List Event → Bool
  streamoff : List Event → Bool

/-- The downstream consumer reached through `cam_unit_produce_frame`: whatever
it does with the frame is summarised by a verdict the unit never looks at. -/
abbrev Consumer := List Event → CamFrameBuffer → Nat

/-- Modelled from the spec: the enumeration behind `super->status` is declared in
`cam_unit.h`, which is not among the sources (only `CAM_UNIT_STATUS_IDLE` is
named in `input_v4l2.c`); its values are the three states Idle, Configured and
Streaming of the capture state machine. -/
inductive CamUnitStatus where
  | idle
  | configured
  | streaming
  deriving DecidableEq

/-- The fields of `CamV4L2` (and of its parent `CamUnit`) the streaming code
uses.  `buffers = none` is the `NULL` pointer, `some l` an array of
`l.length` entries. -/
structure CamV4L2 where
  fd : Int
  buffers : Option (List Ptr)
  num_buffers : Nat
  buffer_length : Nat
  buffers_outstanding : Nat
  status : CamUnitStatus
  fmt : CamUnitFormat
  deriving DecidableEq

/-- The unit together with the trace of calls made so far. -/
structure St where
  self : CamV4L2
  trace : List Event
  deriving DecidableEq

/-- A fault that ends the run: an access through `NULL` or past the end of an
array, or an integer division by zero. -/
inductive Fault where
  | null_deref
  | out_of_bounds
  | div_by_zero
  deriving DecidableEq

/-- Append one event to the trace. -/
def St.log (s : St) (e : Event) : St :=
  { s with trace := s.trace ++ [e] }

/-- The read `self->buffers[i]`. -/
def read_slot (buffers : Option (List Ptr)) (i : Nat) : Except Fault Ptr :=
  match buffers with
  | none => Except.error Fault.null_deref
  | some l =>
    match l[i]? with
    | none => Except.error Fault.out_of_bounds
    | some p => Except.ok p

/-- The write `self->buffers[i] = p`. -/
def write_slot (buffers : Option (List Ptr)) (i : Nat) (p : Ptr) : Option (List Ptr) :=
  buffers.map (fun l => l.set i p)

/-- The constructor `cam_v4l2_init`. -/
def cam_v4l2_init (status : CamUnitStatus) (fmt : CamUnitFormat) : CamV4L2 :=
  { fd := -1, buffers := none, num_buffers := 0, buffer_length := 0,
    buffers_outstanding := 0, status := status, fmt := fmt }

/-- The mapping loop of `v4l2_stream_init`, `for (i = 0; i < num_buffers; i++)`,
with `n` iterations left to run from index `i`.  It answers the value of `i`
at which the loop was left: a `break` leaves it below `num_buffers`. -/
def init_loop (dev : Device) : Nat → Nat → St → Nat × St
  | 0, i, s => (i, s)
  | n + 1, i, s =>
    match dev.querybuf s.trace i with
    | none => (i, s.log (Event.querybuf i none))
    | some (len, off) =>
      let s1 := s.log (Event.querybuf i (some (len, off)))
      let p := Ptr.ofMmap (dev.mmap s1.trace len off)
      let s2 : St :=
        { self := { s1.self with buffers := write_slot s1.self.buffers i p },
          trace := s1.trace ++ [Event.mmap len off p] }
      if dev.qbuf s2.trace i then
        let s3 : St :=
          { self := { s2.self with buffer_length := len },
            trace := s2.trace ++ [Event.qbuf i true] }
        init_loop dev n (i + 1) s3
      else
        (i, s2.log (Event.qbuf i false))

/-- The unwind loop `for (j = 0; j <= i; j++) munmap (buffers[i], buffer_length)`
with `n` iterations left: every iteration reads entry `i`. -/
def unwind_loop (i : Nat) : Nat → St → Except (Fault × St) St
  | 0, s => Except.ok s
  | n + 1, s =>
    match read_slot s.self.buffers i with
    | Except.error f => Except.error (f, s)
    | Except.ok p => unwind_loop i n (s.log (Event.munmap p s.self.buffer_length))

/-- The function `v4l2_stream_init`; `malloc` is taken to succeed and leaves
its entries indeterminate. -/
def v4l2_stream_init (dev : Device) (s : St) (format : CamUnitFormat) :
    Except (Fault × St) (Int × St) :=
  if dev.s_fmt s.trace format then
    let s1 := s.log (Event.s_fmt format true)
    match dev.reqbufs s1.trace NUM_BUFFERS with
    | none => Except.ok (-1, s1.log (Event.reqbufs NUM_BUFFERS none))
    | some count =>
      let s2 : St :=
        { self := { s1.self with num_buffers := count,
                                 buffers := some (List.replicate count Ptr.uninit) },
          trace := s1.trace ++ [Event.reqbufs NUM_BUFFERS (some count)] }
      let r := init_loop dev s2.self.num_buffers 0 s2
      if r.1 < r.2.self.num_buffers then
        match unwind_loop r.1 (r.1 + 1) r.2 with
        | Except.error e => Except.error e
        | Except.ok s3 => Except.ok (-1, s3)
      else
        Except.ok (0, { r.2 with self := { r.2.self with buffers_outstanding := 0 } })
  else
    Except.ok (-1, s.log (Event.s_fmt format false))

/-- The unmap loop of `v4l2_stream_shutdown` with `n` iterations left from index `i`. -/
def shutdown_loop : Nat → Nat → St → Except (Fault × St) St
  | 0, _, s => Except.ok s
  | n + 1, i, s =>
    match read_slot s.self.buffers i with
    | Except.error f => Except.error (f, s)
    | Except.ok p => shutdown_loop n (i + 1) (s.log (Event.munmap p s.self.buffer_length))

/-- The function `v4l2_stream_shutdown`: unmap `num_buffers` entries, free the
array, set `buffers` to `NULL`, release the reservation with count 0 (a
refusal is only a warning). -/
def v4l2_stream_shutdown (dev : Device) (s : St) : Except (Fault × St) (Int × St) :=
  match shutdown_loop s.self.num_buffers 0 s with
  | Except.error e => Except.error e
  | Except.ok s1 =>
    let s2 : St := { s1 with self := { s1.self with buffers := none } }
    Except.ok (0, s2.log (Event.reqbufs 0 (dev.reqbufs s2.trace 0)))

/-- The function `v4l2_stream_on`. -/
def v4l2_stream_on (dev : Device) (s : St) : Int × St :=
  if dev.streamon s.trace then (0, s.log (Event.streamon true))
  else (-1, s.log (Event.streamon false))

/-- The function `v4l2_stream_off`. -/
def v4l2_stream_off (dev : Device) (s : St) : Int × St :=
  if dev.streamoff s.trace then (0, s.log (Event.streamoff true))
  else (-1, s.log (Event.streamoff false))

/-- The function `v4l2_try_produce_frame`.  `cam_unit_get_output_format` is the
unit's current format `fmt`. -/
def v4l2_try_produce_frame (dev : Device) (con : Consumer) (s : St) :
    Except (Fault × St) St :=
  if s.self.buffers_outstanding = s.self.num_buffers then
    Except.ok (s.log Event.nanosleep)
  else
    match dev.dqbuf s.trace with
    | none =>
      let s1 := s.log (Event.dqbuf none)
      let fmt := s1.self.fmt
      match v4l2_stream_shutdown dev s1 with
      | Except.error e => Except.error e
      | Except.ok r2 =>
        match v4l2_stream_init dev r2.2 fmt with
        | Except.error e => Except.error e
        | Except.ok r3 => Except.ok (v4l2_stream_on dev r3.2).2
    | some buf =>
      let s1 := s.log (Event.dqbuf (some buf))
      match read_slot s1.self.buffers buf.index with
      | Except.error f => Except.error (f, s1)
      | Except.ok p =>
        let fbuf : CamFrameBuffer :=
          { data := p, length := s1.self.buffer_length,
            timestamp := buf.tv_sec * 1000000 + buf.tv_usec,
            bytesused := buf.bytesused }
        let s2 := s1.log (Event.produce_frame fbuf (con s1.trace fbuf))
        Except.ok (s2.log (Event.qbuf buf.index (dev.qbuf s2.trace buf.index)))

/-! ## Views of a trace and auxiliary states -/

/-- The calls of a complete run of the mapping loop over the `n` slots
`i, i+1, ..`: query, map, enqueue for each slot in increasing order. -/
def ring_calls : Nat → Nat → List Call
  | _, 0 => []
  | i, n + 1 => Call.querybuf i :: Call.mmap :: Call.qbuf i :: ring_calls (i + 1) n

/-- The region an event maps: the pointer `mmap` returned and the length asked for. -/
def Event.mapped : Event → Option (Ptr × Nat)
  | Event.mmap len _ p => some (p, len)
  | _ => none

/-- The region an event unmaps. -/
def Event.unmapped : Event → Option (Ptr × Nat)
  | Event.munmap p len => some (p, len)
  | _ => none

/-- The frame an event hands to the consumer. -/
def Event.frame : Event → Option CamFrameBuffer
  | Event.produce_frame f _ => some f
  | _ => none

/-- The regions mapped by a run of events, in order. -/
def mmaps_of (evs : List Event) : List (Ptr × Nat) := evs.filterMap Event.mapped

/-- The regions unmapped by a run of events, in order. -/
def munmaps_of (evs : List Event) : List (Ptr × Nat) := evs.filterMap Event.unmapped

/-- The frames emitted by a run of events, in order. -/
def frames_of (evs : List Event) : List CamFrameBuffer := evs.filterMap Event.frame

/-- The length of the last region of a list, or `d` for the empty list. -/
def last_len : Nat → List (Ptr × Nat) → Nat
  | d, [] => d
  | _, r :: rs => last_len r.2 rs

/-- The unit right after the buffer request of `v4l2_stream_init` was granted
`G` buffers and the array was allocated. -/
def after_reqbufs (s : St) (fmt : CamUnitFormat) (G : Nat) : St :=
  { self := { s.self with num_buffers := G, buffers := some (List.replicate G Ptr.uninit) },
    trace := s.trace ++ [Event.s_fmt fmt true] ++ [Event.reqbufs NUM_BUFFERS (some G)] }

/-- The rest of `v4l2_stream_init` from the mapping loop on. -/
def finish_init (dev : Device) (s2 : St) : Except (Fault × St) (Int × St) :=
  if (init_loop dev s2.self.num_buffers 0 s2).1
      < (init_loop dev s2.self.num_buffers 0 s2).2.self.num_buffers then
    match unwind_loop (init_loop dev s2.self.num_buffers 0 s2).1
        ((init_loop dev s2.self.num_buffers 0 s2).1 + 1)
        (init_loop dev s2.self.num_buffers 0 s2).2 with
    | Except.error e => Except.error e
    | Except.ok s3 => Except.ok (-1, s3)
  else
    Except.ok (0, { (init_loop dev s2.self.num_buffers 0 s2).2 with
      self := { (init_loop dev s2.self.num_buffers 0 s2).2.self with buffers_outstanding := 0 } })

/-- The unit after a `v4l2_stream_shutdown` that found the array `l` behind `buffers`. -/
def after_shutdown (dev : Device) (s : St) (l : List Ptr) : St :=
  { self := { s.self with buffers := none },
    trace := s.trace ++
      (l.take s.self.num_buffers).map (fun p => Event.munmap p s.self.buffer_length) ++
      [Event.reqbufs 0 (dev.reqbufs (s.trace ++
        (l.take s.self.num_buffers).map (fun p => Event.munmap p s.self.buffer_length)) 0)] }

/-! ## Concrete devices and units -/

/-- A device on which every call succeeds: it grants `G` buffers, reports
length `len i` and offset `4096 * i` for slot `i`, maps offset `off` at address
`65536 + off`, and always dequeues slot 0. -/
def good_device (G : Nat) (len : Nat → Nat) : Device :=
  { s_fmt := fun _ _ => true,
    reqbufs := fun _ n => if n = 0 then some 0 else some G,
    querybuf := fun _ i => some (len i, 4096 * i),
    mmap := fun _ _ off => some (65536 + off),
    qbuf := fun _ _ => true,
    dqbuf := fun _ => some { index := 0, bytesused := 100, tv_sec := 1, tv_usec := 2 },
    streamon := fun _ => true,
    streamoff := fun _ => true }

/-- A 640x480 format. -/
def fmt0 : CamUnitFormat := { pixelformat := 1, width := 640, height := 480 }

/-- A freshly constructed unit whose device has been opened, with an empty trace. -/
def st0 : St :=
  { self := { cam_v4l2_init CamUnitStatus.idle fmt0 with fd := 3 }, trace := [] }

/-- A streaming unit with a ring of one mapped slot, with an empty trace. -/
def st_ring1 : St :=
  { self := { fd := 3, buffers := some [Ptr.addr 65536], num_buffers := 1,
              buffer_length := 4096, buffers_outstanding := 0,
              status := CamUnitStatus.streaming, fmt := fmt0 },
    trace := [] }

/-- A consumer that accepts every frame. -/
def con0 : Consumer := fun _ _ => 0

/-- Two granted buffers; the enqueue of slot 1 fails. -/
def dev_enqueue_fails_at_1 : Device :=
  { good_device 2 (fun _ => 4096) with qbuf := fun _ i => decide (i ≠ 1) }

/-- One granted buffer; `mmap` answers `MAP_FAILED`. -/
def dev_mmap_fails : Device :=
  { good_device 1 (fun _ => 4096) with mmap := fun _ _ _ => none }

/-- One granted buffer; every dequeue fails. -/
def dev_dequeue_fails : Device :=
  { good_device 1 (fun _ => 4096) with dqbuf := fun _ => none }

/-- Every dequeue fails and the device then rejects the format. -/
def dev_restart_fails : Device :=
  { good_device 1 (fun _ => 4096) with dqbuf := fun _ => none, s_fmt := fun _ _ => false }

/-- The dequeue fails on the first call only (empty history). -/
def dev_dequeue_fails_once : Device :=
  { good_device 1 (fun _ => 4096) with
    dqbuf := fun h =>
      match h with
      | [] => none
      | _ :: _ => some { index := 0, bytesused := 100, tv_sec := 1, tv_usec := 2 } }

/-- Two granted buffers of different lengths, 100 and 200 bytes. -/
def dev_two_lengths : Device := good_device 2 (fun i => 100 * (i + 1))

/-! ## Destruction, the pollable handle and the format catalog -/

/-- The function `v4l2_finalize`: a unit that is not Idle is shut down, then
the descriptor is closed.  Freeing the per-format `v4l2_format` records and the
parent finalizer make no call to the device. -/
def v4l2_finalize (dev : Device) (s : St) : Except (Fault × St) St :=
  match (if s.self.status ≠ CamUnitStatus.idle then v4l2_stream_shutdown dev s
         else Except.ok (0, s)) with
  | Except.error e => Except.error e
  | Except.ok r =>
    if 0 ≤ r.2.self.fd then
      Except.ok { self := { r.2.self with fd := -1 },
                  trace := r.2.trace ++ [Event.close r.2.self.fd] }
    else
      Except.ok r.2

/-- The function `v4l2_get_fileno`. -/
def v4l2_get_fileno (self : CamV4L2) : Int := self.fd

/-- The fields of `CamDC1394`, of its private part and of its parent `CamUnit`
the dc1394 unit uses: the descriptor and the status read by
`dc1394_get_fileno`; the packet size and the number of buffers written by
`dc1394_stream_init` (`cam_dc1394_init` sets `num_buffers` to 60 and
`embedded_timestamp` to 0); the flag `priv->embedded_timestamp`; and the unique
id `cam->euid_64` of the camera. -/
structure CamDC1394 where
  fd : Int
  status : CamUnitStatus
  packet_size : Nat := 0
  num_buffers : Int := 60
  embedded_timestamp : Int := 0
  euid_64 : Nat := 0
  deriving DecidableEq

/-- The function `dc1394_get_fileno`. -/
def dc1394_get_fileno (self : CamDC1394) : Int :=
  if self.status ≠ CamUnitStatus.idle then self.fd else -1

/-- Reduction of a natural number to an unsigned 32-bit value. -/
def u32 (n : Nat) : Nat := n % 4294967296

/-- The fields of `struct v4l2_pix_format` used by `add_v4l2_format`, each an
unsigned 32-bit quantity. -/
structure V4l2PixFormat where
  width : Nat
  height : Nat
  pixelformat : Nat
  bytesperline : Nat
  sizeimage : Nat
  deriving DecidableEq

/-- One entry of the unit's format catalog; `v4l2_format` is the record attached
under the key `input_v4l2:v4l2_format`. -/
structure OutputFormat where
  pixelformat : Nat
  width : Nat
  height : Nat
  row_stride : Nat
  max_data_size : Nat
  v4l2_format : Option V4l2PixFormat
  deriving DecidableEq

/-- Modelled from the spec: `cam_unit_add_output_format_full` is defined in
`cam_unit.c`, which is not among the sources; it records a Format Descriptor
with the given pixel encoding, width, height, row stride and maximum buffer
size at the end of the catalog and hands the new entry back. -/
def cam_unit_add_output_format_full (formats : List OutputFormat)
    (pixelformat width height row_stride max_data_size : Nat) :
    OutputFormat × List OutputFormat :=
  ({ pixelformat := pixelformat, width := width, height := height, row_stride := row_stride,
     max_data_size := max_data_size, v4l2_format := none },
   formats ++ [{ pixelformat := pixelformat, width := width, height := height,
                 row_stride := row_stride, max_data_size := max_data_size,
                 v4l2_format := none }])

/-- Attach the negotiated `v4l2_format` record to the last entry of the catalog
(`g_object_set_data` on the entry just added). -/
def set_v4l2_format (formats : List OutputFormat) (fmt : V4l2PixFormat) : List OutputFormat :=
  match formats.getLast? with
  | none => formats
  | some e => formats.dropLast ++ [{ e with v4l2_format := some fmt }]

/-- The function `add_v4l2_format`.  `try_fmt` is the device's answer to
`VIDIOC_TRY_FMT` (`none` when the ioctl fails) and `bpp` is
`cam_pixel_format_bpp`, which is not among the sources and is taken to return
a non-negative number.  The products are computed on 32-bit unsigned values as
in the source. -/
def add_v4l2_format (try_fmt : V4l2PixFormat → Option V4l2PixFormat) (bpp : Nat → Nat)
    (formats : List OutputFormat) (width height cam_pixelformat v4l2_pixelformat : Nat) :
    Int × List OutputFormat :=
  match try_fmt { width := width, height := height, pixelformat := v4l2_pixelformat,
                  bytesperline := 0, sizeimage := 0 } with
  | none => (-1, formats)
  | some fmt =>
    let fmt1 : V4l2PixFormat :=
      if u32 (fmt.height * fmt.bytesperline) > fmt.sizeimage then
        { fmt with bytesperline := u32 (fmt.width * bpp cam_pixelformat) / 8 }
      else fmt
    let r := cam_unit_add_output_format_full formats cam_pixelformat fmt1.width fmt1.height
      fmt1.bytesperline fmt1.sizeimage
    (0, set_v4l2_format r.2 fmt1)

/-! ## The control registry of the V4L2 unit -/

/-- The array sizes `#define MAX_INPUTS 32`. -/
def MAX_INPUTS : Nat := 32

/-- The loop bound `#define MAX_STANDARDS 64`. -/
def MAX_STANDARDS : Nat := 64

/-- The kinds of a `CamUnitControl`, one for each `cam_unit_add_control_*`
constructor used in the sources. -/
inductive CamUnitControlType where
  | int
  | boolean
  | enum
  | string
  | float
  deriving DecidableEq

/-- A `GValue` as handed to `try_set_control`: an integer, a boolean, a C
`float` (kept as its bit pattern, no arithmetic is done on it), or a value of
another type.  The V4L2 unit reads integers and booleans only. -/
inductive GValue where
  | int (v : Int)
  | boolean (b : Bool)
  | other (tag : Nat)
  | float (bits : Nat)
  deriving DecidableEq

/-- The GLib getter `g_value_get_int`: 0 for a value that holds no integer. -/
def g_value_get_int : GValue → Int
  | GValue.int v => v
  | _ => 0

/-- The GLib getter `g_value_get_boolean`, as the C integer 1 or 0. -/
def g_value_get_boolean : GValue → Int
  | GValue.boolean true => 1
  | _ => 0

/-- The GLib setter `g_value_set_boolean`: any non-zero integer is stored as TRUE. -/
def g_value_set_boolean (v : Int) : GValue := GValue.boolean (decide (v ≠ 0))

/-- A Control Descriptor: the fields of `CamUnitControl` and the data attached
to it by the V4L2 unit.  `handle` is the identity of the object (its address),
`one_shot` is the bit `CAM_UNIT_CONTROL_ONE_SHOT` of the ui hints,
`queryctrl_id` the data `input_v4l2:queryctrl_id`, `tuner_id` the data
`input_v4l2:tuner-id` (both 0 when never set) and `stds` the array attached as
`v4l2-stds` (`none` when never set).  For the dc1394 unit `dc1394_control_id`
is the data `dc1394-control-id`, and `fmin`, `fmax`, `fstep`, `fvalue` are the
bounds, step and value of a Float descriptor, kept as bit patterns. -/
structure CamUnitControl where
  handle : Nat
  id : String
  name : String
  type : CamUnitControlType
  min : Int
  max : Int
  step : Int
  value : Int
  enabled : Bool
  entries : List String
  one_shot : Bool
  queryctrl_id : Nat
  tuner_id : Nat
  stds : Option (List Nat)
  dc1394_control_id : Nat := 0
  fmin : Nat := 0
  fmax : Nat := 0
  fstep : Nat := 0
  fvalue : Nat := 0
  deriving DecidableEq

/-- Modelled from the spec: `cam_unit_add_control_int` is defined in
`cam_unit.c`, which is not among the sources; it builds an Integer descriptor
with the given id, label, bounds, step, initial value and enabled flag. -/
def cam_unit_add_control_int (handle : Nat) (id name : String) (min max step initial : Int)
    (enabled : Bool) : CamUnitControl :=
  { handle := handle, id := id, name := name, type := CamUnitControlType.int,
    min := min, max := max, step := step, value := initial, enabled := enabled,
    entries := [], one_shot := false, queryctrl_id := 0, tuner_id := 0, stds := none }

/-- Modelled from the spec: `cam_unit_add_control_boolean` is defined in
`cam_unit.c`, which is not among the sources; it builds a Boolean descriptor
with the given id, label, initial value and enabled flag. -/
def cam_unit_add_control_boolean (handle : Nat) (id name : String) (initial : Int)
    (enabled : Bool) : CamUnitControl :=
  { handle := handle, id := id, name := name, type := CamUnitControlType.boolean,
    min := 0, max := 1, step := 1, value := initial, enabled := enabled,
    entries := [], one_shot := false, queryctrl_id := 0, tuner_id := 0, stds := none }

/-- Modelled from the spec: `cam_unit_add_control_enum` is defined in
`cam_unit.c`, which is not among the sources; it builds an Enum descriptor with
the given id, label, initial value, enabled flag and option list. -/
def cam_unit_add_control_enum (handle : Nat) (id name : String) (initial : Int)
    (enabled : Bool) (entries : List String) : CamUnitControl :=
  { handle := handle, id := id, name := name, type := CamUnitControlType.enum,
    min := 0, max := (entries.length : Int) - 1, step := 1, value := initial,
    enabled := enabled, entries := entries, one_shot := false, queryctrl_id := 0,
    tuner_id := 0, stds := none }

/-- Modelled from the spec: `cam_unit_control_set_enabled` is defined in
`cam_unit_control.c`, which is not among the sources; it sets the enabled flag. -/
def cam_unit_control_set_enabled (ctl : CamUnitControl) (enabled : Bool) : CamUnitControl :=
  { ctl with enabled := enabled }

/-- Modelled from the spec: `cam_unit_control_modify_enum` is defined in
`cam_unit_control.c`, which is not among the sources; it replaces the enabled
flag and the whole option list of an Enum descriptor. -/
def cam_unit_control_modify_enum (ctl : CamUnitControl) (enabled : Bool)
    (entries : List String) : CamUnitControl :=
  { ctl with enabled := enabled, entries := entries, max := (entries.length : Int) - 1 }

/-- Modelled from the spec: `cam_unit_control_force_set_int` is defined in
`cam_unit_control.c`, which is not among the sources; it stores the value
without asking the unit. -/
def cam_unit_control_force_set_int (ctl : CamUnitControl) (v : Int) : CamUnitControl :=
  { ctl with value := v }

/-- One answer of `VIDIOC_ENUMSTD`: the standard's id bit mask and its name. -/
structure V4l2Standard where
  id : Nat
  name : String
  deriving DecidableEq

/-- The kinds of control `VIDIOC_QUERYCTRL` reports (`enum v4l2_ctrl_type`). -/
inductive V4l2CtrlType where
  | integer
  | boolean
  | menu
  | button
  | integer64
  | other
  deriving DecidableEq

/-- The fields of `struct v4l2_queryctrl` read by `add_control`. -/
structure V4l2Queryctrl where
  id : Nat
  type : V4l2CtrlType
  name : String
  minimum : Int
  maximum : Int
  step : Int
  default_value : Int
  flags : Nat
  deriving DecidableEq

/-- The outcome of `VIDIOC_QUERYCTRL`: the filled record, the error `EINVAL`
(no such control), or another error. -/
inductive QueryctrlRes where
  | ok (q : V4l2Queryctrl)
  | einval
  | error
  deriving DecidableEq

/-- One control call made by the unit, with the answer it received. -/
inductive CtlEvent where
  | s_input (val : Int) (ok : Bool)
  | g_std (res : Option Nat)
  | enumstd (index : Nat) (res : Option V4l2Standard)
  | s_std (std : Nat) (ok : Bool)
  | s_frequency (tuner : Int) (frequency : Int) (ok : Bool)
  | s_ctrl (id : Nat) (value : Int) (ok : Bool)
  | g_ctrl (id : Nat) (res : Option Int)
  | querymenu (id : Nat) (index : Nat) (res : Option String)
  | queryctrl (id : Nat) (res : QueryctrlRes)
  deriving DecidableEq

/-- The control side of the device behind `self->fd`: each answer depends on
the control calls made so far; `none` / `false` is the failure value. -/
structure CtlDevice where
  s_input : List CtlEvent → Int → Bool
  g_std : List CtlEvent → Option Nat
  enumstd : List CtlEvent → Nat → Option V4l2Standard
  s_std : List CtlEvent → Nat → Bool
  s_frequency : List CtlEvent → Int → Int → Bool
  s_ctrl : List CtlEvent → Nat → Int → Bool
  g_ctrl : List CtlEvent → Nat → Option Int
  querymenu : List CtlEvent → Nat → Nat → Option String
  queryctrl : List CtlEvent → Nat → QueryctrlRes := fun _ _ => QueryctrlRes.einval

/-- The control state of the unit: the descriptor behind `self->standard_ctl`
and the trace of control calls made so far. -/
structure CtlSt where
  standard_ctl : CamUnitControl
  trace : List CtlEvent
  deriving DecidableEq

/-- The local variables of the enumeration loop of `update_video_standards`. -/
structure EnumStd where
  i : Nat
  cur_val : Nat
  stds : List Nat
  std_descs : List String
  trace : List CtlEvent
  deriving DecidableEq

/-- The loop `while (ioctl (VIDIOC_ENUMSTD) == 0 && i < MAX_STANDARDS)` of
`update_video_standards`, with `n = MAX_STANDARDS - i`.  Both arrays have
`MAX_INPUTS` entries: a write at an index from `MAX_INPUTS` on is a fault. -/
def enumstd_loop (dev : CtlDevice) (stdid : Nat) :
    Nat → EnumStd → Except (Fault × List CtlEvent) EnumStd
  | 0, e => Except.ok { e with trace := e.trace ++ [CtlEvent.enumstd e.i (dev.enumstd e.trace e.i)] }
  | n + 1, e =>
    match dev.enumstd e.trace e.i with
    | none => Except.ok { e with trace := e.trace ++ [CtlEvent.enumstd e.i none] }
    | some std =>
      if e.i < MAX_INPUTS then
        enumstd_loop dev stdid n
          { i := e.i + 1,
            cur_val := if Nat.land std.id stdid ≠ 0 then e.i else e.cur_val,
            stds := e.stds ++ [std.id],
            std_descs := e.std_descs ++ [std.name],
            trace := e.trace ++ [CtlEvent.enumstd e.i (some std)] }
      else
        Except.error (Fault.out_of_bounds, e.trace ++ [CtlEvent.enumstd e.i (some std)])

/-- The function `update_video_standards`. -/
def update_video_standards (dev : CtlDevice) (s : CtlSt) (modify : Bool) :
    Except (Fault × CtlSt) (Int × CtlSt) :=
  let stdid := (dev.g_std s.trace).getD 0
  match enumstd_loop dev stdid MAX_STANDARDS
      { i := 0, cur_val := 0, stds := [], std_descs := [],
        trace := s.trace ++ [CtlEvent.g_std (dev.g_std s.trace)] } with
  | Except.error e => Except.error (e.1, { s with trace := e.2 })
  | Except.ok e =>
    if e.i = 0 then
      Except.ok (0, { standard_ctl := cam_unit_control_set_enabled s.standard_ctl false,
                      trace := e.trace })
    else if MAX_INPUTS ≤ e.i then
      Except.error (Fault.out_of_bounds, { s with trace := e.trace })
    else
      let c1 : CamUnitControl := { s.standard_ctl with stds := some e.stds }
      let c2 := if modify then cam_unit_control_modify_enum c1 true e.std_descs else c1
      Except.ok (0, { standard_ctl := cam_unit_control_force_set_int c2 e.cur_val,
                      trace := e.trace })

/-- The test `!strncmp (ctl->id, "tuner-", strlen ("tuner-"))`. -/
def has_tuner_tag (id : String) : Bool := id.toList.take 6 == "tuner-".toList

/-- The first `switch (ctl->type)` of `v4l2_try_set_control`: the value put in
`vctl.value` (zeroed by `memset` in the default case). -/
def vctl_value (type : CamUnitControlType) (proposed : GValue) : Int :=
  match type with
  | CamUnitControlType.int => g_value_get_int proposed
  | CamUnitControlType.enum => g_value_get_int proposed
  | CamUnitControlType.boolean => g_value_get_boolean proposed
  | _ => 0

/-- The second `switch (ctl->type)` of `v4l2_try_set_control`: the value of
`actual` after the read-back value `v` was stored (untouched in the default
case). -/
def store_readback (type : CamUnitControlType) (v : Int) (actual : GValue) : GValue :=
  match type with
  | CamUnitControlType.int => GValue.int v
  | CamUnitControlType.enum => GValue.int v
  | CamUnitControlType.boolean => g_value_set_boolean v
  | _ => actual

/-- The function `v4l2_try_set_control`.  It answers the returned `gboolean`,
the content of `actual` after the call and the new control state. -/
def v4l2_try_set_control (dev : CtlDevice) (s : CtlSt) (ctl : CamUnitControl)
    (proposed actual : GValue) : Except (Fault × CtlSt) (Bool × GValue × CtlSt) :=
  if ctl.id = "input" then
    let val := g_value_get_int proposed
    if dev.s_input s.trace val then
      let s1 : CtlSt := { s with trace := s.trace ++ [CtlEvent.s_input val true] }
      match update_video_standards dev s1 true with
      | Except.error e => Except.error e
      | Except.ok r => Except.ok (true, GValue.int val, r.2)
    else
      Except.ok (false, actual, { s with trace := s.trace ++ [CtlEvent.s_input val false] })
  else if ctl.handle = s.standard_ctl.handle then
    let val := g_value_get_int proposed
    match s.standard_ctl.stds with
    | none => Except.error (Fault.null_deref, s)
    | some stds =>
      if val < 0 then Except.error (Fault.out_of_bounds, s)
      else
        match stds[val.toNat]? with
        | none => Except.error (Fault.out_of_bounds, s)
        | some std =>
          if dev.s_std s.trace std then
            Except.ok (true, GValue.int val,
              { s with trace := s.trace ++ [CtlEvent.s_std std true] })
          else
            Except.ok (false, actual,
              { s with trace := s.trace ++ [CtlEvent.s_std std false] })
  else if has_tuner_tag ctl.id && decide (0 ≤ (ctl.tuner_id : Int) - 1) then
    let val := g_value_get_int proposed
    if dev.s_frequency s.trace ((ctl.tuner_id : Int) - 1) val then
      Except.ok (true, GValue.int val,
        { s with trace := s.trace ++ [CtlEvent.s_frequency ((ctl.tuner_id : Int) - 1) val true] })
    else
      Except.ok (false, actual,
        { s with trace := s.trace ++ [CtlEvent.s_frequency ((ctl.tuner_id : Int) - 1) val false] })
  else
    let v := vctl_value ctl.type proposed
    if dev.s_ctrl s.trace ctl.queryctrl_id v then
      let s1 : CtlSt := { s with trace := s.trace ++ [CtlEvent.s_ctrl ctl.queryctrl_id v true] }
      if ctl.one_shot then
        Except.ok (false, actual, s1)
      else
        match dev.g_ctrl s1.trace ctl.queryctrl_id with
        | none =>
          Except.ok (true, proposed,
            { s1 with trace := s1.trace ++ [CtlEvent.g_ctrl ctl.queryctrl_id none] })
        | some r =>
          Except.ok (true, store_readback ctl.type r actual,
            { s1 with trace := s1.trace ++ [CtlEvent.g_ctrl ctl.queryctrl_id (some r)] })
    else
      Except.ok (false, actual,
        { s with trace := s.trace ++ [CtlEvent.s_ctrl ctl.queryctrl_id v false] })

/-- A control that reaches the `// user control` part of `v4l2_try_set_control`:
its id is not `input`, it is not the standard control, and it is no tuner
control (tuner tag with a tuner id). -/
def is_user_control (s : CtlSt) (ctl : CamUnitControl) : Bool :=
  decide (ctl.id ≠ "input") && decide (ctl.handle ≠ s.standard_ctl.handle) &&
    !(has_tuner_tag ctl.id && decide (0 ≤ (ctl.tuner_id : Int) - 1))

/-- The kernel constant `V4L2_CID_BASE` of `linux/videodev2.h`. -/
def V4L2_CID_BASE : Nat := 0x00980900

/-- The kernel flag `V4L2_CTRL_FLAG_DISABLED`. -/
def V4L2_CTRL_FLAG_DISABLED : Nat := 0x0001

/-- The kernel flag `V4L2_CTRL_FLAG_READ_ONLY`. -/
def V4L2_CTRL_FLAG_READ_ONLY : Nat := 0x0004

/-- A 32-bit unsigned value read as a C `int` (the `%d` of `snprintf`). -/
def int_of_u32 (n : Nat) : Int :=
  if n < 2147483648 then (n : Int) else (n : Int) - 4294967296

/-- The conversion of a C `int` to a 32-bit unsigned value. -/
def u32_of_int (v : Int) : Nat := (v % 4294967296).toNat

/-- The `switch (queryctrl->id)` of `add_control`: the string id of the control. -/
def ctl_id_of (id : Nat) : String :=
  if id = V4L2_CID_BASE + 0 then "brightness"
  else if id = V4L2_CID_BASE + 1 then "contrast"
  else if id = V4L2_CID_BASE + 2 then "saturation"
  else if id = V4L2_CID_BASE + 3 then "hue"
  else if id = V4L2_CID_BASE + 5 then "audio-volume"
  else if id = V4L2_CID_BASE + 6 then "audio-balance"
  else if id = V4L2_CID_BASE + 7 then "audio-bass"
  else if id = V4L2_CID_BASE + 8 then "treble"
  else if id = V4L2_CID_BASE + 9 then "audio-mute"
  else if id = V4L2_CID_BASE + 10 then "audio-loudness"
  else if id = V4L2_CID_BASE + 11 then "black-level"
  else if id = V4L2_CID_BASE + 12 then "auto-white-balance"
  else if id = V4L2_CID_BASE + 13 then "do-white-balance"
  else if id = V4L2_CID_BASE + 14 then "white-balance-red"
  else if id = V4L2_CID_BASE + 15 then "white-balance-blue"
  else if id = V4L2_CID_BASE + 16 then "gamma"
  else if id = V4L2_CID_BASE + 17 then "exposure"
  else if id = V4L2_CID_BASE + 18 then "auto-gain"
  else if id = V4L2_CID_BASE + 19 then "gain"
  else if id = V4L2_CID_BASE + 20 then "h-flip"
  else if id = V4L2_CID_BASE + 21 then "v-flip"
  else if id = V4L2_CID_BASE + 22 then "h-center"
  else if id = V4L2_CID_BASE + 23 then "v-center"
  else "control-" ++ toString (int_of_u32 id)

/-- Modelled from the spec: `cam_unit_control_set_ui_hints` is defined in
`cam_unit_control.c`, which is not among the sources; called with
`CAM_UNIT_CONTROL_ONE_SHOT` it marks the descriptor as one-shot. -/
def cam_unit_control_set_ui_hints_one_shot (ctl : CamUnitControl) : CamUnitControl :=
  { ctl with one_shot := true }

/-- The option loop of the menu case of `add_control`, with `cap` entries of
`entries_enabled` still free; `bound` is `queryctrl->maximum` converted to
unsigned.  A successful query with no free entry is a write past the array. -/
def menu_loop (dev : CtlDevice) (id bound : Nat) :
    Nat → Nat → List String → List CtlEvent →
      Except (Fault × List CtlEvent) (List String × List CtlEvent)
  | 0, index, entries, tr =>
    if index ≤ bound then
      match dev.querymenu tr id index with
      | some name =>
        Except.error (Fault.out_of_bounds, tr ++ [CtlEvent.querymenu id index (some name)])
      | none => Except.ok (entries, tr ++ [CtlEvent.querymenu id index none])
    else Except.ok (entries, tr)
  | cap + 1, index, entries, tr =>
    if index ≤ bound then
      match dev.querymenu tr id index with
      | some name =>
        menu_loop dev id bound cap (u32 (index + 1)) (entries ++ [name])
          (tr ++ [CtlEvent.querymenu id index (some name)])
      | none => Except.ok (entries, tr ++ [CtlEvent.querymenu id index none])
    else Except.ok (entries, tr)

/-- The function `add_control` (with `V4L2_CTRL_FLAG_READ_ONLY` defined); `handle`
is the identity of the descriptor that is created.  It answers the new
descriptor, `none` when the kind is not supported. -/
def add_control (dev : CtlDevice) (tr : List CtlEvent) (handle : Nat) (q : V4l2Queryctrl) :
    Except (Fault × List CtlEvent) (Option CamUnitControl × List CtlEvent) :=
  let enabled : Bool :=
    !(decide (Nat.land q.flags V4L2_CTRL_FLAG_DISABLED ≠ 0) ||
      decide (Nat.land q.flags V4L2_CTRL_FLAG_READ_ONLY ≠ 0))
  let ctl_id := ctl_id_of q.id
  match q.type with
  | V4l2CtrlType.integer =>
    Except.ok (some { cam_unit_add_control_int handle ctl_id q.name q.minimum q.maximum q.step
                        q.default_value enabled with queryctrl_id := q.id }, tr)
  | V4l2CtrlType.boolean =>
    Except.ok (some { cam_unit_add_control_boolean handle ctl_id q.name q.default_value enabled
                        with queryctrl_id := q.id }, tr)
  | V4l2CtrlType.menu =>
    match menu_loop dev q.id (u32_of_int q.maximum) (q.maximum - q.minimum + 1).toNat
        (u32_of_int q.minimum) [] tr with
    | Except.error e => Except.error e
    | Except.ok r =>
      Except.ok (some { cam_unit_add_control_enum handle ctl_id q.name q.default_value enabled r.1
                          with queryctrl_id := q.id }, r.2)
  | V4l2CtrlType.button =>
    Except.ok (some { cam_unit_control_set_ui_hints_one_shot
                        (cam_unit_add_control_boolean handle ctl_id q.name 0 true)
                        with queryctrl_id := q.id }, tr)
  | V4l2CtrlType.integer64 => Except.ok (none, tr)
  | V4l2CtrlType.other => Except.ok (none, tr)

/-! ## Concrete control devices and controls -/

/-- A control device on which every call succeeds; it reads back `readback`
for every control and enumerates no video standard. -/
def good_ctl_device (readback : Int) : CtlDevice :=
  { s_input := fun _ _ => true,
    g_std := fun _ => some 0,
    enumstd := fun _ _ => none,
    s_std := fun _ _ => true,
    s_frequency := fun _ _ _ => true,
    s_ctrl := fun _ _ _ => true,
    g_ctrl := fun _ _ => some readback,
    querymenu := fun _ _ _ => none }

/-- The standard control as `add_all_controls` creates it, with handle 1. -/
def standard_ctl0 : CamUnitControl :=
  cam_unit_add_control_enum 1 "standard" "Standard" 0 false []

/-- The control state of a unit that has made no control call yet. -/
def ctl_st0 : CtlSt := { standard_ctl := standard_ctl0, trace := [] }

/-- The brightness control of a device: an integer control with bounds 0..255. -/
def brightness_q : V4l2Queryctrl :=
  { id := V4L2_CID_BASE, type := V4l2CtrlType.integer, name := "Brightness", minimum := 0,
    maximum := 255, step := 1, default_value := 128, flags := 0 }

/-- The descriptor `add_control` builds for the brightness control, with handle 2. -/
def brightness_ctl : CamUnitControl :=
  { cam_unit_add_control_int 2 "brightness" "Brightness" 0 255 1 128 true with
    queryctrl_id := V4L2_CID_BASE }

/-- A button control of a device (the do-white-balance action). -/
def button_q : V4l2Queryctrl :=
  { id := V4L2_CID_BASE + 13, type := V4l2CtrlType.button, name := "Do White Balance",
    minimum := 0, maximum := 0, step := 0, default_value := 0, flags := 0 }

/-- The descriptor `add_control` builds for the button control, with handle 3. -/
def button_ctl : CamUnitControl :=
  { cam_unit_control_set_ui_hints_one_shot
      (cam_unit_add_control_boolean 3 "do-white-balance" "Do White Balance" 0 true) with
    queryctrl_id := V4L2_CID_BASE + 13 }

/-- A unit in which all three granted slots are outstanding. -/
def st_full3 : St :=
  { self := { fd := 3,
              buffers := some [Ptr.addr 65536, Ptr.addr 69632, Ptr.addr 73728],
              num_buffers := 3, buffer_length := 4096, buffers_outstanding := 3,
              status := CamUnitStatus.streaming, fmt := fmt0 },
    trace := [] }

/-- A trial negotiation that reports 640x480 with the given stride and a buffer
of 614400 bytes. -/
def try_fmt_stride (stride : Nat) : V4l2PixFormat → Option V4l2PixFormat :=
  fun req => some { width := 640, height := 480, pixelformat := req.pixelformat,
                    bytesperline := stride, sizeimage := 614400 }

/-- A pixel-format table with 16 bits per pixel for every encoding. -/
def bpp16 : Nat → Nat := fun _ => 16

/-- A control device that refuses every `VIDIOC_S_CTRL`. -/
def ctl_dev_set_fails : CtlDevice :=
  { good_ctl_device 7 with s_ctrl := fun _ _ _ => false }

/-- A control device that accepts `VIDIOC_S_CTRL` and refuses every `VIDIOC_G_CTRL`. -/
def ctl_dev_get_fails : CtlDevice :=
  { good_ctl_device 7 with g_ctrl := fun _ _ => none }

/-! ## Control discovery of the V4L2 unit -/

/-- The kernel constant `V4L2_CID_PRIVATE_BASE` of `linux/videodev2.h`. -/
def V4L2_CID_PRIVATE_BASE : Nat := 0x08000000

/-- The registry of descriptors built so far, with the trace of control calls.
A new descriptor takes its position in the registry as `handle`. -/
structure CtlReg where
  controls : List CamUnitControl
  trace : List CtlEvent
  deriving DecidableEq

/-- The test `queryctrl.flags & V4L2_CTRL_FLAG_DISABLED` of `add_user_controls`. -/
def ctrl_disabled (q : V4l2Queryctrl) : Bool :=
  decide (Nat.land q.flags V4L2_CTRL_FLAG_DISABLED ≠ 0)

/-- The call `add_control (self, &queryctrl)` made from `add_user_controls`: the
descriptor, when one is built, is added to the registry. -/
def discover_one (dev : CtlDevice) (r : CtlReg) (q : V4l2Queryctrl) :
    Except (Fault × CtlReg) CtlReg :=
  match add_control dev r.trace r.controls.length q with
  | Except.error e => Except.error (e.1, { r with trace := e.2 })
  | Except.ok (none, tr) => Except.ok { r with trace := tr }
  | Except.ok (some c, tr) => Except.ok { controls := r.controls ++ [c], trace := tr }

/-- The first loop of `add_user_controls`, over the base range, with `n` ids left
from `id`: a refused query of any kind goes on to the next id. -/
def base_loop (dev : CtlDevice) : Nat → Nat → CtlReg → Except (Fault × CtlReg) CtlReg
  | 0, _, r => Except.ok r
  | n + 1, id, r =>
    match dev.queryctrl r.trace id with
    | QueryctrlRes.ok q =>
      if ctrl_disabled q then
        base_loop dev n (id + 1)
          { r with trace := r.trace ++ [CtlEvent.queryctrl id (QueryctrlRes.ok q)] }
      else
        match discover_one dev
            { r with trace := r.trace ++ [CtlEvent.queryctrl id (QueryctrlRes.ok q)] } q with
        | Except.error e => Except.error e
        | Except.ok r2 => base_loop dev n (id + 1) r2
    | QueryctrlRes.einval =>
      base_loop dev n (id + 1)
        { r with trace := r.trace ++ [CtlEvent.queryctrl id QueryctrlRes.einval] }
    | QueryctrlRes.error =>
      base_loop dev n (id + 1)
        { r with trace := r.trace ++ [CtlEvent.queryctrl id QueryctrlRes.error] }

/-- The second loop of `add_user_controls`, over the private range, with `n` ids
left from `id`: a query refused with `EINVAL` leaves the loop. -/
def private_loop (dev : CtlDevice) : Nat → Nat → CtlReg → Except (Fault × CtlReg) CtlReg
  | 0, _, r => Except.ok r
  | n + 1, id, r =>
    match dev.queryctrl r.trace id with
    | QueryctrlRes.ok q =>
      if ctrl_disabled q then
        private_loop dev n (id + 1)
          { r with trace := r.trace ++ [CtlEvent.queryctrl id (QueryctrlRes.ok q)] }
      else
        match discover_one dev
            { r with trace := r.trace ++ [CtlEvent.queryctrl id (QueryctrlRes.ok q)] } q with
        | Except.error e => Except.error e
        | Except.ok r2 => private_loop dev n (id + 1) r2
    | QueryctrlRes.einval =>
      Except.ok { r with trace := r.trace ++ [CtlEvent.queryctrl id QueryctrlRes.einval] }
    | QueryctrlRes.error =>
      private_loop dev n (id + 1)
        { r with trace := r.trace ++ [CtlEvent.queryctrl id QueryctrlRes.error] }

/-- The function `add_user_controls`.  `n_base` is the number of ids of the base
range, `V4L2_CID_LASTP1 - V4L2_CID_BASE`, which depends on the version of
`linux/videodev2.h`. -/
def add_user_controls (dev : CtlDevice) (n_base : Nat) (r : CtlReg) :
    Except (Fault × CtlReg) CtlReg :=
  match base_loop dev n_base V4L2_CID_BASE r with
  | Except.error e => Except.error e
  | Except.ok r1 => private_loop dev 100 V4L2_CID_PRIVATE_BASE r1

/-- The kinds for which `add_control` builds a descriptor. -/
def kind_supported : V4l2CtrlType → Bool
  | V4l2CtrlType.integer => true
  | V4l2CtrlType.boolean => true
  | V4l2CtrlType.menu => true
  | V4l2CtrlType.button => true
  | _ => false

/-- The id of the descriptor a query event leads to: the control is reported,
not flagged disabled and of a supported kind. -/
def CtlEvent.built : CtlEvent → Option Nat
  | CtlEvent.queryctrl _ (QueryctrlRes.ok q) =>
    if !ctrl_disabled q && kind_supported q.type then some q.id else none
  | _ => none

/-- The control id a query event asks for. -/
def CtlEvent.queried : CtlEvent → Option Nat
  | CtlEvent.queryctrl id _ => some id
  | _ => none

/-- The query events of a run that were refused with `EINVAL`. -/
def CtlEvent.refused : CtlEvent → Option Nat
  | CtlEvent.queryctrl id QueryctrlRes.einval => some id
  | _ => none

/-- The successful option queries of a menu from `index` on, one per name. -/
def menu_ok_events (id : Nat) : Nat → List String → List CtlEvent
  | _, [] => []
  | index, n :: ns => CtlEvent.querymenu id index (some n) :: menu_ok_events id (index + 1) ns

/-- The minimum and the maximum a device reports for a menu are both
non-negative values of a C `int`. -/
def menu_range_ok (q : V4l2Queryctrl) : Bool :=
  decide (0 ≤ q.minimum) && decide (q.minimum < 2147483648) &&
    decide (0 ≤ q.maximum) && decide (q.maximum < 2147483648)

/-- The states of the V4L2 unit that its operations can reach on a device: the
constructed unit with its descriptor field set by `cam_v4l2_new`, and every state
one of `v4l2_stream_init`, `v4l2_stream_on`, `v4l2_try_produce_frame`,
`v4l2_stream_off`, `v4l2_stream_shutdown` returns from.  The fields `status`
and `fmt` of the parent `CamUnit` are written by `cam_unit.c`, which is not
among the sources: any change of them is a step too. -/
inductive Reachable (dev : Device) (con : Consumer) : St → Prop where
  | construct (status : CamUnitStatus) (fmt : CamUnitFormat) (fd : Int) :
      Reachable dev con { self := { cam_v4l2_init status fmt with fd := fd }, trace := [] }
  | stream_init {s s1 : St} (fmt : CamUnitFormat) (r : Int) :
      Reachable dev con s → v4l2_stream_init dev s fmt = Except.ok (r, s1) →
      Reachable dev con s1
  | stream_on {s : St} : Reachable dev con s → Reachable dev con (v4l2_stream_on dev s).2
  | stream_off {s : St} : Reachable dev con s → Reachable dev con (v4l2_stream_off dev s).2
  | try_produce_frame {s s1 : St} :
      Reachable dev con s → v4l2_try_produce_frame dev con s = Except.ok s1 →
      Reachable dev con s1
  | stream_shutdown {s s1 : St} (r : Int) :
      Reachable dev con s → v4l2_stream_shutdown dev s = Except.ok (r, s1) →
      Reachable dev con s1
  | parent {s : St} (status : CamUnitStatus) (fmt : CamUnitFormat) :
      Reachable dev con s →
      Reachable dev con { s with self := { s.self with status := status, fmt := fmt } }

/-- The fault a run ended with, if any. -/
def fault_of {σ α : Type} : Except (Fault × σ) α → Option Fault
  | Except.error e => some e.1
  | Except.ok _ => none

/-- A control device that enumerates exactly the video standards of the list `l`,
reports the first one as current, and accepts every other call. -/
def std_device (l : List V4l2Standard) : CtlDevice :=
  { good_ctl_device 0 with
    g_std := fun _ => (l.head?).map (fun x => x.id),
    enumstd := fun _ i => l[i]? }

/-- The three analog standards of one input. -/
def three_standards : List V4l2Standard :=
  [{ id := 1, name := "PAL" }, { id := 2, name := "NTSC" }, { id := 4, name := "SECAM" }]

/-- Thirty-two standards, as many as the arrays of `update_video_standards` hold. -/
def thirty_two_standards : List V4l2Standard :=
  List.replicate 32 { id := 1, name := "PAL" }

/-- The `input` control as `add_all_controls` creates it, with handle 0. -/
def input_ctl : CamUnitControl :=
  cam_unit_add_control_enum 0 "input" "Input" 0 true ["Composite", "S-Video"]

/-- A control state whose standard control lists the standards of the previous
input. -/
def ctl_st_pal : CtlSt :=
  { standard_ctl := { cam_unit_add_control_enum 1 "standard" "Standard" 0 true ["PAL", "NTSC"]
                      with stds := some [1, 2] },
    trace := [] }

/-- The state a fresh unit reaches by a successful initialisation with two
granted buffers. -/
def st_initialised : St :=
  match v4l2_stream_init (good_device 2 (fun _ => 4096)) st0 fmt0 with
  | Except.ok r => r.2
  | Except.error e => e.2

/-- A control device whose menus all have the options `names`, the first one at
index `lo`: an option query past the last name fails. -/
def menu_device (lo : Nat) (names : List String) : CtlDevice :=
  { good_ctl_device 0 with
    querymenu := fun _ _ index => if lo ≤ index then names[index - lo]? else none }

/-- A menu control of a device (the power line frequency) with the option range
0..3. -/
def power_line_q : V4l2Queryctrl :=
  { id := V4L2_CID_BASE + 24, type := V4l2CtrlType.menu, name := "Power Line Frequency",
    minimum := 0, maximum := 3, step := 1, default_value := 1, flags := 0 }

/-- An integer control flagged disabled, at the second id of the base range. -/
def disabled_q : V4l2Queryctrl :=
  { id := V4L2_CID_BASE + 1, type := V4l2CtrlType.integer, name := "Contrast", minimum := 0,
    maximum := 255, step := 1, default_value := 128, flags := V4L2_CTRL_FLAG_DISABLED }

/-- A 64-bit integer control, reported and not flagged disabled, at the third
id of the base range. -/
def int64_q : V4l2Queryctrl :=
  { id := V4L2_CID_BASE + 2, type := V4l2CtrlType.integer64, name := "Timestamp", minimum := 0,
    maximum := 0, step := 0, default_value := 0, flags := 0 }

/-- A boolean control at the second id of the private range. -/
def private_q : V4l2Queryctrl :=
  { id := V4L2_CID_PRIVATE_BASE + 1, type := V4l2CtrlType.boolean, name := "Backlight",
    minimum := 0, maximum := 1, step := 1, default_value := 0, flags := 0 }

/-- A control device that reports brightness, a disabled contrast control and
a 64-bit control in the base range, and one private control at the second
private id; every other id is refused with `EINVAL`. -/
def discovery_device : CtlDevice :=
  { good_ctl_device 0 with
    queryctrl := fun _ id =>
      if id = V4L2_CID_BASE then QueryctrlRes.ok brightness_q
      else if id = V4L2_CID_BASE + 1 then QueryctrlRes.ok disabled_q
      else if id = V4L2_CID_BASE + 2 then QueryctrlRes.ok int64_q
      else if id = V4L2_CID_PRIVATE_BASE + 1 then QueryctrlRes.ok private_q
      else QueryctrlRes.einval }

/-- The same device with its private control at the first private id. -/
def discovery_device2 : CtlDevice :=
  { good_ctl_device 0 with
    queryctrl := fun _ id =>
      if id = V4L2_CID_BASE then QueryctrlRes.ok brightness_q
      else if id = V4L2_CID_BASE + 1 then QueryctrlRes.ok disabled_q
      else if id = V4L2_CID_PRIVATE_BASE then
        QueryctrlRes.ok { private_q with id := V4L2_CID_PRIVATE_BASE }
      else QueryctrlRes.einval }

/-- The number of ids of the base range in the kernel headers that end it with
`V4L2_CID_VCENTER`. -/
def n_base_24 : Nat := 24

/-- The empty registry with an empty trace. -/
def reg0 : CtlReg := { controls := [], trace := [] }

/-! ## The dc1394 unit -/

/-- Reduction of a natural number to an unsigned 64-bit value. -/
def u64 (n : Nat) : Nat := n % 18446744073709551616

/-- The conversion of an integer to a 64-bit unsigned value. -/
def u64_of_int (v : Int) : Nat := (v % 18446744073709551616).toNat

/-- The color codings `DC1394_COLOR_CODING_*` named in `dc1394_pixel_format`;
`other` is any value the `switch` has no case for. -/
inductive Dc1394ColorCoding where
  | mono8
  | yuv411
  | yuv422
  | yuv444
  | rgb8
  | mono16
  | rgb16
  | mono16s
  | rgb16s
  | raw8
  | raw16
  | other
  deriving DecidableEq

/-- The color filters `DC1394_COLOR_FILTER_*`; `other` is any value the inner
`switch` has no case for. -/
inductive Dc1394ColorFilter where
  | rggb
  | gbrg
  | grbg
  | bggr
  | other
  deriving DecidableEq

/-- The pixel formats `CAM_PIXEL_FORMAT_*` that `dc1394_pixel_format` returns,
by name (their values are in `libcam/pixels.h`, which is not among the
sources); `zero` is the value 0 of the final `return 0`. -/
inductive CamPixelFormat where
  | zero
  | bayer_rggb
  | bayer_gbrg
  | bayer_grbg
  | bayer_bggr
  | gray
  | iyu1
  | uyvy
  | iyu2
  | rgb
  | gray16
  | rgb16
  | signed_gray16
  | signed_rgb16
  deriving DecidableEq

/-- The function `dc1394_pixel_format`. -/
def dc1394_pixel_format (color : Dc1394ColorCoding) (filter : Dc1394ColorFilter) :
    CamPixelFormat :=
  match color with
  | Dc1394ColorCoding.mono8 | Dc1394ColorCoding.raw8 =>
    match filter with
    | Dc1394ColorFilter.rggb => CamPixelFormat.bayer_rggb
    | Dc1394ColorFilter.gbrg => CamPixelFormat.bayer_gbrg
    | Dc1394ColorFilter.grbg => CamPixelFormat.bayer_grbg
    | Dc1394ColorFilter.bggr => CamPixelFormat.bayer_bggr
    | Dc1394ColorFilter.other => CamPixelFormat.gray
  | Dc1394ColorCoding.yuv411 => CamPixelFormat.iyu1
  | Dc1394ColorCoding.yuv422 => CamPixelFormat.uyvy
  | Dc1394ColorCoding.yuv444 => CamPixelFormat.iyu2
  | Dc1394ColorCoding.rgb8 => CamPixelFormat.rgb
  | Dc1394ColorCoding.mono16 => CamPixelFormat.gray16
  | Dc1394ColorCoding.rgb16 => CamPixelFormat.rgb16
  | Dc1394ColorCoding.mono16s => CamPixelFormat.signed_gray16
  | Dc1394ColorCoding.rgb16s => CamPixelFormat.signed_rgb16
  | Dc1394ColorCoding.raw16 => CamPixelFormat.gray16
  | Dc1394ColorCoding.other => CamPixelFormat.zero

/-- One entry of `dc1394format7modeset_t`: the fields of `dc1394format7mode_t`
read by `dc1394_stream_init`; `color_codings` is the array
`color_codings.codings`. -/
structure Dc1394Format7Mode where
  color_codings : List Dc1394ColorCoding
  color_filter : Dc1394ColorFilter
  max_size_x : Nat
  max_size_y : Nat
  deriving DecidableEq

/-- A `CamUnitFormat` of the dc1394 unit: pixel format and size, with the data
`input_dc1394-format7-mode` and `input_dc1394-color-coding` attached to it by
`cam_dc1394_new`. -/
structure Dc1394UnitFormat where
  pixelformat : CamPixelFormat
  width : Nat
  height : Nat
  format7_mode : Int
  color_coding : Int
  deriving DecidableEq

/-- The fields of `dc1394video_frame_t` read by `dc1394_try_produce_frame`;
`image` is the content of the image buffer, one `uint8_t` per entry. -/
structure Dc1394VideoFrame where
  image : List Nat
  image_bytes : Nat
  frames_behind : Nat
  timestamp : Nat
  deriving DecidableEq

/-- The `CamFrameBuffer` the dc1394 unit hands on: the bytes of the image, the
two lengths, the timestamp as the 64-bit value stored, and the metadata
`Source GUID`, kept as the number that is printed. -/
structure Dc1394FrameBuffer where
  data : List Nat
  length : Nat
  bytesused : Nat
  timestamp : Nat
  source_guid : Nat
  deriving DecidableEq

/-- The struct `raw1394_cycle_timer`. -/
structure Raw1394CycleTimer where
  cycle_timer : Nat
  local_time : Nat
  deriving DecidableEq

/-- The fields of `dc1394feature_info_t` read by `dc1394_try_set_control`.
The integer fields are `uint32_t`; the three `float` fields are kept as bit
patterns; `trigger_mode` is kept relative to `DC1394_TRIGGER_MODE_0`. -/
structure Dc1394FeatureInfo where
  is_on : Bool
  auto_active : Bool
  readout_capable : Bool
  min : Nat
  max : Nat
  value : Nat
  RV_value : Nat
  BU_value : Nat
  abs_min : Nat
  abs_max : Nat
  abs_value : Nat
  trigger_mode : Int
  deriving DecidableEq

/-- One call made by the dc1394 unit, with the answer it received.  Video modes
are kept relative to `DC1394_VIDEO_MODE_FORMAT7_0`, trigger modes relative to
`DC1394_TRIGGER_MODE_0` and trigger sources relative to
`DC1394_TRIGGER_SOURCE_MIN`; a switch is `true` for `DC1394_ON`; the mode of
`feature_set_mode` is `true` for `DC1394_FEATURE_MODE_AUTO`. -/
inductive DcEvent where
  | format7_get_modeset (info : List Dc1394Format7Mode)
  | video_set_mode (vidmode : Int)
  | video_set_iso_speed_400
  | format7_set_image_size (vidmode : Int) (width height : Nat)
  | format7_set_image_position (vidmode : Int) (left top : Nat)
  | format7_set_color_coding (vidmode : Int) (coding : Dc1394ColorCoding)
  | format7_get_packet_para (vidmode : Int) (psize_unit psize_max : Nat)
  | format7_set_byte_per_packet (vidmode : Int) (packet_size : Nat)
  | format7_get_total_bytes (vidmode : Int) (bytes : Nat)
  | capture_setup (num_buffers : Int) (ok : Bool)
  | capture_get_fileno (fd : Int)
  | capture_dequeue (res : Option Dc1394VideoFrame)
  | get_cycle_timer (res : Option Raw1394CycleTimer)
  | produce_frame (buf : Dc1394FrameBuffer)
  | capture_enqueue (frame : Dc1394VideoFrame)
  | external_trigger_set_polarity (v : Int)
  | external_trigger_get_polarity (res : Int)
  | external_trigger_set_source (v : Int)
  | external_trigger_get_source (res : Int)
  | software_trigger_set_power (v : Int)
  | software_trigger_get_power (res : Int)
  | external_trigger_set_power (power : Bool)
  | external_trigger_set_mode (mode : Int)
  | feature_set_power (id : Nat) (power : Bool)
  | feature_set_mode (id : Nat) (is_auto : Bool)
  | get_camera_feature (id : Nat) (f : Dc1394FeatureInfo)
  | feature_whitebalance_set_value (u_b_value v_r_value : Int)
  | feature_set_absolute_value (id : Nat) (bits : Nat)
  | feature_set_value (id : Nat) (v : Int)
  deriving DecidableEq

/-- The camera and the bus behind the dc1394 unit: every answer of the library
is a function of the calls made so far.  The calls whose result the unit does
not check (all but the dequeue, the capture setup and the cycle timer read)
are taken to succeed and to fill their output. -/
structure DcDevice where
  format7_get_modeset : List DcEvent → List Dc1394Format7Mode
  format7_get_packet_para : List DcEvent → Int → Nat × Nat
  format7_get_total_bytes : List DcEvent → Int → Nat
  capture_setup : List DcEvent → Int → Bool
  capture_get_fileno : List DcEvent → Int
  capture_dequeue : List DcEvent → Option Dc1394VideoFrame
  get_cycle_timer : List DcEvent → Option Raw1394CycleTimer
  external_trigger_get_polarity : List DcEvent → Int
  external_trigger_get_source : List DcEvent → Int
  software_trigger_get_power : List DcEvent → Int
  get_camera_feature : List DcEvent → Nat → Dc1394FeatureInfo

/-- The dc1394 unit, its control registry (in the order of creation) and the
trace of the calls made so far. -/
structure DcSt where
  self : CamDC1394
  controls : List CamUnitControl
  trace : List DcEvent
  deriving DecidableEq

/-- Append one event to the trace. -/
def DcSt.log (s : DcSt) (e : DcEvent) : DcSt :=
  { s with trace := s.trace ++ [e] }

/-- The function `cam_dc1394_init`, on a unit with the given descriptor and
status. -/
def cam_dc1394_init (fd : Int) (status : CamUnitStatus) : CamDC1394 :=
  { fd := fd, status := status, embedded_timestamp := 0, num_buffers := 60 }

/-- Modelled from the spec: `cam_unit_find_control` is defined in `cam_unit.c`,
which is not among the sources; it answers the first descriptor of the
registry with the given id, `none` for `NULL`. -/
def cam_unit_find_control : List CamUnitControl → String → Option CamUnitControl
  | [], _ => none
  | c :: cs, id => if c.id = id then some c else cam_unit_find_control cs id

/-- A write through the pointer `cam_unit_find_control` answered: `f` is applied
to the first descriptor of the registry with the given id. -/
def update_control (f : CamUnitControl → CamUnitControl) :
    List CamUnitControl → String → List CamUnitControl
  | [], _ => []
  | c :: cs, id => if c.id = id then f c :: cs else c :: update_control f cs id

/-- Modelled from the spec: `cam_unit_control_get_int` is defined in
`cam_unit_control.c`, which is not among the sources; it answers the current
value of an Integer descriptor. -/
def cam_unit_control_get_int (ctl : CamUnitControl) : Int := ctl.value

/-- Modelled from the spec: `cam_unit_control_modify_int` is defined in
`cam_unit_control.c`, which is not among the sources; it replaces the bounds,
the step and the enabled flag of an Integer descriptor. -/
def cam_unit_control_modify_int (ctl : CamUnitControl) (min max step : Int) (enabled : Bool) :
    CamUnitControl :=
  { ctl with min := min, max := max, step := step, enabled := enabled }

/-- Modelled from the spec: `cam_unit_control_modify_float` is defined in
`cam_unit_control.c`, which is not among the sources; it replaces the bounds,
the step and the enabled flag of a Float descriptor. -/
def cam_unit_control_modify_float (ctl : CamUnitControl) (min max step : Nat) (enabled : Bool) :
    CamUnitControl :=
  { ctl with fmin := min, fmax := max, fstep := step, enabled := enabled }

/-- Modelled from the spec: `cam_unit_control_force_set_float` is defined in
`cam_unit_control.c`, which is not among the sources; it stores the value
without asking the unit. -/
def cam_unit_control_force_set_float (ctl : CamUnitControl) (v : Nat) : CamUnitControl :=
  { ctl with fvalue := v }

/-- The macro `CYCLE_TIMER_TO_USEC`, in 32-bit unsigned arithmetic. -/
def CYCLE_TIMER_TO_USEC (cycle secmask : Nat) : Nat :=
  u32 (u32 (u32 (Nat.land (u32 cycle >>> 25) secmask * 1000000) +
            u32 ((Nat.land (u32 cycle) 0x01fff000 >>> 12) * 125)) +
       u32 (Nat.land (u32 cycle) 0x00000fff * 125) / 3072)

/-- The macro `CYCLE_TIMER_MAX_USEC`. -/
def CYCLE_TIMER_MAX_USEC (secmask : Int) : Int := (secmask + 1) * 1000000

/-- The `uint32_t bus_timestamp` of `dc1394_try_produce_frame`: the first four
bytes of the image as a big-endian number with its low 4 bits cleared; `none`
when the image has fewer than four bytes. -/
def bus_timestamp (data : List Nat) : Option Nat :=
  match data with
  | b0 :: b1 :: b2 :: b3 :: _ =>
    some (Nat.land
      (u32 (Nat.lor (Nat.lor (Nat.lor ((b0 % 256) <<< 24) ((b1 % 256) <<< 16))
        ((b2 % 256) <<< 8)) (b3 % 256)))
      0xfffffff0)
  | _ => none

/-- The `int usec_diff` of `dc1394_try_produce_frame`: the unsigned 32-bit
difference of the two microsecond values read as an `int`, plus
`CYCLE_TIMER_MAX_USEC (0x7f)` when negative. -/
def usec_diff (cycle_timer bus : Nat) : Int :=
  let cycle_usec_now := CYCLE_TIMER_TO_USEC cycle_timer 0x7f
  let d := int_of_u32 (u32 (cycle_usec_now + 4294967296 - CYCLE_TIMER_TO_USEC bus 0x7f))
  if d < 0 then d + CYCLE_TIMER_MAX_USEC 0x7f else d

/-- The loop `for (i = 0; i < 100 && ct.cycle_timer == 0xffffffff; i++)` of
`dc1394_try_produce_frame` with `n` rounds left: a failed `ioctl` leaves `ct`
as it is. -/
def cycle_timer_loop (dev : DcDevice) :
    Nat → Raw1394CycleTimer → List DcEvent → Raw1394CycleTimer × List DcEvent
  | 0, ct, tr => (ct, tr)
  | n + 1, ct, tr =>
    if ct.cycle_timer = 0xffffffff then
      match dev.get_cycle_timer tr with
      | none => cycle_timer_loop dev n ct (tr ++ [DcEvent.get_cycle_timer none])
      | some r =>
        cycle_timer_loop dev n
          { cycle_timer := u32 r.cycle_timer, local_time := u64 r.local_time }
          (tr ++ [DcEvent.get_cycle_timer (some r)])
    else (ct, tr)

/-- The function `dc1394_try_produce_frame` (without `USE_RAW1394`).  The
warning about frames left behind only prints and is left out. -/
def dc1394_try_produce_frame (dev : DcDevice) (s : DcSt) : Except (Fault × DcSt) DcSt :=
  if s.self.status ≠ CamUnitStatus.streaming then Except.ok s
  else
    match dev.capture_dequeue s.trace with
    | none => Except.ok (s.log (DcEvent.capture_dequeue none))
    | some frame =>
      let s1 := s.log (DcEvent.capture_dequeue (some frame))
      let r := cycle_timer_loop dev 100 { cycle_timer := 0xffffffff, local_time := 0 } s1.trace
      let ct := r.1
      let s2 : DcSt := { s1 with trace := r.2 }
      if s.self.embedded_timestamp ≠ 0 ∧ ct.cycle_timer ≠ 0xffffffff then
        match bus_timestamp frame.image with
        | none => Except.error (Fault.out_of_bounds, s2)
        | some bus =>
          let buf : Dc1394FrameBuffer :=
            { data := frame.image, length := frame.image_bytes, bytesused := frame.image_bytes,
              timestamp := u64_of_int ((ct.local_time : Int) - usec_diff ct.cycle_timer bus),
              source_guid := s.self.euid_64 }
          Except.ok ((s2.log (DcEvent.produce_frame buf)).log (DcEvent.capture_enqueue frame))
      else
        let buf : Dc1394FrameBuffer :=
          { data := frame.image, length := frame.image_bytes, bytesused := frame.image_bytes,
            timestamp := u64 frame.timestamp, source_guid := s.self.euid_64 }
        Except.ok ((s2.log (DcEvent.produce_frame buf)).log (DcEvent.capture_enqueue frame))

/-- The frames handed on in a trace of the dc1394 unit, in order. -/
def DcEvent.frame : DcEvent → Option Dc1394FrameBuffer
  | DcEvent.produce_frame buf => some buf
  | _ => none

/-- The frames given back to the capture ring in a trace, in order. -/
def DcEvent.enqueued : DcEvent → Option Dc1394VideoFrame
  | DcEvent.capture_enqueue frame => some frame
  | _ => none

/-- The cycle-count field of a cycle timer value (bits 12 to 24). -/
def cycle_count (cycle : Nat) : Nat := Nat.land (u32 cycle) 0x01fff000 >>> 12

/-- The cycle-offset field of a cycle timer value (bits 0 to 11). -/
def cycle_offset (cycle : Nat) : Nat := Nat.land (u32 cycle) 0x00000fff

/-- A frame of eight bytes whose first four carry the bus time 9 s, cycle 7000,
offset 80, with the frame count 3 in the low four bits. -/
def frame0 : Dc1394VideoFrame :=
  { image := [19, 181, 128, 83, 0, 0, 0, 0], image_bytes := 8, frames_behind := 0,
    timestamp := 1700000000000000 }

/-- A Format 7 mode of 640x480 with the single color coding MONO8. -/
def mode0 : Dc1394Format7Mode :=
  { color_codings := [Dc1394ColorCoding.mono8], color_filter := Dc1394ColorFilter.other,
    max_size_x := 640, max_size_y := 480 }

/-- A feature that is on, under automatic control, with the range 0..511. -/
def feature_auto : Dc1394FeatureInfo :=
  { is_on := true, auto_active := true, readout_capable := true, min := 0, max := 511,
    value := 100, RV_value := 0, BU_value := 0, abs_min := 0, abs_max := 0, abs_value := 0,
    trigger_mode := 0 }

/-- A camera on which every call succeeds: it dequeues `frame0`, reads the
cycle timer as 10 s, cycle 4000, offset 100 at the local time 1700000000625001,
reports the packet unit `psize_unit` and maximum `psize_max`, and reports every
feature as `feature_auto`. -/
def dc_device (psize_unit psize_max : Nat) : DcDevice :=
  { format7_get_modeset := fun _ => [mode0],
    format7_get_packet_para := fun _ _ => (psize_unit, psize_max),
    format7_get_total_bytes := fun _ _ => 307200,
    capture_setup := fun _ _ => true,
    capture_get_fileno := fun _ => 7,
    capture_dequeue := fun _ => some frame0,
    get_cycle_timer := fun _ =>
      some { cycle_timer := 351928420, local_time := 1700000000625001 },
    external_trigger_get_polarity := fun _ => 0,
    external_trigger_get_source := fun _ => 0,
    software_trigger_get_power := fun _ => 0,
    get_camera_feature := fun _ _ => feature_auto }

/-- The same camera on a bus whose cycle timer cannot be read. -/
def dc_device_no_timer : DcDevice :=
  { dc_device 8 4096 with get_cycle_timer := fun _ => none }

/-- A frame of eight zero bytes: its embedded bus time is 0. -/
def frame_zero : Dc1394VideoFrame :=
  { image := [0, 0, 0, 0, 0, 0, 0, 0], image_bytes := 8, frames_behind := 0,
    timestamp := 1699999999000000 }

/-- A camera that dequeues `frame_zero` on a bus whose cycle timer reads
0xfffff000 (127 s, cycle count 8191, offset 0) at the local time
1700000000000000. -/
def dc_device_count_8191 : DcDevice :=
  { dc_device 8 4096 with
    capture_dequeue := fun _ => some frame_zero,
    get_cycle_timer := fun _ =>
      some { cycle_timer := 4294963200, local_time := 1700000000000000 } }

/-- A streaming dc1394 unit with embedded timestamps enabled, no control and
an empty trace. -/
def dc_st_streaming : DcSt :=
  { self := { cam_dc1394_init 7 CamUnitStatus.streaming with embedded_timestamp := 1 },
    controls := [], trace := [] }

/-- The three assignments to `int desired_packet` in `dc1394_stream_init`, for a
packet unit that is not 0: the division, the product and the two comparisons
are made in 32-bit unsigned arithmetic, `psize_unit` and `psize_max` being
`uint32_t`. -/
def desired_packet (value : Int) (psize_unit psize_max : Nat) : Int :=
  let d1 := int_of_u32 (u32 (u32_of_int value / u32 psize_unit * u32 psize_unit))
  let d2 := if u32_of_int d1 > u32 psize_max then int_of_u32 (u32 psize_max) else d1
  if u32_of_int d2 < u32 psize_unit then int_of_u32 (u32 psize_unit) else d2

/-- The end of `dc1394_stream_init`, from the call of
`dc1394_format7_get_total_bytes` on, for the video mode `i`: the number of
buffers is reduced when the ring would exceed 25000000 bytes, and the capture
is set up. -/
def stream_init_capture (dev : DcDevice) (s4 : DcSt) (i : Int) : Int × DcSt :=
  let bytes_per_frame := u64 (dev.format7_get_total_bytes s4.trace i)
  let s5 := s4.log (DcEvent.format7_get_total_bytes i bytes_per_frame)
  let num_buffers : Int :=
    if u64 (bytes_per_frame * u64_of_int s5.self.num_buffers) > 25000000 then
      ((25000000 / bytes_per_frame : Nat) : Int)
    else s5.self.num_buffers
  let s6 : DcSt := { s5 with self := { s5.self with num_buffers := num_buffers } }
  if dev.capture_setup s6.trace num_buffers then
    let s7 := s6.log (DcEvent.capture_setup num_buffers true)
    let fd := dev.capture_get_fileno s7.trace
    (0, { s7 with self := { s7.self with fd := fd },
                  trace := s7.trace ++ [DcEvent.capture_get_fileno fd] })
  else (-1, s6.log (DcEvent.capture_setup num_buffers false))

/-- The function `dc1394_stream_init` (without `USE_RAW1394`).  It answers the
returned `int` and the new state; `self->packet_size` holds the 32-bit
unsigned value of `desired_packet`.  An index outside the mode set or outside
the color codings of the mode, a registry without the control `packet-size`
and a packet unit of 0 end the run with a fault. -/
def dc1394_stream_init (dev : DcDevice) (s : DcSt) (format : Dc1394UnitFormat) :
    Except (Fault × DcSt) (Int × DcSt) :=
  let info := dev.format7_get_modeset s.trace
  let s1 := s.log (DcEvent.format7_get_modeset info)
  let i := format.format7_mode
  let j := format.color_coding
  if i < 0 ∨ j < 0 then Except.error (Fault.out_of_bounds, s1)
  else
    match info[i.toNat]? with
    | none => Except.error (Fault.out_of_bounds, s1)
    | some mode =>
      match mode.color_codings[j.toNat]? with
      | none => Except.error (Fault.out_of_bounds, s1)
      | some color_coding =>
        if format.pixelformat ≠ dc1394_pixel_format color_coding mode.color_filter ∨
            format.width ≠ mode.max_size_x ∨ format.height ≠ mode.max_size_y then
          Except.ok (-1, s1)
        else
          let s2 : DcSt := { s1 with trace := s1.trace ++
            [DcEvent.video_set_mode i, DcEvent.video_set_iso_speed_400,
             DcEvent.format7_set_image_size i format.width format.height,
             DcEvent.format7_set_image_position i 0 0,
             DcEvent.format7_set_color_coding i color_coding] }
          let para := dev.format7_get_packet_para s2.trace i
          let s3 := s2.log (DcEvent.format7_get_packet_para i para.1 para.2)
          match cam_unit_find_control s3.controls "packet-size" with
          | none => Except.error (Fault.null_deref, s3)
          | some ctl =>
            if u32 para.1 = 0 then Except.error (Fault.div_by_zero, s3)
            else
              let d := desired_packet (cam_unit_control_get_int ctl) para.1 para.2
              let packet_size := if u32_of_int d = 0 then 4096 else u32_of_int d
              let s4 : DcSt :=
                { self := { s3.self with packet_size := packet_size },
                  controls := update_control (fun c => cam_unit_control_force_set_int c d)
                    s3.controls "packet-size",
                  trace := s3.trace ++ [DcEvent.format7_set_byte_per_packet i packet_size] }
              Except.ok (stream_init_capture dev s4 i)

/-- The packet size sent to the camera in a trace, if any. -/
def DcEvent.sent_packet_size : DcEvent → Option Nat
  | DcEvent.format7_set_byte_per_packet _ p => some p
  | _ => none

/-- The control `packet-size` as `add_all_camera_controls` creates it, holding
the value `v`. -/
def packet_size_ctl (v : Int) : CamUnitControl :=
  cam_unit_control_force_set_int
    (cam_unit_add_control_int 0 "packet-size" "Packet Size" 1 4192 1 4192 true) v

/-- The format `cam_dc1394_new` records for `mode0` and its only color coding. -/
def dc_format0 : Dc1394UnitFormat :=
  { pixelformat := CamPixelFormat.gray, width := 640, height := 480, format7_mode := 0,
    color_coding := 0 }

/-- A constructed dc1394 unit whose registry holds the control `packet-size`
with value `v`. -/
def dc_st_packet (v : Int) : DcSt :=
  { self := cam_dc1394_init (-1) CamUnitStatus.idle, controls := [packet_size_ctl v],
    trace := [] }

/-- The trace of `dc1394_stream_init` at the moment it asks for the packet
parameters of mode `i` with color coding `color_coding`. -/
def trace_before_packet_para (dev : DcDevice) (s : DcSt) (format : Dc1394UnitFormat)
    (color_coding : Dc1394ColorCoding) : List DcEvent :=
  s.trace ++ [DcEvent.format7_get_modeset (dev.format7_get_modeset s.trace)] ++
    [DcEvent.video_set_mode format.format7_mode, DcEvent.video_set_iso_speed_400,
     DcEvent.format7_set_image_size format.format7_mode format.width format.height,
     DcEvent.format7_set_image_position format.format7_mode 0 0,
     DcEvent.format7_set_color_coding format.format7_mode color_coding]

/-! ## The controls of the dc1394 unit -/

/-- The constant `DC1394_FEATURE_WHITE_BALANCE` of `dc1394/control.h`. -/
def DC1394_FEATURE_WHITE_BALANCE : Nat := 419

/-- The constant `DC1394_FEATURE_TRIGGER` of `dc1394/control.h`. -/
def DC1394_FEATURE_TRIGGER : Nat := 428

/-- The entries of the menu of a mode control: `CAM_DC1394_MENU_OFF`. -/
def CAM_DC1394_MENU_OFF : Int := 0

/-- The menu entry `CAM_DC1394_MENU_AUTO`. -/
def CAM_DC1394_MENU_AUTO : Int := 1

/-- The menu entry `CAM_DC1394_MENU_MANUAL`. -/
def CAM_DC1394_MENU_MANUAL : Int := 2

/-- The C function `strstr` on a string without its terminator: the index of the
first occurrence of `needle` in `hay`, `none` for `NULL`. -/
def strstr (needle : List Char) : List Char → Option Nat
  | [] => if needle = [] then some 0 else none
  | c :: cs =>
    if needle.isPrefixOf (c :: cs) then some 0
    else (strstr needle cs).map (fun k => k + 1)

/-- The write of the read-back feature through the pointer `ctl2` in the mode
part of `dc1394_try_set_control`; `float_step` is the single-precision
computation `(abs_max - abs_min) / NUM_FLOAT_STEPS` on bit patterns. -/
def refresh_dependent (float_step : Nat → Nat → Nat) (f : Dc1394FeatureInfo)
    (ctl2 : CamUnitControl) : CamUnitControl :=
  if ctl2.type = CamUnitControlType.int then
    cam_unit_control_force_set_int
      (cam_unit_control_modify_int ctl2 (int_of_u32 f.min) (int_of_u32 f.max) 1
        (f.is_on && !f.auto_active))
      (int_of_u32 f.value)
  else
    cam_unit_control_force_set_float
      (cam_unit_control_modify_float ctl2 f.abs_min f.abs_max (float_step f.abs_min f.abs_max)
        (f.is_on && !f.auto_active))
      f.abs_value

/-- The function `dc1394_try_set_control`.  It answers the returned `gboolean`,
the content of `actual` after the call (every path writes it) and the new
state.  `float_step` is the
single-precision computation `(abs_max - abs_min) / NUM_FLOAT_STEPS`.  An id of
64 characters or more leaves `ctlid` without terminator, and a white balance
control missing from the registry is written through `NULL`: both end the run
with a fault. -/
def dc1394_try_set_control (float_step : Nat → Nat → Nat) (dev : DcDevice) (s : DcSt)
    (ctl : CamUnitControl) (proposed _actual : GValue) :
    Except (Fault × DcSt) (Bool × GValue × DcSt) :=
  if ctl.id = "packet-size" then Except.ok (true, proposed, s)
  else
    let val : Int := g_value_get_int proposed
    if ctl.id = "trigger-polarity" then
      let s1 := s.log (DcEvent.external_trigger_set_polarity (g_value_get_boolean proposed))
      let newpol := dev.external_trigger_get_polarity s1.trace
      Except.ok (true, g_value_set_boolean newpol,
        s1.log (DcEvent.external_trigger_get_polarity newpol))
    else if ctl.id = "trigger-source" then
      let s1 := s.log (DcEvent.external_trigger_set_source val)
      let source := dev.external_trigger_get_source s1.trace
      Except.ok (true, GValue.int source, s1.log (DcEvent.external_trigger_get_source source))
    else if ctl.id = "trigger-now" then
      let s1 := s.log (DcEvent.software_trigger_set_power (g_value_get_boolean proposed))
      let power := dev.software_trigger_get_power s1.trace
      Except.ok (true, g_value_set_boolean power,
        s1.log (DcEvent.software_trigger_get_power power))
    else if ctl.id = "trigger" then
      let s1 : DcSt :=
        if val = 0 then s.log (DcEvent.external_trigger_set_power false)
        else (s.log (DcEvent.external_trigger_set_power true)).log
          (DcEvent.external_trigger_set_mode (val - 1))
      let f := dev.get_camera_feature s1.trace DC1394_FEATURE_TRIGGER
      let s2 := s1.log (DcEvent.get_camera_feature DC1394_FEATURE_TRIGGER f)
      let a : GValue := if f.is_on then GValue.int (f.trigger_mode + 1) else GValue.int 0
      let enable := fun (c : CamUnitControl) => cam_unit_control_set_enabled c f.is_on
      let cs1 := update_control enable s2.controls "trigger-polarity"
      let cs2 := update_control enable cs1 "trigger-source"
      let cs3 := update_control enable cs2 "trigger-now"
      Except.ok (true, a, { s2 with controls := cs3 })
    else
      let id := ctl.dc1394_control_id
      if 64 ≤ ctl.id.length then Except.error (Fault.out_of_bounds, s)
      else
        match strstr "-mode".toList ctl.id.toList with
        | some k =>
          let s1 : DcSt :=
            if val = 0 then s.log (DcEvent.feature_set_power id false)
            else (s.log (DcEvent.feature_set_power id true)).log
              (DcEvent.feature_set_mode id (decide (val = 1)))
          let f := dev.get_camera_feature s1.trace id
          let s2 := s1.log (DcEvent.get_camera_feature id f)
          let a : GValue :=
            if !f.is_on then GValue.int CAM_DC1394_MENU_OFF
            else if f.auto_active then GValue.int CAM_DC1394_MENU_AUTO
            else GValue.int CAM_DC1394_MENU_MANUAL
          let ctlid := String.mk (ctl.id.toList.take k)
          if ctlid = "white-balance" then
            match cam_unit_find_control s2.controls "white-balance-red" with
            | none => Except.error (Fault.null_deref, s2)
            | some _ =>
              let cs1 := update_control (fun c =>
                cam_unit_control_force_set_int
                  (cam_unit_control_modify_int c (int_of_u32 f.min) (int_of_u32 f.max) 1
                    (f.is_on && !f.auto_active))
                  (int_of_u32 f.RV_value)) s2.controls "white-balance-red"
              match cam_unit_find_control cs1 "white-balance-blue" with
              | none => Except.error (Fault.null_deref, { s2 with controls := cs1 })
              | some _ =>
                let cs2 := update_control (fun c =>
                  cam_unit_control_force_set_int
                    (cam_unit_control_modify_int c (int_of_u32 f.min) (int_of_u32 f.max) 1
                      (f.is_on && !f.auto_active))
                    (int_of_u32 f.BU_value)) cs1 "white-balance-blue"
                Except.ok (true, a, { s2 with controls := cs2 })
          else
            match cam_unit_find_control s2.controls ctlid with
            | none => Except.ok (true, a, s2)
            | some _ =>
              let cs1 := update_control (refresh_dependent float_step f) s2.controls ctlid
              Except.ok (true, a, { s2 with controls := cs1 })
        | none =>
          if id = DC1394_FEATURE_WHITE_BALANCE then
            let blue := (strstr "blue".toList ctl.id.toList).isSome
            let f := dev.get_camera_feature s.trace id
            let s1 := s.log (DcEvent.get_camera_feature id f)
            let s2 :=
              if blue then
                s1.log (DcEvent.feature_whitebalance_set_value val (int_of_u32 f.RV_value))
              else s1.log (DcEvent.feature_whitebalance_set_value (int_of_u32 f.BU_value) val)
            let f2 := dev.get_camera_feature s2.trace id
            let s3 := s2.log (DcEvent.get_camera_feature id f2)
            Except.ok (true,
              GValue.int (int_of_u32 (if blue then f2.BU_value else f2.RV_value)), s3)
          else
            match proposed with
            | GValue.float bits =>
              let s1 := s.log (DcEvent.feature_set_absolute_value id bits)
              let f := dev.get_camera_feature s1.trace id
              let s2 := s1.log (DcEvent.get_camera_feature id f)
              Except.ok (true,
                if f.readout_capable then GValue.float f.abs_value else proposed, s2)
            | _ =>
              let s1 := s.log (DcEvent.feature_set_value id val)
              let f := dev.get_camera_feature s1.trace id
              let s2 := s1.log (DcEvent.get_camera_feature id f)
              Except.ok (true,
                if f.readout_capable then GValue.int (int_of_u32 f.value) else proposed, s2)

/-- The mode control of the exposure feature as `add_all_camera_controls`
creates it for a feature under manual control. -/
def exposure_mode_ctl : CamUnitControl :=
  { cam_unit_add_control_enum 1 "exposure-mode" "Exposure" 2 true ["Off", "Auto", "Manual"]
    with dc1394_control_id := 417 }

/-- The exposure control as `add_all_camera_controls` creates it for a feature
under manual control with the range 0..511. -/
def exposure_ctl : CamUnitControl :=
  { cam_unit_add_control_int 2 "exposure" "Exposure" 0 511 1 200 true
    with dc1394_control_id := 417 }

/-- A dc1394 unit whose registry holds the packet size, the exposure mode and
the exposure controls, the exposure being under manual control. -/
def dc_st_exposure : DcSt :=
  { self := cam_dc1394_init 7 CamUnitStatus.idle,
    controls := [packet_size_ctl 4192, exposure_mode_ctl, exposure_ctl], trace := [] }

/-- A stand-in for the single-precision step computation, which no statement
depends on. -/
def float_step0 : Nat → Nat → Nat := fun _ _ => 0

/-! ## The mapping loop -/

theorem init_loop_succ (dev : Device) (n i : Nat) (s : St) :
    init_loop dev (n + 1) i s =
      match dev.querybuf s.trace i with
      | none => (i, s.log (Event.querybuf i none))
      | some (len, off) =>
        if dev.qbuf (s.trace ++ [Event.querybuf i (some (len, off))] ++
            [Event.mmap len off (Ptr.ofMmap (dev.mmap (s.trace ++ [Event.querybuf i (some (len, off))]) len off))]) i then
          init_loop dev n (i + 1)
            { self := { s.self with
                          buffers := write_slot s.self.buffers i
                            (Ptr.ofMmap (dev.mmap (s.trace ++ [Event.querybuf i (some (len, off))]) len off)),
                          buffer_length := len },
              trace := s.trace ++ [Event.querybuf i (some (len, off))] ++
                [Event.mmap len off (Ptr.ofMmap (dev.mmap (s.trace ++ [Event.querybuf i (some (len, off))]) len off))] ++
                [Event.qbuf i true] }
        else
          (i, { self := { s.self with
                          buffers := write_slot s.self.buffers i
                            (Ptr.ofMmap (dev.mmap (s.trace ++ [Event.querybuf i (some (len, off))]) len off)) },
                trace := s.trace ++ [Event.querybuf i (some (len, off))] ++
                  [Event.mmap len off (Ptr.ofMmap (dev.mmap (s.trace ++ [Event.querybuf i (some (len, off))]) len off))] ++
                  [Event.qbuf i false] }) := by
  rfl

theorem init_loop_fst_bounds (dev : Device) :
    ∀ (n i : Nat) (s : St),
      i ≤ (init_loop dev n i s).1 ∧ (init_loop dev n i s).1 ≤ i + n := by
  intro n
  induction n with
  | zero => intro i s; simp [init_loop]
  | succ n ih =>
    intro i s
    rw [init_loop_succ]
    split
    · simp
    · split
      · constructor
        · exact Nat.le_trans (Nat.le_succ i) (ih _ _).1
        · exact Nat.le_trans (ih _ _).2 (by omega)
      · simp

theorem take_succ_set (p : Ptr) :
    ∀ (l : List Ptr) (i : Nat), i < l.length → (l.set i p).take (i + 1) = l.take i ++ [p] := by
  intro l
  induction l with
  | nil => intro i h; simp at h
  | cons a t ih =>
    intro i h
    cases i with
    | zero => simp
    | succ j =>
      have hj : j < t.length := by simpa using h
      simp [ih j hj]

theorem init_loop_frame (dev : Device) :
    ∀ (n i : Nat) (s : St),
      (init_loop dev n i s).2.self.num_buffers = s.self.num_buffers ∧
      (init_loop dev n i s).2.self.buffers_outstanding = s.self.buffers_outstanding ∧
      (init_loop dev n i s).2.self.status = s.self.status ∧
      (init_loop dev n i s).2.self.fmt = s.self.fmt ∧
      (init_loop dev n i s).2.self.fd = s.self.fd := by
  intro n
  induction n with
  | zero => intro i s; simp [init_loop]
  | succ n ih =>
    intro i s
    rw [init_loop_succ]
    split
    · simp [St.log]
    · split
      · exact ih _ _
      · simp

theorem last_len_of_all_eq (L : Nat) :
    ∀ (rs : List (Ptr × Nat)) (d : Nat), rs ≠ [] → (∀ r ∈ rs, r.2 = L) → last_len d rs = L := by
  intro rs
  induction rs with
  | nil => intro d h; exact absurd rfl h
  | cons a t ih =>
    intro d _ hall
    cases t with
    | nil => simpa [last_len] using hall a (by simp)
    | cons b u =>
      have h2 : ∀ r ∈ b :: u, r.2 = L := fun r hr => hall r (List.mem_cons_of_mem a hr)
      simpa [last_len] using ih a.2 (by simp) h2

theorem init_loop_complete (dev : Device) :
    ∀ (n i : Nat) (s : St) (l : List Ptr),
      (init_loop dev n i s).1 = i + n → s.self.buffers = some l → i + n ≤ l.length →
      ∃ evs, (init_loop dev n i s).2.trace = s.trace ++ evs ∧
        evs.map Event.call = ring_calls i n ∧
        (init_loop dev n i s).2.self.buffers
          = some (l.take i ++ (mmaps_of evs).map Prod.fst ++ l.drop (i + n)) ∧
        (init_loop dev n i s).2.self.buffer_length
          = last_len s.self.buffer_length (mmaps_of evs) ∧
        (mmaps_of evs).length = n ∧
        (∀ j ok, Event.qbuf j ok ∈ evs → ok = true) ∧
        munmaps_of evs = [] ∧ frames_of evs = [] ∧
        (∀ r ∈ mmaps_of evs, ∃ h len off, r.1 = Ptr.ofMmap (dev.mmap h len off)) := by
  intro n
  induction n with
  | zero =>
    intro i s l _ hbuf _
    refine ⟨[], ?_⟩
    simp [init_loop, ring_calls, mmaps_of, munmaps_of, frames_of, last_len, hbuf]
  | succ n ih =>
    intro i s l hfst hbuf hlen
    rw [init_loop_succ] at hfst ⊢
    split at hfst
    · simp at hfst
    · rename_i len off hq
      split at hfst
      · rename_i hqb
        simp only [hq, hqb, if_true]
        have hi : i < l.length := by omega
        obtain ⟨evs, h1, h2, h3, h4, h5, h6, h7, h8, h9⟩ :=
          ih (i + 1) _ (l.set i (Ptr.ofMmap (dev.mmap (s.trace ++ [Event.querybuf i (some (len, off))]) len off)))
            (by rw [hfst]; omega) (by simp [write_slot, hbuf]) (by simp; omega)
        refine ⟨Event.querybuf i (some (len, off)) ::
          Event.mmap len off (Ptr.ofMmap (dev.mmap (s.trace ++ [Event.querybuf i (some (len, off))]) len off)) ::
          Event.qbuf i true :: evs, ?_, ?_, ?_, ?_, ?_, ?_, ?_, ?_, ?_⟩
        · rw [h1]; simp
        · simp [Event.call, ring_calls, h2]
        · rw [h3, take_succ_set _ _ _ hi, List.drop_set_of_lt _ _ (by omega)]
          simp [mmaps_of, Event.mapped, Nat.add_assoc, Nat.add_comm 1 n]
        · rw [h4]; simp [mmaps_of, Event.mapped, last_len]
        · simpa [mmaps_of, Event.mapped] using h5
        · intro j ok hmem
          simp at hmem
          rcases hmem with h | h
          · exact h.2
          · exact h6 j ok h
        · simpa [munmaps_of, Event.unmapped] using h7
        · simpa [frames_of, Event.frame] using h8
        · intro r hr
          simp only [mmaps_of, List.filterMap_cons, Event.mapped, List.mem_cons] at hr
          rcases hr with h | h
          · exact ⟨_, len, off, by rw [h]⟩
          · exact h9 r h
      · simp at hfst

/-! ## Shutdown and the whole of `v4l2_stream_init` -/

theorem shutdown_loop_ok :
    ∀ (n i : Nat) (s : St) (l : List Ptr),
      s.self.buffers = some l → i + n ≤ l.length →
      shutdown_loop n i s = Except.ok
        { s with trace := s.trace ++
            ((l.drop i).take n).map (fun p => Event.munmap p s.self.buffer_length) } := by
  intro n
  induction n with
  | zero => intro i s l _ _; simp [shutdown_loop]
  | succ n ih =>
    intro i s l hbuf hlen
    have hi : i < l.length := by omega
    have hread : read_slot s.self.buffers i = Except.ok l[i] := by
      simp [read_slot, hbuf, List.getElem?_eq_getElem hi]
    simp only [shutdown_loop, hread]
    rw [ih (i + 1) (s.log (Event.munmap l[i] s.self.buffer_length)) l (by simpa [St.log] using hbuf)
      (by omega)]
    rw [List.drop_eq_getElem_cons hi]
    simp only [St.log, List.take_succ_cons, List.map_cons, List.append_assoc,
      List.singleton_append]

theorem v4l2_stream_shutdown_ok (dev : Device) (s : St) (l : List Ptr)
    (hbuf : s.self.buffers = some l) (hlen : s.self.num_buffers ≤ l.length) :
    v4l2_stream_shutdown dev s = Except.ok (0, after_shutdown dev s l) := by
  unfold v4l2_stream_shutdown
  rw [shutdown_loop_ok s.self.num_buffers 0 s l hbuf (by omega)]
  simp [St.log, after_shutdown]

theorem init_loop_all_ok (dev : Device)
    (hq : ∀ h i, (dev.querybuf h i).isSome = true) (hqb : ∀ h i, dev.qbuf h i = true) :
    ∀ (n i : Nat) (s : St), (init_loop dev n i s).1 = i + n := by
  intro n
  induction n with
  | zero => intro i s; simp [init_loop]
  | succ n ih =>
    intro i s
    rw [init_loop_succ]
    split
    · rename_i hnone
      have := hq s.trace i
      rw [hnone] at this
      simp at this
    · simp only [hqb, if_true]
      rw [ih]
      omega

theorem v4l2_stream_init_eq (dev : Device) (s : St) (fmt : CamUnitFormat) :
    v4l2_stream_init dev s fmt =
      if dev.s_fmt s.trace fmt then
        match dev.reqbufs (s.trace ++ [Event.s_fmt fmt true]) NUM_BUFFERS with
        | none => Except.ok (-1,
            { s with trace := s.trace ++ [Event.s_fmt fmt true] ++ [Event.reqbufs NUM_BUFFERS none] })
        | some G => finish_init dev (after_reqbufs s fmt G)
      else
        Except.ok (-1, s.log (Event.s_fmt fmt false)) := by
  rfl

theorem finish_init_ok_spec (dev : Device) (s2 s1 : St)
    (hbuf : s2.self.buffers = some (List.replicate s2.self.num_buffers Ptr.uninit))
    (h : finish_init dev s2 = Except.ok (0, s1)) :
    ∃ evs,
      s1.trace = s2.trace ++ evs ∧
      evs.map Event.call = ring_calls 0 s2.self.num_buffers ∧
      s1.self.num_buffers = s2.self.num_buffers ∧
      s1.self.buffers = some ((mmaps_of evs).map Prod.fst) ∧
      s1.self.buffer_length = last_len s2.self.buffer_length (mmaps_of evs) ∧
      (mmaps_of evs).length = s2.self.num_buffers ∧
      s1.self.buffers_outstanding = 0 ∧
      s1.self.status = s2.self.status ∧ s1.self.fmt = s2.self.fmt ∧ s1.self.fd = s2.self.fd ∧
      (∀ j ok, Event.qbuf j ok ∈ evs → ok = true) ∧
      munmaps_of evs = [] ∧ frames_of evs = [] ∧
      (∀ r ∈ mmaps_of evs, ∃ h len off, r.1 = Ptr.ofMmap (dev.mmap h len off)) := by
  have hfr := init_loop_frame dev s2.self.num_buffers 0 s2
  have hb := init_loop_fst_bounds dev s2.self.num_buffers 0 s2
  unfold finish_init at h
  split at h
  · split at h <;> simp at h
  · rename_i hnot
    rw [hfr.1] at hnot
    have hfst : (init_loop dev s2.self.num_buffers 0 s2).1 = 0 + s2.self.num_buffers := by omega
    obtain ⟨evs, h1, h2, h3, h4, h5, h6, h7, h8, h9⟩ :=
      init_loop_complete dev s2.self.num_buffers 0 s2 _ hfst hbuf (by simp)
    have hs1 : s1 = _ := ((Prod.mk.inj (Except.ok.inj h)).2).symm
    refine ⟨evs, ?_, h2, ?_, ?_, ?_, h5, ?_, ?_, ?_, ?_, h6, h7, h8, h9⟩
    · rw [hs1]; exact h1
    · rw [hs1]; exact hfr.1
    · rw [hs1]; simpa using h3
    · rw [hs1]; exact h4
    · rw [hs1]
    · rw [hs1]; exact hfr.2.2.1
    · rw [hs1]; exact hfr.2.2.2.1
    · rw [hs1]; exact hfr.2.2.2.2

/-- What a successful `v4l2_stream_init` has done. -/
theorem v4l2_stream_init_ok_spec (dev : Device) (s s1 : St) (fmt : CamUnitFormat)
    (h : v4l2_stream_init dev s fmt = Except.ok (0, s1)) :
    ∃ G evs,
      dev.reqbufs (s.trace ++ [Event.s_fmt fmt true]) NUM_BUFFERS = some G ∧
      s1.trace = s.trace ++ [Event.s_fmt fmt true, Event.reqbufs NUM_BUFFERS (some G)] ++ evs ∧
      evs.map Event.call = ring_calls 0 G ∧
      s1.self.num_buffers = G ∧
      s1.self.buffers = some ((mmaps_of evs).map Prod.fst) ∧
      s1.self.buffer_length = last_len s.self.buffer_length (mmaps_of evs) ∧
      (mmaps_of evs).length = G ∧
      s1.self.buffers_outstanding = 0 ∧
      s1.self.status = s.self.status ∧ s1.self.fmt = s.self.fmt ∧ s1.self.fd = s.self.fd ∧
      (∀ j ok, Event.qbuf j ok ∈ evs → ok = true) ∧
      munmaps_of evs = [] ∧ frames_of evs = [] ∧
      (∀ r ∈ mmaps_of evs, ∃ h len off, r.1 = Ptr.ofMmap (dev.mmap h len off)) := by
  rw [v4l2_stream_init_eq] at h
  by_cases hf : dev.s_fmt s.trace fmt = true
  · simp only [hf, if_true] at h
    cases hG : dev.reqbufs (s.trace ++ [Event.s_fmt fmt true]) NUM_BUFFERS with
    | none => simp [hG] at h
    | some G =>
      simp only [hG] at h
      obtain ⟨evs, h1, h2, h3, h4, h5, h6, h7, h8, h9, h10, h11, h12, h13, h14⟩ :=
        finish_init_ok_spec dev (after_reqbufs s fmt G) s1 rfl h
      refine ⟨G, evs, rfl, ?_, h2, h3, h4, h5, h6, h7, h8, h9, h10, h11, h12, h13, h14⟩
      rw [h1]; simp [after_reqbufs]
  · simp [hf] at h

/-- When the format, the buffer request and every query and enqueue succeed,
`v4l2_stream_init` returns 0. -/
theorem v4l2_stream_init_all_ok (dev : Device) (s : St) (fmt : CamUnitFormat) (G : Nat)
    (hfmt : dev.s_fmt s.trace fmt = true)
    (hreq : dev.reqbufs (s.trace ++ [Event.s_fmt fmt true]) NUM_BUFFERS = some G)
    (hq : ∀ h i, (dev.querybuf h i).isSome = true) (hqb : ∀ h i, dev.qbuf h i = true) :
    ∃ s1, v4l2_stream_init dev s fmt = Except.ok (0, s1) := by
  rw [v4l2_stream_init_eq]
  simp only [hfmt, if_true, hreq]
  have hfr := init_loop_frame dev (after_reqbufs s fmt G).self.num_buffers 0 (after_reqbufs s fmt G)
  have hfst := init_loop_all_ok dev hq hqb (after_reqbufs s fmt G).self.num_buffers 0
    (after_reqbufs s fmt G)
  unfold finish_init
  rw [hfr.1, hfst]
  simp

/-! ## The two paths of `v4l2_try_produce_frame` -/

theorem v4l2_stream_on_spec (dev : Device) (s : St) :
    (v4l2_stream_on dev s).2 = s.log (Event.streamon (dev.streamon s.trace)) := by
  unfold v4l2_stream_on
  split <;> simp_all

/-- The frame path of `v4l2_try_produce_frame`: a dequeue of a slot of the ring
is followed by the notification and one enqueue of the same slot. -/
theorem try_produce_frame_of_dequeue (dev : Device) (con : Consumer) (s : St) (buf : DqBuf)
    (l : List Ptr)
    (hroom : s.self.buffers_outstanding ≠ s.self.num_buffers)
    (hdq : dev.dqbuf s.trace = some buf)
    (hbuf : s.self.buffers = some l) (hidx : buf.index < l.length) :
    ∃ fbuf verdict ok,
      v4l2_try_produce_frame dev con s = Except.ok
        { s with trace := s.trace ++ [Event.dqbuf (some buf), Event.produce_frame fbuf verdict,
            Event.qbuf buf.index ok] } ∧
      fbuf.data = l[buf.index] ∧ fbuf.length = s.self.buffer_length := by
  have hread : read_slot s.self.buffers buf.index = Except.ok l[buf.index] := by
    simp [read_slot, hbuf, List.getElem?_eq_getElem hidx]
  refine ⟨{ data := l[buf.index], length := s.self.buffer_length,
             timestamp := buf.tv_sec * 1000000 + buf.tv_usec, bytesused := buf.bytesused },
    con (s.trace ++ [Event.dqbuf (some buf)])
      { data := l[buf.index], length := s.self.buffer_length,
        timestamp := buf.tv_sec * 1000000 + buf.tv_usec, bytesused := buf.bytesused },
    dev.qbuf (s.trace ++ [Event.dqbuf (some buf)] ++
      [Event.produce_frame
        { data := l[buf.index], length := s.self.buffer_length,
          timestamp := buf.tv_sec * 1000000 + buf.tv_usec, bytesused := buf.bytesused }
        (con (s.trace ++ [Event.dqbuf (some buf)])
          { data := l[buf.index], length := s.self.buffer_length,
            timestamp := buf.tv_sec * 1000000 + buf.tv_usec, bytesused := buf.bytesused })])
      buf.index,
    ?_, rfl, rfl⟩
  unfold v4l2_try_produce_frame
  simp only [hroom, if_false, hdq, St.log, hread, List.append_assoc, List.singleton_append]
  rfl

/-- The restart path of `v4l2_try_produce_frame` on a device that accepts the
re-configuration. -/
theorem try_produce_frame_restart (dev : Device) (con : Consumer) (s : St) (l : List Ptr) (G : Nat)
    (hbuf : s.self.buffers = some l) (hlen : l.length = s.self.num_buffers)
    (hroom : s.self.buffers_outstanding ≠ s.self.num_buffers)
    (hdq : dev.dqbuf s.trace = none)
    (hfmt : ∀ h f, dev.s_fmt h f = true)
    (hreq : ∀ h, dev.reqbufs h NUM_BUFFERS = some G)
    (hq : ∀ h i, (dev.querybuf h i).isSome = true) (hqb : ∀ h i, dev.qbuf h i = true) :
    ∃ s1 evs released started,
      v4l2_try_produce_frame dev con s = Except.ok s1 ∧
      s1.trace = s.trace ++ (Event.dqbuf none ::
        (l.map (fun p => Event.munmap p s.self.buffer_length) ++
          (Event.reqbufs 0 released :: Event.s_fmt s.self.fmt true ::
            Event.reqbufs NUM_BUFFERS (some G) :: (evs ++ [Event.streamon started])))) ∧
      started = dev.streamon (s.trace ++ (Event.dqbuf none ::
        (l.map (fun p => Event.munmap p s.self.buffer_length) ++
          (Event.reqbufs 0 released :: Event.s_fmt s.self.fmt true ::
            Event.reqbufs NUM_BUFFERS (some G) :: evs)))) ∧
      evs.map Event.call = ring_calls 0 G ∧
      s1.self.num_buffers = G ∧
      s1.self.buffers = some ((mmaps_of evs).map Prod.fst) ∧
      (mmaps_of evs).length = G ∧
      s1.self.buffers_outstanding = 0 ∧
      (∀ j ok, Event.qbuf j ok ∈ evs → ok = true) ∧
      munmaps_of evs = [] ∧ frames_of evs = [] ∧
      (∀ r ∈ mmaps_of evs, ∃ h len off, r.1 = Ptr.ofMmap (dev.mmap h len off)) := by
  have hdown := v4l2_stream_shutdown_ok dev (s.log (Event.dqbuf none)) l hbuf
    (by simp [St.log, hlen])
  obtain ⟨s3, h3⟩ := v4l2_stream_init_all_ok dev
    (after_shutdown dev (s.log (Event.dqbuf none)) l) s.self.fmt G (hfmt _ _) (hreq _) hq hqb
  obtain ⟨G2, evs, k0, k1, k2, k3, k4, _, k6, k7, _, _, _, k11, k12, k13, k14⟩ :=
    v4l2_stream_init_ok_spec dev _ s3 _ h3
  have hG : G2 = G := by
    rw [hreq] at k0
    exact (Option.some.inj k0).symm
  subst hG
  have htake : l.take s.self.num_buffers = l := by
    rw [← hlen]; exact List.take_length l
  refine ⟨(v4l2_stream_on dev s3).2, evs,
    dev.reqbufs (s.trace ++ [Event.dqbuf none] ++
      l.map (fun p => Event.munmap p s.self.buffer_length)) 0,
    _, ?_, ?_, rfl, k2, ?_, ?_, k6, ?_, k11, k12, k13, k14⟩
  · unfold v4l2_try_produce_frame
    simp only [hroom, if_false, hdq]
    rw [hdown]
    simp only
    rw [show (s.log (Event.dqbuf none)).self.fmt = s.self.fmt from rfl, h3]
  · rw [v4l2_stream_on_spec, St.log, k1]
    simp [St.log, htake, after_shutdown]
  · rw [v4l2_stream_on_spec]; exact k3
  · rw [v4l2_stream_on_spec]; exact k4
  · rw [v4l2_stream_on_spec]; exact k7

/-! ## Counting calls -/

theorem streamoff_not_mem_ring_calls : ∀ (n i : Nat), Call.streamoff ∉ ring_calls i n := by
  intro n
  induction n with
  | zero => intro i; simp [ring_calls]
  | succ n ih => intro i; simp [ring_calls, ih (i + 1)]

theorem filterMap_some_pair (L : Nat) :
    ∀ (rs : List (Ptr × Nat)),
      rs.filterMap (fun x => some (x.1, L)) = rs.map (fun r => (r.1, L)) := by
  intro rs
  induction rs with
  | nil => rfl
  | cons a t ih => simp [List.filterMap_cons, ih]

theorem map_fst_length_eq (L : Nat) :
    ∀ (rs : List (Ptr × Nat)), (∀ r ∈ rs, r.2 = L) → rs.map (fun r => (r.1, L)) = rs := by
  intro rs
  induction rs with
  | nil => intro _; rfl
  | cons a t ih =>
    intro h
    have ha : a.2 = L := h a (by simp)
    have ht : ∀ r ∈ t, r.2 = L := fun r hr => h r (List.mem_cons_of_mem a hr)
    simp only [List.map_cons, ih ht]
    rw [← ha]

/-! ## The claims -/

/-- C1 (the code departs from the claim): with two granted slots mapped at
65536 and 69632 and the enqueue of slot 1 failing, `v4l2_stream_init` returns
-1 after unmapping the address of slot 1 twice; the region of slot 0 is never
unmapped. -/
theorem C1_unwind_unmaps_failing_slot_twice :
    (v4l2_stream_init dev_enqueue_fails_at_1 st0 fmt0).map
        (fun r => (r.1, mmaps_of r.2.trace, munmaps_of r.2.trace))
      = Except.ok (-1, [(Ptr.addr 65536, 4096), (Ptr.addr 69632, 4096)],
          [(Ptr.addr 69632, 4096), (Ptr.addr 69632, 4096)]) := by
  rfl

/-- C2 (the code departs from the claim): when `mmap` answers `MAP_FAILED` for
the only granted slot and the enqueue succeeds, `v4l2_stream_init` returns 0
and keeps `MAP_FAILED` as the address of slot 0. -/
theorem C2_init_succeeds_on_failed_mmap :
    (v4l2_stream_init dev_mmap_fails st0 fmt0).map
        (fun r => (r.1, r.2.self.buffers, mmaps_of r.2.trace))
      = Except.ok (0, some [Ptr.map_failed], [(Ptr.map_failed, 4096)]) := by
  rfl

/-- C3: for every device, consumer and unit, when the dequeue of
`v4l2_try_produce_frame` succeeds with a slot index `k` of the ring, the calls
of that invocation are the dequeue, the frame-ready notification and then one
enqueue of slot `k`, in this order, whatever verdict the consumer gives; the
unit's fields are unchanged. -/
theorem C3_one_enqueue_after_notification (dev : Device) (con : Consumer) (s : St)
    (buf : DqBuf) (l : List Ptr)
    (hroom : s.self.buffers_outstanding ≠ s.self.num_buffers)
    (hdq : dev.dqbuf s.trace = some buf)
    (hbuf : s.self.buffers = some l) (hidx : buf.index < l.length) :
    ∃ s1 fbuf verdict ok,
      v4l2_try_produce_frame dev con s = Except.ok s1 ∧
      s1.trace = s.trace ++ [Event.dqbuf (some buf), Event.produce_frame fbuf verdict,
        Event.qbuf buf.index ok] ∧
      ((s1.trace.drop s.trace.length).map Event.call).count (Call.qbuf buf.index) = 1 ∧
      s1.self = s.self := by
  obtain ⟨fbuf, verdict, ok, h, _, _⟩ :=
    try_produce_frame_of_dequeue dev con s buf l hroom hdq hbuf hidx
  refine ⟨_, fbuf, verdict, ok, h, rfl, ?_, rfl⟩
  simp [Event.call]

/-- Witness of C3: a ring of one slot and a device that dequeues slot 0. -/
theorem C3_one_enqueue_after_notification_witness :
    ∃ s1 fbuf verdict ok,
      v4l2_try_produce_frame (good_device 1 (fun _ => 4096)) con0 st_ring1 = Except.ok s1 ∧
      s1.trace = st_ring1.trace ++
        [Event.dqbuf (some { index := 0, bytesused := 100, tv_sec := 1, tv_usec := 2 }),
         Event.produce_frame fbuf verdict,
         Event.qbuf (DqBuf.index { index := 0, bytesused := 100, tv_sec := 1, tv_usec := 2 }) ok] ∧
      ((s1.trace.drop st_ring1.trace.length).map Event.call).count
        (Call.qbuf (DqBuf.index { index := 0, bytesused := 100, tv_sec := 1, tv_usec := 2 })) = 1 ∧
      s1.self = st_ring1.self :=
  C3_one_enqueue_after_notification (good_device 1 (fun _ => 4096)) con0 st_ring1
    { index := 0, bytesused := 100, tv_sec := 1, tv_usec := 2 } [Ptr.addr 65536]
    (by decide) rfl rfl (by decide)

/-- C4 (counterexample): on a ring of one slot whose dequeue fails, the calls of
`v4l2_try_produce_frame` are the dequeue, the unmap, the release, set format,
buffer request, query, map, enqueue and stream-on: no stream-off is issued, so
the sequence does not start with a stop. -/
theorem C4_restart_issues_no_streamoff :
    ∃ s1, v4l2_try_produce_frame dev_dequeue_fails con0 st_ring1 = Except.ok s1 ∧
      s1.trace.map Event.call =
        [Call.dqbuf, Call.munmap (Ptr.addr 65536) 4096, Call.reqbufs 0, Call.s_fmt fmt0,
         Call.reqbufs 5, Call.querybuf 0, Call.mmap, Call.qbuf 0, Call.streamon] ∧
      Call.streamoff ∉ s1.trace.map Event.call :=
  ⟨_, rfl, rfl, by decide⟩

/-- C4 (amended): on a unit whose `buffers` array holds exactly `num_buffers`
slots (and whose `buffers_outstanding` differs from `num_buffers`), and on a
device that accepts every set format, grants the same count `G` to every
request of `NUM_BUFFERS` buffers and lets every buffer query and every enqueue
succeed: when the dequeue of `v4l2_try_produce_frame` fails, the calls issued
are, in this order, the dequeue, an unmap of every slot of the ring with
`buffer_length`, the release of the reservation with count 0, set format with
the unit's current output format, the request of `NUM_BUFFERS` buffers, query,
map and enqueue of each of the `G` granted slots, and stream-on; no stream-off
is issued. -/
theorem C4_restart_calls_in_order (dev : Device) (con : Consumer) (s : St) (l : List Ptr)
    (G : Nat)
    (hbuf : s.self.buffers = some l) (hlen : l.length = s.self.num_buffers)
    (hroom : s.self.buffers_outstanding ≠ s.self.num_buffers)
    (hdq : dev.dqbuf s.trace = none)
    (hfmt : ∀ h f, dev.s_fmt h f = true)
    (hreq : ∀ h, dev.reqbufs h NUM_BUFFERS = some G)
    (hq : ∀ h i, (dev.querybuf h i).isSome = true) (hqb : ∀ h i, dev.qbuf h i = true) :
    ∃ s1 evs1,
      v4l2_try_produce_frame dev con s = Except.ok s1 ∧
      s1.trace = s.trace ++ evs1 ∧
      evs1.map Event.call =
        Call.dqbuf :: (l.map (fun p => Call.munmap p s.self.buffer_length) ++
          [Call.reqbufs 0, Call.s_fmt s.self.fmt, Call.reqbufs NUM_BUFFERS] ++
          ring_calls 0 G ++ [Call.streamon]) ∧
      Call.streamoff ∉ evs1.map Event.call := by
  obtain ⟨s1, evs, released, started, h1, h2, _, h4, _⟩ :=
    try_produce_frame_restart dev con s l G hbuf hlen hroom hdq hfmt hreq hq hqb
  have hcalls : (Event.dqbuf none ::
        (l.map (fun p => Event.munmap p s.self.buffer_length) ++
          (Event.reqbufs 0 released :: Event.s_fmt s.self.fmt true ::
            Event.reqbufs NUM_BUFFERS (some G) :: (evs ++ [Event.streamon started])))).map
        Event.call =
      Call.dqbuf :: (l.map (fun p => Call.munmap p s.self.buffer_length) ++
        [Call.reqbufs 0, Call.s_fmt s.self.fmt, Call.reqbufs NUM_BUFFERS] ++
        ring_calls 0 G ++ [Call.streamon]) := by
    simp [Event.call, h4, Function.comp_def]
  refine ⟨s1, _, h1, h2, hcalls, ?_⟩
  rw [hcalls]
  simp [streamoff_not_mem_ring_calls]

/-- Witness of C4 (amended): the ring of one slot on the device whose dequeue fails. -/
theorem C4_restart_calls_in_order_witness :
    ∃ s1 evs1,
      v4l2_try_produce_frame dev_dequeue_fails con0 st_ring1 = Except.ok s1 ∧
      s1.trace = st_ring1.trace ++ evs1 ∧
      evs1.map Event.call =
        Call.dqbuf :: ([Ptr.addr 65536].map (fun p => Call.munmap p st_ring1.self.buffer_length) ++
          [Call.reqbufs 0, Call.s_fmt st_ring1.self.fmt, Call.reqbufs NUM_BUFFERS] ++
          ring_calls 0 1 ++ [Call.streamon]) ∧
      Call.streamoff ∉ evs1.map Event.call :=
  C4_restart_calls_in_order dev_dequeue_fails con0 st_ring1 [Ptr.addr 65536] 1 rfl rfl
    (by decide) rfl (fun _ _ => rfl) (fun _ => rfl) (fun _ _ => rfl) (fun _ _ => rfl)

/-- C5 (the code departs from the claim): when the dequeue fails and the device
then rejects the format, `v4l2_try_produce_frame` still issues stream-on after
the failed re-configuration, and leaves `num_buffers = 1` with `buffers = NULL`. -/
theorem C5_failed_restart_still_streams_on :
    (v4l2_try_produce_frame dev_restart_fails con0 st_ring1).map
        (fun s1 => (s1.trace, s1.self.num_buffers, s1.self.buffers))
      = Except.ok
          ([Event.dqbuf none, Event.munmap (Ptr.addr 65536) 4096, Event.reqbufs 0 (some 0),
            Event.s_fmt fmt0 false, Event.streamon true], 1, none) := by
  rfl

/-- C6: on a device whose dequeue fails at this call and all of whose other calls
succeed (granting `G > 0` buffers), `v4l2_try_produce_frame` emits no frame, ends
with a successful stream-on, and leaves a fresh ring: `num_buffers = G`, `G`
mapped addresses in `buffers`, every slot `0..G-1` queried, mapped and
successfully enqueued in order, `buffers_outstanding = 0`; the next call then
emits exactly one frame. -/
theorem C6_restart_then_one_frame (dev : Device) (con : Consumer) (s : St) (l : List Ptr)
    (G : Nat)
    (hbuf : s.self.buffers = some l) (hlen : l.length = s.self.num_buffers)
    (hroom : s.self.buffers_outstanding ≠ s.self.num_buffers)
    (hdq : dev.dqbuf s.trace = none)
    (hdq_later : ∀ h, h ≠ s.trace → ∃ b, dev.dqbuf h = some b ∧ b.index < G)
    (hfmt : ∀ h f, dev.s_fmt h f = true)
    (hreq : ∀ h, dev.reqbufs h NUM_BUFFERS = some G) (hG : 0 < G)
    (hq : ∀ h i, (dev.querybuf h i).isSome = true)
    (hmap : ∀ h len off, (dev.mmap h len off).isSome = true)
    (hqb : ∀ h i, dev.qbuf h i = true)
    (hon : ∀ h, dev.streamon h = true) :
    ∃ s1 evs1,
      v4l2_try_produce_frame dev con s = Except.ok s1 ∧
      s1.trace = s.trace ++ evs1 ∧
      frames_of evs1 = [] ∧
      evs1.getLast? = some (Event.streamon true) ∧
      evs1.map Event.call =
        Call.dqbuf :: (l.map (fun p => Call.munmap p s.self.buffer_length) ++
          [Call.reqbufs 0, Call.s_fmt s.self.fmt, Call.reqbufs NUM_BUFFERS] ++
          ring_calls 0 G ++ [Call.streamon]) ∧
      (∀ j ok, Event.qbuf j ok ∈ evs1 → ok = true) ∧
      s1.self.num_buffers = G ∧
      s1.self.buffers_outstanding = 0 ∧
      (∃ l1, s1.self.buffers = some l1 ∧ l1.length = G ∧ ∀ p ∈ l1, ∃ a, p = Ptr.addr a) ∧
      ∃ s2 evs2 fbuf,
        v4l2_try_produce_frame dev con s1 = Except.ok s2 ∧
        s2.trace = s1.trace ++ evs2 ∧
        frames_of evs2 = [fbuf] := by
  obtain ⟨s1, evs, released, started, h1, h2, h3, h4, h5, h6, h7, h8, h9, h10, h11, h12⟩ :=
    try_produce_frame_restart dev con s l G hbuf hlen hroom hdq hfmt hreq hq hqb
  have hst : started = true := by rw [h3]; exact hon _
  subst hst
  have hne : s1.trace ≠ s.trace := by
    rw [h2]
    intro hcon
    have := congrArg List.length hcon
    simp at this
  obtain ⟨b, hb, hbi⟩ := hdq_later s1.trace hne
  obtain ⟨fbuf, verdict, ok, hp, _, _⟩ :=
    try_produce_frame_of_dequeue dev con s1 b ((mmaps_of evs).map Prod.fst)
      (by rw [h8, h5]; omega) hb h6 (by simpa [h7] using hbi)
  refine ⟨s1, _, h1, h2, ?_, ?_, ?_, ?_, h5, h8, ?_, ?_⟩
  · simp [frames_of, Event.frame, List.filterMap_append, List.filterMap_map, Function.comp_def]
    simpa [frames_of] using h11
  · exact List.getLast?_eq_some_iff.mpr
      ⟨Event.dqbuf none :: (l.map (fun p => Event.munmap p s.self.buffer_length) ++
        (Event.reqbufs 0 released :: Event.s_fmt s.self.fmt true ::
          Event.reqbufs NUM_BUFFERS (some G) :: evs)), by simp⟩
  · simp [Event.call, h4, Function.comp_def]
  · intro j ok hmem
    simp at hmem
    exact h9 j ok hmem
  · refine ⟨_, h6, by simpa using h7, ?_⟩
    intro p hp
    obtain ⟨r, hr, hrp⟩ := List.mem_map.mp hp
    obtain ⟨h, len, off, hrr⟩ := h12 r hr
    have hsome := hmap h len off
    cases hm : dev.mmap h len off with
    | none => rw [hm] at hsome; simp at hsome
    | some a => exact ⟨a, by rw [← hrp, hrr, hm]; rfl⟩
  · exact ⟨_, _, fbuf, hp, rfl, by simp [frames_of, Event.frame]⟩

/-- Witness of C6: the ring of one slot on the device whose first dequeue fails. -/
theorem C6_restart_then_one_frame_witness :
    ∃ s1 evs1,
      v4l2_try_produce_frame dev_dequeue_fails_once con0 st_ring1 = Except.ok s1 ∧
      s1.trace = st_ring1.trace ++ evs1 ∧
      frames_of evs1 = [] ∧
      evs1.getLast? = some (Event.streamon true) ∧
      evs1.map Event.call =
        Call.dqbuf :: ([Ptr.addr 65536].map (fun p => Call.munmap p st_ring1.self.buffer_length) ++
          [Call.reqbufs 0, Call.s_fmt st_ring1.self.fmt, Call.reqbufs NUM_BUFFERS] ++
          ring_calls 0 1 ++ [Call.streamon]) ∧
      (∀ j ok, Event.qbuf j ok ∈ evs1 → ok = true) ∧
      s1.self.num_buffers = 1 ∧
      s1.self.buffers_outstanding = 0 ∧
      (∃ l1, s1.self.buffers = some l1 ∧ l1.length = 1 ∧ ∀ p ∈ l1, ∃ a, p = Ptr.addr a) ∧
      ∃ s2 evs2 fbuf,
        v4l2_try_produce_frame dev_dequeue_fails_once con0 s1 = Except.ok s2 ∧
        s2.trace = s1.trace ++ evs2 ∧
        frames_of evs2 = [fbuf] :=
  C6_restart_then_one_frame dev_dequeue_fails_once con0 st_ring1 [Ptr.addr 65536] 1 rfl rfl
    (by decide) rfl
    (fun h hne => by
      cases h with
      | nil => exact absurd rfl hne
      | cons e t => exact ⟨_, rfl, by decide⟩)
    (fun _ _ => rfl) (fun _ => rfl) (by decide) (fun _ _ => rfl) (fun _ _ _ => rfl)
    (fun _ _ => rfl) (fun _ => rfl)

/-- C7 (the code departs from the claim): on a unit with one mapped slot the
first `v4l2_stream_shutdown` unmaps the slot and sets `buffers` to `NULL` but
leaves `num_buffers = 1`, so the second call reads `buffers[0]` through the
`NULL` pointer. -/
theorem C7_second_shutdown_reads_through_null :
    ∃ s1, v4l2_stream_shutdown (good_device 1 (fun _ => 4096)) st_ring1 = Except.ok (0, s1) ∧
      s1.trace = [Event.munmap (Ptr.addr 65536) 4096, Event.reqbufs 0 (some 0)] ∧
      s1.self.buffers = none ∧ s1.self.num_buffers = 1 ∧
      v4l2_stream_shutdown (good_device 1 (fun _ => 4096)) s1
        = Except.error (Fault.null_deref, s1) :=
  ⟨_, rfl, rfl, rfl, rfl, rfl⟩

/-- C8 (counterexample): when the device reports 100 bytes for slot 0 and 200
bytes for slot 1, a successful `v4l2_stream_init` followed by
`v4l2_stream_shutdown` unmaps slot 0 with 200 bytes although it was mapped with
100. -/
theorem C8_shutdown_unmaps_with_last_length :
    ∃ s1 s2, v4l2_stream_init dev_two_lengths st0 fmt0 = Except.ok (0, s1) ∧
      v4l2_stream_shutdown dev_two_lengths s1 = Except.ok (0, s2) ∧
      mmaps_of s2.trace = [(Ptr.addr 65536, 100), (Ptr.addr 69632, 200)] ∧
      munmaps_of s2.trace = [(Ptr.addr 65536, 200), (Ptr.addr 69632, 200)] ∧
      munmaps_of s2.trace ≠ mmaps_of s2.trace :=
  ⟨_, _, rfl, rfl, rfl, rfl, by decide⟩

/-- C8 (amended): for every granted count, a successful `v4l2_stream_init`
followed by `v4l2_stream_shutdown` unmaps exactly the `num_buffers` pointers the
mapping calls returned, each exactly once and in order, every one with the
single stored `buffer_length` (the length of the last slot); when the device
reported one length for all slots this is the length each was mapped with. -/
theorem C8_shutdown_unmaps_every_mapping (dev : Device) (s s1 : St) (fmt : CamUnitFormat)
    (hok : v4l2_stream_init dev s fmt = Except.ok (0, s1)) :
    ∃ evs1 s2 evs2,
      s1.trace = s.trace ++ evs1 ∧
      v4l2_stream_shutdown dev s1 = Except.ok (0, s2) ∧
      s2.trace = s1.trace ++ evs2 ∧
      (mmaps_of evs1).length = s1.self.num_buffers ∧
      munmaps_of evs1 = [] ∧
      munmaps_of evs2 = (mmaps_of evs1).map (fun r => (r.1, s1.self.buffer_length)) ∧
      s1.self.buffer_length = last_len s.self.buffer_length (mmaps_of evs1) ∧
      (∀ L, (∀ r ∈ mmaps_of evs1, r.2 = L) → munmaps_of evs2 = mmaps_of evs1) := by
  obtain ⟨G, evs, _, k1, _, k3, k4, k5, k6, _, _, _, _, _, k12, _, _⟩ :=
    v4l2_stream_init_ok_spec dev s s1 fmt hok
  have hdown := v4l2_stream_shutdown_ok dev s1 ((mmaps_of evs).map Prod.fst) k4
    (by simp [k3, k6])
  have hm : mmaps_of ([Event.s_fmt fmt true, Event.reqbufs NUM_BUFFERS (some G)] ++ evs)
      = mmaps_of evs := by
    simp [mmaps_of, Event.mapped]
  have hu : munmaps_of ([Event.s_fmt fmt true, Event.reqbufs NUM_BUFFERS (some G)] ++ evs)
      = [] := by
    simpa [munmaps_of, Event.unmapped] using k12
  have htake : ((mmaps_of evs).map Prod.fst).take s1.self.num_buffers
      = (mmaps_of evs).map Prod.fst := by
    rw [k3, ← k6]
    simp
  have hun : munmaps_of
      ((((mmaps_of evs).map Prod.fst).take s1.self.num_buffers).map
          (fun p => Event.munmap p s1.self.buffer_length) ++
        [Event.reqbufs 0 (dev.reqbufs (s1.trace ++
          (((mmaps_of evs).map Prod.fst).take s1.self.num_buffers).map
            (fun p => Event.munmap p s1.self.buffer_length)) 0)])
      = (mmaps_of evs).map (fun r => (r.1, s1.self.buffer_length)) := by
    rw [htake]
    simp only [munmaps_of, List.filterMap_append, List.filterMap_map, Function.comp_def,
      Event.unmapped, List.filterMap_cons, List.filterMap_nil, List.append_nil]
    exact filterMap_some_pair _ _
  refine ⟨_, _,
    (((mmaps_of evs).map Prod.fst).take s1.self.num_buffers).map
        (fun p => Event.munmap p s1.self.buffer_length) ++
      [Event.reqbufs 0 (dev.reqbufs (s1.trace ++
        (((mmaps_of evs).map Prod.fst).take s1.self.num_buffers).map
          (fun p => Event.munmap p s1.self.buffer_length)) 0)],
    by rw [k1, List.append_assoc], hdown, ?_, ?_, hu, ?_, ?_, ?_⟩
  · simp [after_shutdown, List.append_assoc]
  · rw [hm, k6, k3]
  · rw [hun, hm]
  · rw [hm]; exact k5
  · intro L hall
    rw [hm] at hall
    rw [hun, hm]
    cases hnil : mmaps_of evs with
    | nil => rfl
    | cons a t =>
      rw [hnil] at hall k5
      have hL : s1.self.buffer_length = L := by
        rw [k5]
        exact last_len_of_all_eq L (a :: t) _ (by simp) hall
      rw [hL]
      exact map_fst_length_eq L (a :: t) hall

/-- Witness of C8 (amended): three granted buffers of 4096 bytes. -/
theorem C8_shutdown_unmaps_every_mapping_witness :
    ∃ evs1 s2 evs2,
      (match v4l2_stream_init (good_device 3 (fun _ => 4096)) st0 fmt0 with
        | Except.ok r => r.2
        | Except.error e => e.2).trace = st0.trace ++ evs1 ∧
      v4l2_stream_shutdown (good_device 3 (fun _ => 4096))
        (match v4l2_stream_init (good_device 3 (fun _ => 4096)) st0 fmt0 with
          | Except.ok r => r.2
          | Except.error e => e.2) = Except.ok (0, s2) ∧
      s2.trace = (match v4l2_stream_init (good_device 3 (fun _ => 4096)) st0 fmt0 with
        | Except.ok r => r.2
        | Except.error e => e.2).trace ++ evs2 ∧
      (mmaps_of evs1).length = 3 ∧
      munmaps_of evs1 = [] ∧
      munmaps_of evs2 = (mmaps_of evs1).map (fun r => (r.1, 4096)) ∧
      (match v4l2_stream_init (good_device 3 (fun _ => 4096)) st0 fmt0 with
        | Except.ok r => r.2
        | Except.error e => e.2).self.buffer_length = last_len 0 (mmaps_of evs1) ∧
      (∀ L, (∀ r ∈ mmaps_of evs1, r.2 = L) → munmaps_of evs2 = mmaps_of evs1) :=
  C8_shutdown_unmaps_every_mapping (good_device 3 (fun _ => 4096)) st0
    (match v4l2_stream_init (good_device 3 (fun _ => 4096)) st0 fmt0 with
      | Except.ok r => r.2
      | Except.error e => e.2) fmt0 rfl

/-- C9 (counterexample): a device that answers the request of 5 buffers with 8
makes a successful `v4l2_stream_init` store `num_buffers = 8`, above
`NUM_BUFFERS`. -/
theorem C9_granted_count_exceeds_request :
    ∃ s1, v4l2_stream_init (good_device 8 (fun _ => 4096)) st0 fmt0 = Except.ok (0, s1) ∧
      s1.self.num_buffers = 8 ∧ ¬ s1.self.num_buffers ≤ NUM_BUFFERS :=
  ⟨_, rfl, rfl, by decide⟩

/-- C9 (amended): a successful `v4l2_stream_init` stores in `num_buffers` exactly
the count the device answered to the request of `NUM_BUFFERS` buffers, without
clamping it; so `num_buffers` is at most `NUM_BUFFERS` exactly when the device's
answer is. -/
theorem C9_num_buffers_is_device_answer (dev : Device) (s s1 : St) (fmt : CamUnitFormat)
    (hok : v4l2_stream_init dev s fmt = Except.ok (0, s1)) :
    dev.reqbufs (s.trace ++ [Event.s_fmt fmt true]) NUM_BUFFERS = some s1.self.num_buffers ∧
    (s1.self.num_buffers ≤ NUM_BUFFERS ↔
      ∃ G, dev.reqbufs (s.trace ++ [Event.s_fmt fmt true]) NUM_BUFFERS = some G ∧
        G ≤ NUM_BUFFERS) := by
  obtain ⟨G, evs, k0, _, _, k3, _⟩ := v4l2_stream_init_ok_spec dev s s1 fmt hok
  subst k3
  refine ⟨k0, ?_, ?_⟩
  · intro h; exact ⟨_, k0, h⟩
  · rintro ⟨G, hG, hle⟩
    rw [k0] at hG
    rw [Option.some.inj hG]; exact hle

/-- Witness of C9 (amended): the device that grants 8 buffers. -/
theorem C9_num_buffers_is_device_answer_witness :
    (good_device 8 (fun _ => 4096)).reqbufs (st0.trace ++ [Event.s_fmt fmt0 true]) NUM_BUFFERS
      = some (match v4l2_stream_init (good_device 8 (fun _ => 4096)) st0 fmt0 with
          | Except.ok r => r.2
          | Except.error e => e.2).self.num_buffers ∧
    ((match v4l2_stream_init (good_device 8 (fun _ => 4096)) st0 fmt0 with
          | Except.ok r => r.2
          | Except.error e => e.2).self.num_buffers ≤ NUM_BUFFERS ↔
      ∃ G, (good_device 8 (fun _ => 4096)).reqbufs (st0.trace ++ [Event.s_fmt fmt0 true])
          NUM_BUFFERS = some G ∧ G ≤ NUM_BUFFERS) :=
  C9_num_buffers_is_device_answer (good_device 8 (fun _ => 4096)) st0
    (match v4l2_stream_init (good_device 8 (fun _ => 4096)) st0 fmt0 with
      | Except.ok r => r.2
      | Except.error e => e.2) fmt0 rfl

theorem is_user_control_spec (s : CtlSt) (ctl : CamUnitControl)
    (h : is_user_control s ctl = true) :
    ctl.id ≠ "input" ∧ ctl.handle ≠ s.standard_ctl.handle ∧
      (has_tuner_tag ctl.id && decide (0 ≤ (ctl.tuner_id : Int) - 1)) = false := by
  unfold is_user_control at h
  simp only [Bool.and_eq_true, decide_eq_true_eq, Bool.not_eq_true'] at h
  exact ⟨h.1.1, h.1.2, h.2⟩

/-- The `// user control` part of `v4l2_try_set_control`, reached by every user
control. -/
theorem v4l2_try_set_control_user (dev : CtlDevice) (s : CtlSt) (ctl : CamUnitControl)
    (proposed actual : GValue) (h : is_user_control s ctl = true) :
    v4l2_try_set_control dev s ctl proposed actual =
      if dev.s_ctrl s.trace ctl.queryctrl_id (vctl_value ctl.type proposed) then
        if ctl.one_shot then
          Except.ok (false, actual,
            { s with trace := s.trace ++
                [CtlEvent.s_ctrl ctl.queryctrl_id (vctl_value ctl.type proposed) true] })
        else
          match dev.g_ctrl (s.trace ++
              [CtlEvent.s_ctrl ctl.queryctrl_id (vctl_value ctl.type proposed) true])
              ctl.queryctrl_id with
          | none =>
            Except.ok (true, proposed,
              { s with trace := s.trace ++
                  [CtlEvent.s_ctrl ctl.queryctrl_id (vctl_value ctl.type proposed) true] ++
                  [CtlEvent.g_ctrl ctl.queryctrl_id none] })
          | some r =>
            Except.ok (true, store_readback ctl.type r actual,
              { s with trace := s.trace ++
                  [CtlEvent.s_ctrl ctl.queryctrl_id (vctl_value ctl.type proposed) true] ++
                  [CtlEvent.g_ctrl ctl.queryctrl_id (some r)] })
      else
        Except.ok (false, actual,
          { s with trace := s.trace ++
              [CtlEvent.s_ctrl ctl.queryctrl_id (vctl_value ctl.type proposed) false] }) := by
  obtain ⟨hid, hh, ht⟩ := is_user_control_spec s ctl h
  unfold v4l2_try_set_control
  rw [if_neg hid, if_neg hh, ht]
  rfl

theorem filterMap_some_eq_map {α β : Type} (f : α → β) :
    ∀ (l : List α), l.filterMap (fun x => some (f x)) = l.map f := by
  intro l
  induction l with
  | nil => rfl
  | cons a t ih => simp [List.filterMap_cons, ih]

theorem ite_ne_of {α : Type} {c : Prop} [Decidable c] {a b x : α} (ha : a ≠ x) (hb : b ≠ x) :
    (if c then a else b) ≠ x := by
  split <;> assumption

theorem ctl_id_of_ne_input (id : Nat) : ctl_id_of id ≠ "input" := by
  unfold ctl_id_of
  repeat refine ite_ne_of (by decide) ?_
  intro h
  have := congrArg String.data h
  simp [String.data_append] at this

theorem add_v4l2_format_ok (try_fmt : V4l2PixFormat → Option V4l2PixFormat) (bpp : Nat → Nat)
    (formats : List OutputFormat) (width height cf vf : Nat) (fmt : V4l2PixFormat)
    (h : try_fmt { width := width, height := height, pixelformat := vf, bytesperline := 0,
                   sizeimage := 0 } = some fmt) :
    add_v4l2_format try_fmt bpp formats width height cf vf =
      (0, formats ++
        [{ pixelformat := cf, width := fmt.width, height := fmt.height,
           row_stride :=
             if u32 (fmt.height * fmt.bytesperline) > fmt.sizeimage then
               u32 (fmt.width * bpp cf) / 8
             else fmt.bytesperline,
           max_data_size := fmt.sizeimage,
           v4l2_format := some
             (if u32 (fmt.height * fmt.bytesperline) > fmt.sizeimage then
               { fmt with bytesperline := u32 (fmt.width * bpp cf) / 8 }
              else fmt) }]) := by
  unfold add_v4l2_format
  rw [h]
  by_cases hb : u32 (fmt.height * fmt.bytesperline) > fmt.sizeimage
  · simp only [hb, if_true, cam_unit_add_output_format_full, set_v4l2_format,
      List.getLast?_concat, List.dropLast_concat]
  · simp only [hb, if_false, cam_unit_add_output_format_full, set_v4l2_format,
      List.getLast?_concat, List.dropLast_concat]


/-- C11: when `buffers_outstanding` equals `num_buffers`, `v4l2_try_produce_frame`
only sleeps: it returns normally, its single call is the `nanosleep`, so no
dequeue is issued, no frame is emitted and no restart is made, and every field
of the unit is unchanged. -/
theorem C11_all_outstanding_would_block (dev : Device) (con : Consumer) (s : St)
    (hfull : s.self.buffers_outstanding = s.self.num_buffers) :
    ∃ s1, v4l2_try_produce_frame dev con s = Except.ok s1 ∧
      s1.self = s.self ∧
      s1.trace = s.trace ++ [Event.nanosleep] ∧
      frames_of (s1.trace.drop s.trace.length) = [] ∧
      Call.dqbuf ∉ (s1.trace.drop s.trace.length).map Event.call := by
  refine ⟨s.log Event.nanosleep, ?_, rfl, rfl, ?_, ?_⟩
  · unfold v4l2_try_produce_frame
    rw [if_pos hfull]
  · simp [St.log, frames_of, Event.frame]
  · simp [St.log, Event.call]

/-- Witness of C11: three granted slots, three outstanding. -/
theorem C11_all_outstanding_would_block_witness :
    ∃ s1, v4l2_try_produce_frame dev_dequeue_fails con0 st_full3 = Except.ok s1 ∧
      s1.self = st_full3.self ∧
      s1.trace = st_full3.trace ++ [Event.nanosleep] ∧
      frames_of (s1.trace.drop st_full3.trace.length) = [] ∧
      Call.dqbuf ∉ (s1.trace.drop st_full3.trace.length).map Event.call :=
  C11_all_outstanding_would_block dev_dequeue_fails con0 st_full3 rfl

/-- C12 (counterexample): `v4l2_finalize` on a streaming unit with one mapped
slot unmaps the slot, releases the reservation and closes the descriptor; no
stream-off is issued before the unmap, nor at all. -/
theorem C12_finalize_issues_no_streamoff :
    ∃ s1, v4l2_finalize (good_device 1 (fun _ => 4096)) st_ring1 = Except.ok s1 ∧
      st_ring1.self.status = CamUnitStatus.streaming ∧
      s1.trace.map Event.call =
        [Call.munmap (Ptr.addr 65536) 4096, Call.reqbufs 0, Call.close 3] ∧
      Call.streamoff ∉ s1.trace.map Event.call :=
  ⟨_, rfl, rfl, rfl, by decide⟩

/-- C12 (amended): when a unit whose status is not Idle and whose `buffers`
array holds exactly `num_buffers` slots is destroyed, `v4l2_finalize` issues,
in this order, an unmap of every slot of the ring with `buffer_length`, the
release of the reservation with count 0 and, when the descriptor is open, its
close; no stream-off is issued, and afterwards `buffers` is `NULL` and every
slot has been unmapped. -/
theorem C12_finalize_active_unit (dev : Device) (s : St) (l : List Ptr)
    (hactive : s.self.status ≠ CamUnitStatus.idle)
    (hbuf : s.self.buffers = some l) (hlen : l.length = s.self.num_buffers) :
    ∃ s1 evs,
      v4l2_finalize dev s = Except.ok s1 ∧
      s1.trace = s.trace ++ evs ∧
      evs.map Event.call =
        l.map (fun p => Call.munmap p s.self.buffer_length) ++ [Call.reqbufs 0] ++
          (if 0 ≤ s.self.fd then [Call.close s.self.fd] else []) ∧
      Call.streamoff ∉ evs.map Event.call ∧
      munmaps_of evs = l.map (fun p => (p, s.self.buffer_length)) ∧
      s1.self.buffers = none := by
  have hdown := v4l2_stream_shutdown_ok dev s l hbuf (by omega)
  have htake : l.take s.self.num_buffers = l := by
    rw [← hlen]; exact List.take_length l
  have hfin : v4l2_finalize dev s =
      if 0 ≤ s.self.fd then
        Except.ok { self := { (after_shutdown dev s l).self with fd := -1 },
                    trace := (after_shutdown dev s l).trace ++ [Event.close s.self.fd] }
      else Except.ok (after_shutdown dev s l) := by
    unfold v4l2_finalize
    rw [if_pos hactive, hdown]
    rfl
  rw [hfin]
  by_cases hfd : 0 ≤ s.self.fd
  · rw [if_pos hfd, if_pos hfd]
    refine ⟨_, (l.map (fun p => Event.munmap p s.self.buffer_length) ++
      [Event.reqbufs 0 (dev.reqbufs (s.trace ++
        l.map (fun p => Event.munmap p s.self.buffer_length)) 0)]) ++
      [Event.close s.self.fd], rfl, ?_, ?_, ?_, ?_, rfl⟩
    · simp [after_shutdown, htake]
    · simp [Event.call, Function.comp_def]
    · simp [Event.call, Function.comp_def]
    · simp only [munmaps_of, List.filterMap_append, List.filterMap_map, Function.comp_def,
        Event.unmapped, List.filterMap_cons, List.filterMap_nil, List.append_nil]
      exact filterMap_some_eq_map _ _
  · rw [if_neg hfd, if_neg hfd]
    refine ⟨_, l.map (fun p => Event.munmap p s.self.buffer_length) ++
      [Event.reqbufs 0 (dev.reqbufs (s.trace ++
        l.map (fun p => Event.munmap p s.self.buffer_length)) 0)], rfl, ?_, ?_, ?_, ?_, rfl⟩
    · simp [after_shutdown, htake]
    · simp [Event.call, Function.comp_def]
    · simp [Event.call, Function.comp_def]
    · simp only [munmaps_of, List.filterMap_append, List.filterMap_map, Function.comp_def,
        Event.unmapped, List.filterMap_cons, List.filterMap_nil, List.append_nil]
      exact filterMap_some_eq_map _ _

/-- Witness of C12 (amended): the streaming unit with one mapped slot. -/
theorem C12_finalize_active_unit_witness :
    ∃ s1 evs,
      v4l2_finalize (good_device 1 (fun _ => 4096)) st_ring1 = Except.ok s1 ∧
      s1.trace = st_ring1.trace ++ evs ∧
      evs.map Event.call =
        [Ptr.addr 65536].map (fun p => Call.munmap p st_ring1.self.buffer_length) ++
          [Call.reqbufs 0] ++
          (if 0 ≤ st_ring1.self.fd then [Call.close st_ring1.self.fd] else []) ∧
      Call.streamoff ∉ evs.map Event.call ∧
      munmaps_of evs = [Ptr.addr 65536].map (fun p => (p, st_ring1.self.buffer_length)) ∧
      s1.self.buffers = none :=
  C12_finalize_active_unit (good_device 1 (fun _ => 4096)) st_ring1 [Ptr.addr 65536]
    (by decide) rfl rfl

/-- C13: when the device rejects `VIDIOC_S_FMT`, `v4l2_stream_init` returns -1
after that single call: no buffer request, query, mapping or enqueue is issued
and the unit's fields (`num_buffers`, `buffers`, `buffer_length`,
`buffers_outstanding` among them) are unchanged. -/
theorem C13_rejected_format_leaves_unit (dev : Device) (s : St) (fmt : CamUnitFormat)
    (hrej : dev.s_fmt s.trace fmt = false) :
    ∃ s1, v4l2_stream_init dev s fmt = Except.ok (-1, s1) ∧
      s1.trace = s.trace ++ [Event.s_fmt fmt false] ∧
      s1.self = s.self ∧
      s1.self.num_buffers = s.self.num_buffers ∧ s1.self.buffers = s.self.buffers ∧
      s1.self.buffer_length = s.self.buffer_length ∧
      s1.self.buffers_outstanding = s.self.buffers_outstanding := by
  refine ⟨s.log (Event.s_fmt fmt false), ?_, rfl, rfl, rfl, rfl, rfl, rfl⟩
  rw [v4l2_stream_init_eq, hrej]
  rfl

/-- Witness of C13: the device that rejects the format, on the ring of one slot. -/
theorem C13_rejected_format_leaves_unit_witness :
    ∃ s1, v4l2_stream_init dev_restart_fails st_ring1 fmt0 = Except.ok (-1, s1) ∧
      s1.trace = st_ring1.trace ++ [Event.s_fmt fmt0 false] ∧
      s1.self = st_ring1.self ∧
      s1.self.num_buffers = st_ring1.self.num_buffers ∧
      s1.self.buffers = st_ring1.self.buffers ∧
      s1.self.buffer_length = st_ring1.self.buffer_length ∧
      s1.self.buffers_outstanding = st_ring1.self.buffers_outstanding :=
  C13_rejected_format_leaves_unit dev_restart_fails st_ring1 fmt0 rfl

/-- C14 (counterexample): `v4l2_stream_init` called on a streaming unit with a
ring of one slot, on a device that grants two buffers, returns 0, issues set
format, the buffer request and the per-slot calls, and replaces the ring by one
of two slots. -/
theorem C14_init_on_streaming_unit_is_accepted :
    ∃ s1, v4l2_stream_init (good_device 2 (fun _ => 4096)) st_ring1 fmt0 = Except.ok (0, s1) ∧
      st_ring1.self.status = CamUnitStatus.streaming ∧
      st_ring1.self.num_buffers = 1 ∧
      s1.self.num_buffers = 2 ∧
      s1.self.buffers ≠ st_ring1.self.buffers ∧
      s1.trace.map Event.call =
        [Call.s_fmt fmt0, Call.reqbufs 5, Call.querybuf 0, Call.mmap, Call.qbuf 0,
         Call.querybuf 1, Call.mmap, Call.qbuf 1] :=
  ⟨_, rfl, rfl, rfl, rfl, by decide, rfl⟩

/-- C14 (amended): `v4l2_stream_init` checks no state of the unit.  Whatever the
status and the ring of the unit (a Streaming unit included), when the device
accepts the calls it returns 0, issues set format, the buffer request and
query, map, enqueue for every granted slot, unmaps nothing, and replaces
`num_buffers` and `buffers` by those of the new ring; the status is unchanged. -/
theorem C14_init_checks_no_state (dev : Device) (s : St) (fmt : CamUnitFormat) (G : Nat)
    (hfmt : dev.s_fmt s.trace fmt = true)
    (hreq : dev.reqbufs (s.trace ++ [Event.s_fmt fmt true]) NUM_BUFFERS = some G)
    (hq : ∀ h i, (dev.querybuf h i).isSome = true) (hqb : ∀ h i, dev.qbuf h i = true) :
    ∃ s1 evs,
      v4l2_stream_init dev s fmt = Except.ok (0, s1) ∧
      s1.trace = s.trace ++ evs ∧
      evs.map Event.call = [Call.s_fmt fmt, Call.reqbufs NUM_BUFFERS] ++ ring_calls 0 G ∧
      munmaps_of evs = [] ∧
      s1.self.num_buffers = G ∧
      (∃ l, s1.self.buffers = some l ∧ l.length = G) ∧
      s1.self.status = s.self.status := by
  obtain ⟨s1, h1⟩ := v4l2_stream_init_all_ok dev s fmt G hfmt hreq hq hqb
  obtain ⟨G2, evs, k0, k1, k2, k3, k4, _, k6, _, k8, _, _, _, k12, _, _⟩ :=
    v4l2_stream_init_ok_spec dev s s1 fmt h1
  rw [hreq] at k0
  have hG : G2 = G := (Option.some.inj k0).symm
  subst hG
  refine ⟨s1, [Event.s_fmt fmt true, Event.reqbufs NUM_BUFFERS (some G2)] ++ evs, h1,
    by rw [k1, List.append_assoc], ?_, ?_, k3, ⟨_, k4, by simpa using k6⟩, k8⟩
  · simp [Event.call, k2]
  · simpa [munmaps_of, Event.unmapped] using k12

/-- Witness of C14 (amended): the streaming unit on a device that grants two buffers. -/
theorem C14_init_checks_no_state_witness :
    ∃ s1 evs,
      v4l2_stream_init (good_device 2 (fun _ => 4096)) st_ring1 fmt0 = Except.ok (0, s1) ∧
      s1.trace = st_ring1.trace ++ evs ∧
      evs.map Event.call = [Call.s_fmt fmt0, Call.reqbufs NUM_BUFFERS] ++ ring_calls 0 2 ∧
      munmaps_of evs = [] ∧
      s1.self.num_buffers = 2 ∧
      (∃ l, s1.self.buffers = some l ∧ l.length = 2) ∧
      s1.self.status = st_ring1.self.status :=
  C14_init_checks_no_state (good_device 2 (fun _ => 4096)) st_ring1 fmt0 2 rfl rfl
    (fun _ _ => rfl) (fun _ _ => rfl)

/-- C15 (counterexample): an Idle V4L2 unit whose device is open on descriptor 3
answers 3, not -1, and a dc1394 unit that is Configured but not streaming
answers its descriptor 5. -/
theorem C15_fileno_outside_streaming :
    st0.self.status = CamUnitStatus.idle ∧ v4l2_get_fileno st0.self = 3 ∧
      dc1394_get_fileno { fd := 5, status := CamUnitStatus.configured } = 5 := by
  decide

/-- C15 (amended): `v4l2_get_fileno` returns the unit's descriptor field in every
state, and `dc1394_get_fileno` returns -1 when the unit is Idle and the
descriptor in every other state (Configured as well as Streaming). -/
theorem C15_fileno_by_backend :
    (∀ self : CamV4L2, v4l2_get_fileno self = self.fd) ∧
    (∀ self : CamDC1394, self.status = CamUnitStatus.idle → dc1394_get_fileno self = -1) ∧
    (∀ self : CamDC1394, self.status ≠ CamUnitStatus.idle →
      dc1394_get_fileno self = self.fd) := by
  refine ⟨fun _ => rfl, ?_, ?_⟩
  · intro self h
    simp [dc1394_get_fileno, h]
  · intro self h
    simp [dc1394_get_fileno, h]

/-- Witness of C15 (amended): an Idle and a Streaming dc1394 unit on descriptor 5. -/
theorem C15_fileno_by_backend_witness :
    dc1394_get_fileno { fd := 5, status := CamUnitStatus.idle } = -1 ∧
    dc1394_get_fileno { fd := 5, status := CamUnitStatus.streaming } = 5 :=
  ⟨C15_fileno_by_backend.2.1 { fd := 5, status := CamUnitStatus.idle } rfl,
   C15_fileno_by_backend.2.2 { fd := 5, status := CamUnitStatus.streaming } (by decide)⟩


/-- In-range form of the stride rule of `add_v4l2_format`: when neither product
leaves 32 bits, the recorded stride is the reported one if stride times height
is within the reported buffer size, and width times bits-per-pixel over 8
otherwise. -/
theorem add_v4l2_format_in_range (try_fmt : V4l2PixFormat → Option V4l2PixFormat)
    (bpp : Nat → Nat) (formats : List OutputFormat) (width height cf vf : Nat)
    (fmt : V4l2PixFormat)
    (h : try_fmt { width := width, height := height, pixelformat := vf, bytesperline := 0,
                   sizeimage := 0 } = some fmt)
    (h1 : fmt.height * fmt.bytesperline < 4294967296)
    (h2 : fmt.width * bpp cf < 4294967296) :
    ∃ e, add_v4l2_format try_fmt bpp formats width height cf vf = (0, formats ++ [e]) ∧
      e.width = fmt.width ∧ e.height = fmt.height ∧ e.max_data_size = fmt.sizeimage ∧
      e.row_stride =
        if fmt.bytesperline * fmt.height ≤ fmt.sizeimage then fmt.bytesperline
        else fmt.width * bpp cf / 8 := by
  refine ⟨_, add_v4l2_format_ok try_fmt bpp formats width height cf vf fmt h, rfl, rfl, rfl, ?_⟩
  have e1 : u32 (fmt.height * fmt.bytesperline) = fmt.bytesperline * fmt.height := by
    unfold u32; rw [Nat.mod_eq_of_lt h1, Nat.mul_comm]
  have e2 : u32 (fmt.width * bpp cf) = fmt.width * bpp cf := by
    unfold u32; exact Nat.mod_eq_of_lt h2
  simp only [e1, e2]
  by_cases hc : fmt.bytesperline * fmt.height ≤ fmt.sizeimage
  · rw [if_pos hc, if_neg (by omega)]
  · rw [if_neg hc, if_pos (by omega)]

/-- C16 (the code departs from the claim): for a trial negotiation that reports
640x480, a stride of 268435456 and a buffer of 614400 bytes, stride times
height exceeds the buffer size, but the 32-bit product wraps to 0 and
`add_v4l2_format` records the reported stride 268435456 instead of
640 * 16 / 8 = 1280. -/
theorem C16_stride_check_wraps_around :
    add_v4l2_format (try_fmt_stride 268435456) bpp16 [] 640 480 7 9 =
      (0, [{ pixelformat := 7, width := 640, height := 480, row_stride := 268435456,
             max_data_size := 614400,
             v4l2_format := some { width := 640, height := 480, pixelformat := 9,
                                   bytesperline := 268435456, sizeimage := 614400 } }]) ∧
    268435456 * 480 > 614400 ∧ u32 (480 * 268435456) = 0 ∧ 640 * bpp16 7 / 8 = 1280 := by
  decide

/-- C17 (counterexample): for a trial negotiation of a 640x480 format that
reports a stride of 0, with 16 bits per pixel, the recorded stride is 0 and not
640 * 16 / 8 = 1280. -/
theorem C17_zero_stride_is_recorded :
    add_v4l2_format (try_fmt_stride 0) bpp16 [] 640 480 7 9 =
      (0, [{ pixelformat := 7, width := 640, height := 480, row_stride := 0,
             max_data_size := 614400,
             v4l2_format := some { width := 640, height := 480, pixelformat := 9,
                                   bytesperline := 0, sizeimage := 614400 } }]) ∧
    640 * bpp16 7 / 8 = 1280 := by
  decide

/-- C17 (amended): for a successful trial negotiation that reports 640x480, the
entry added to the catalog has the stride 0 when the device reports the stride
0; it has the stride 640 * bits-per-pixel / 8 (in 32-bit arithmetic) exactly
when the 32-bit product of the reported stride and 480 exceeds the reported
buffer size, and the reported stride otherwise. -/
theorem C17_stride_of_640x480 (try_fmt : V4l2PixFormat → Option V4l2PixFormat)
    (bpp : Nat → Nat) (formats : List OutputFormat) (width height cf vf : Nat)
    (fmt : V4l2PixFormat)
    (hans : try_fmt { width := width, height := height, pixelformat := vf,
                      bytesperline := 0, sizeimage := 0 } = some fmt)
    (hw : fmt.width = 640) (hh : fmt.height = 480) :
    ∃ e, add_v4l2_format try_fmt bpp formats width height cf vf = (0, formats ++ [e]) ∧
      e.width = 640 ∧ e.height = 480 ∧ e.max_data_size = fmt.sizeimage ∧
      (fmt.bytesperline = 0 → e.row_stride = 0) ∧
      (u32 (480 * fmt.bytesperline) > fmt.sizeimage → e.row_stride = u32 (640 * bpp cf) / 8) ∧
      (¬ u32 (480 * fmt.bytesperline) > fmt.sizeimage → e.row_stride = fmt.bytesperline) := by
  refine ⟨_, add_v4l2_format_ok try_fmt bpp formats width height cf vf fmt hans, hw, hh, rfl,
    ?_, ?_, ?_⟩
  · intro h0
    have hz : ¬ u32 (fmt.height * fmt.bytesperline) > fmt.sizeimage := by
      rw [h0]; simp [u32]
    simp only [hz, if_false]
    exact h0
  · intro hgt
    rw [← hh] at hgt
    simp only [hgt, if_true, hw]
  · intro hle
    rw [← hh] at hle
    simp only [hle, if_false]

/-- Witness of C17 (amended): a device that reports the stride 0, and one that
reports the stride 2000 for a buffer of 614400 bytes. -/
theorem C17_stride_of_640x480_witness :
    (∃ e, add_v4l2_format (try_fmt_stride 0) bpp16 [] 640 480 7 9 = (0, [] ++ [e]) ∧
      e.row_stride = 0) ∧
    (∃ e, add_v4l2_format (try_fmt_stride 2000) bpp16 [] 640 480 7 9 = (0, [] ++ [e]) ∧
      e.row_stride = u32 (640 * bpp16 7) / 8) :=
  ⟨(C17_stride_of_640x480 (try_fmt_stride 0) bpp16 [] 640 480 7 9 _ rfl rfl rfl).elim
      (fun e he => ⟨e, he.1, he.2.2.2.2.1 rfl⟩),
   (C17_stride_of_640x480 (try_fmt_stride 2000) bpp16 [] 640 480 7 9 _ rfl rfl rfl).elim
      (fun e he => ⟨e, he.1, he.2.2.2.2.2.1 (by decide)⟩)⟩

/-- C18: for every user control, (1) when the control is not one-shot, is of kind
integer, enum or boolean, and both `VIDIOC_S_CTRL` and `VIDIOC_G_CTRL` succeed,
`v4l2_try_set_control` returns TRUE and `actual` holds the value read back (as
an integer, or as a boolean for a boolean control), whatever was proposed; (2)
when `VIDIOC_S_CTRL` fails it returns FALSE, its only call is the failed set
(no get), and `actual` is untouched. -/
theorem C18_readback_is_the_actual_value (dev : CtlDevice) (s : CtlSt) (ctl : CamUnitControl)
    (proposed actual : GValue) (huser : is_user_control s ctl = true) :
    (∀ r, ctl.one_shot = false →
      (ctl.type = CamUnitControlType.int ∨ ctl.type = CamUnitControlType.enum ∨
        ctl.type = CamUnitControlType.boolean) →
      dev.s_ctrl s.trace ctl.queryctrl_id (vctl_value ctl.type proposed) = true →
      dev.g_ctrl (s.trace ++ [CtlEvent.s_ctrl ctl.queryctrl_id (vctl_value ctl.type proposed) true])
        ctl.queryctrl_id = some r →
      v4l2_try_set_control dev s ctl proposed actual = Except.ok (true,
        (if ctl.type = CamUnitControlType.boolean then GValue.boolean (decide (r ≠ 0))
         else GValue.int r),
        { s with trace := s.trace ++
            [CtlEvent.s_ctrl ctl.queryctrl_id (vctl_value ctl.type proposed) true,
             CtlEvent.g_ctrl ctl.queryctrl_id (some r)] })) ∧
    (dev.s_ctrl s.trace ctl.queryctrl_id (vctl_value ctl.type proposed) = false →
      v4l2_try_set_control dev s ctl proposed actual = Except.ok (false, actual,
        { s with trace := s.trace ++
            [CtlEvent.s_ctrl ctl.queryctrl_id (vctl_value ctl.type proposed) false] })) := by
  rw [v4l2_try_set_control_user dev s ctl proposed actual huser]
  constructor
  · intro r hone hkind hset hget
    rw [hset, hone, hget]
    simp only [if_true, Bool.false_eq_true, if_false, List.append_assoc, List.singleton_append]
    rcases hkind with hk | hk | hk <;> rw [hk] <;> simp [store_readback, g_value_set_boolean]
  · intro hset
    rw [hset]
    simp

/-- Witness of C18: the brightness control, on a device that reads back 7 and on
a device that refuses the set. -/
theorem C18_readback_is_the_actual_value_witness :
    v4l2_try_set_control (good_ctl_device 7) ctl_st0 brightness_ctl (GValue.int 300)
        (GValue.int 128) = Except.ok (true,
          (if brightness_ctl.type = CamUnitControlType.boolean then
            GValue.boolean (decide ((7 : Int) ≠ 0)) else GValue.int 7),
          { ctl_st0 with trace := ctl_st0.trace ++
              [CtlEvent.s_ctrl brightness_ctl.queryctrl_id
                 (vctl_value brightness_ctl.type (GValue.int 300)) true,
               CtlEvent.g_ctrl brightness_ctl.queryctrl_id (some 7)] }) ∧
    v4l2_try_set_control ctl_dev_set_fails ctl_st0 brightness_ctl (GValue.int 300)
        (GValue.int 128) = Except.ok (false, GValue.int 128,
          { ctl_st0 with trace := ctl_st0.trace ++
              [CtlEvent.s_ctrl brightness_ctl.queryctrl_id
                 (vctl_value brightness_ctl.type (GValue.int 300)) false] }) :=
  ⟨(C18_readback_is_the_actual_value (good_ctl_device 7) ctl_st0 brightness_ctl (GValue.int 300)
      (GValue.int 128) (by decide)).1 7 rfl (Or.inl rfl) rfl rfl,
   (C18_readback_is_the_actual_value ctl_dev_set_fails ctl_st0 brightness_ctl (GValue.int 300)
      (GValue.int 128) (by decide)).2 rfl⟩

/-- C19: for every user control that is not one-shot, when `VIDIOC_S_CTRL`
succeeds and `VIDIOC_G_CTRL` fails, `v4l2_try_set_control` returns TRUE and
`actual` is the proposed value unchanged. -/
theorem C19_failed_readback_keeps_proposed (dev : CtlDevice) (s : CtlSt) (ctl : CamUnitControl)
    (proposed actual : GValue) (huser : is_user_control s ctl = true)
    (hone : ctl.one_shot = false)
    (hset : dev.s_ctrl s.trace ctl.queryctrl_id (vctl_value ctl.type proposed) = true)
    (hget : dev.g_ctrl
      (s.trace ++ [CtlEvent.s_ctrl ctl.queryctrl_id (vctl_value ctl.type proposed) true])
      ctl.queryctrl_id = none) :
    v4l2_try_set_control dev s ctl proposed actual = Except.ok (true, proposed,
      { s with trace := s.trace ++
          [CtlEvent.s_ctrl ctl.queryctrl_id (vctl_value ctl.type proposed) true,
           CtlEvent.g_ctrl ctl.queryctrl_id none] }) := by
  rw [v4l2_try_set_control_user dev s ctl proposed actual huser, hset, hone, hget]
  simp

/-- Witness of C19: the brightness control on a device that refuses the read-back. -/
theorem C19_failed_readback_keeps_proposed_witness :
    v4l2_try_set_control ctl_dev_get_fails ctl_st0 brightness_ctl (GValue.int 300)
        (GValue.int 128) = Except.ok (true, GValue.int 300,
          { ctl_st0 with trace := ctl_st0.trace ++
              [CtlEvent.s_ctrl brightness_ctl.queryctrl_id
                 (vctl_value brightness_ctl.type (GValue.int 300)) true,
               CtlEvent.g_ctrl brightness_ctl.queryctrl_id none] }) :=
  C19_failed_readback_keeps_proposed ctl_dev_get_fails ctl_st0 brightness_ctl (GValue.int 300)
    (GValue.int 128) (by decide) rfl rfl rfl

/-- C20: (1) for every one-shot user control, a `v4l2_try_set_control` whose
`VIDIOC_S_CTRL` succeeds returns FALSE, its only call is the set (no get) and
`actual` is untouched; (2) for every control the device reports as a button,
`add_control` builds a boolean descriptor marked one-shot, which is a user
control of every unit whose standard control is another object. -/
theorem C20_button_is_set_and_forget :
    (∀ (dev : CtlDevice) (s : CtlSt) (ctl : CamUnitControl) (proposed actual : GValue),
      is_user_control s ctl = true → ctl.one_shot = true →
      dev.s_ctrl s.trace ctl.queryctrl_id (vctl_value ctl.type proposed) = true →
      v4l2_try_set_control dev s ctl proposed actual = Except.ok (false, actual,
        { s with trace := s.trace ++
            [CtlEvent.s_ctrl ctl.queryctrl_id (vctl_value ctl.type proposed) true] })) ∧
    (∀ (dev : CtlDevice) (tr : List CtlEvent) (handle : Nat) (q : V4l2Queryctrl),
      q.type = V4l2CtrlType.button →
      ∃ c, add_control dev tr handle q = Except.ok (some c, tr) ∧
        c.one_shot = true ∧ c.type = CamUnitControlType.boolean ∧ c.queryctrl_id = q.id ∧
        ∀ s : CtlSt, handle ≠ s.standard_ctl.handle → is_user_control s c = true) := by
  constructor
  · intro dev s ctl proposed actual huser hone hset
    rw [v4l2_try_set_control_user dev s ctl proposed actual huser, hset, hone]
    simp
  · intro dev tr handle q hq
    refine ⟨{ cam_unit_control_set_ui_hints_one_shot
        (cam_unit_add_control_boolean handle (ctl_id_of q.id) q.name 0 true) with
        queryctrl_id := q.id }, ?_, rfl, rfl, rfl, ?_⟩
    · unfold add_control
      rw [hq]
    · intro s hne
      unfold is_user_control
      have hid := ctl_id_of_ne_input q.id
      simp [cam_unit_control_set_ui_hints_one_shot, cam_unit_add_control_boolean, hid, hne]

/-- Witness of C20: the do-white-balance button of a device. -/
theorem C20_button_is_set_and_forget_witness :
    v4l2_try_set_control (good_ctl_device 7) ctl_st0 button_ctl (GValue.boolean true)
        (GValue.boolean false) = Except.ok (false, GValue.boolean false,
          { ctl_st0 with trace := ctl_st0.trace ++
              [CtlEvent.s_ctrl button_ctl.queryctrl_id
                 (vctl_value button_ctl.type (GValue.boolean true)) true] }) ∧
    (∃ c, add_control (good_ctl_device 7) [] 3 button_q = Except.ok (some c, []) ∧
        c.one_shot = true ∧ c.type = CamUnitControlType.boolean ∧
        c.queryctrl_id = button_q.id ∧
        ∀ s : CtlSt, 3 ≠ s.standard_ctl.handle → is_user_control s c = true) :=
  ⟨C20_button_is_set_and_forget.1 (good_ctl_device 7) ctl_st0 button_ctl (GValue.boolean true)
      (GValue.boolean false) (by decide) rfl rfl,
   C20_button_is_set_and_forget.2 (good_ctl_device 7) [] 3 button_q rfl⟩


/-! ## Reachable states, standards and discovery: auxiliary facts -/

theorem unwind_loop_self (i : Nat) :
    ∀ (n : Nat) (s s3 : St), unwind_loop i n s = Except.ok s3 → s3.self = s.self := by
  intro n
  induction n with
  | zero =>
    intro s s3 h
    simp only [unwind_loop] at h
    rw [← Except.ok.inj h]
  | succ n ih =>
    intro s s3 h
    simp only [unwind_loop] at h
    split at h
    · exact absurd h (by simp)
    · exact (ih _ _ h).trans rfl

theorem shutdown_loop_self :
    ∀ (n i : Nat) (s s1 : St), shutdown_loop n i s = Except.ok s1 → s1.self = s.self := by
  intro n
  induction n with
  | zero =>
    intro i s s1 h
    simp only [shutdown_loop] at h
    rw [← Except.ok.inj h]
  | succ n ih =>
    intro i s s1 h
    simp only [shutdown_loop] at h
    split at h
    · exact absurd h (by simp)
    · exact (ih _ _ _ h).trans rfl

theorem v4l2_stream_shutdown_outstanding (dev : Device) (s s1 : St) (r : Int)
    (h : v4l2_stream_shutdown dev s = Except.ok (r, s1)) :
    s1.self.buffers_outstanding = s.self.buffers_outstanding := by
  unfold v4l2_stream_shutdown at h
  split at h
  · exact absurd h (by simp)
  · rename_i s2 hs2
    have hself := shutdown_loop_self _ _ _ _ hs2
    have := (Prod.mk.inj (Except.ok.inj h)).2
    rw [← this]
    simp [St.log, hself]

theorem v4l2_stream_init_outstanding (dev : Device) (s s1 : St) (fmt : CamUnitFormat) (r : Int)
    (h : v4l2_stream_init dev s fmt = Except.ok (r, s1))
    (h0 : s.self.buffers_outstanding = 0) : s1.self.buffers_outstanding = 0 := by
  rw [v4l2_stream_init_eq] at h
  split at h
  · split at h
    · rw [← (Prod.mk.inj (Except.ok.inj h)).2]
      exact h0
    · rename_i G hG
      unfold finish_init at h
      split at h
      · split at h
        · exact absurd h (by simp)
        · rename_i s3 hs3
          have hself := unwind_loop_self _ _ _ _ hs3
          rw [← (Prod.mk.inj (Except.ok.inj h)).2, hself,
            (init_loop_frame dev _ 0 (after_reqbufs s fmt G)).2.1]
          exact h0
      · rw [← (Prod.mk.inj (Except.ok.inj h)).2]
  · rw [← (Prod.mk.inj (Except.ok.inj h)).2]
    exact h0

theorem v4l2_try_produce_frame_outstanding (dev : Device) (con : Consumer) (s s1 : St)
    (h : v4l2_try_produce_frame dev con s = Except.ok s1)
    (h0 : s.self.buffers_outstanding = 0) : s1.self.buffers_outstanding = 0 := by
  unfold v4l2_try_produce_frame at h
  split at h
  · rw [← Except.ok.inj h]; exact h0
  · split at h
    · dsimp only at h
      split at h
      · exact absurd h (by simp)
      · rename_i r2 hr2
        split at h
        · exact absurd h (by simp)
        · rename_i r3 hr3
          rw [← Except.ok.inj h, v4l2_stream_on_spec]
          have hd := v4l2_stream_shutdown_outstanding dev _ r2.2 r2.1 hr2
          exact v4l2_stream_init_outstanding dev r2.2 r3.2 _ r3.1 hr3 (by rw [hd]; exact h0)
    · dsimp only at h
      split at h
      · exact absurd h (by simp)
      · rw [← Except.ok.inj h]; exact h0

theorem reachable_outstanding (dev : Device) (con : Consumer) (s : St)
    (h : Reachable dev con s) : s.self.buffers_outstanding = 0 := by
  induction h with
  | construct status fmt fd => rfl
  | stream_init fmt r _ hstep ih => exact v4l2_stream_init_outstanding dev _ _ fmt r hstep ih
  | stream_on _ ih => rw [v4l2_stream_on_spec]; exact ih
  | stream_off _ ih =>
    unfold v4l2_stream_off
    split <;> exact ih
  | try_produce_frame _ hstep ih => exact v4l2_try_produce_frame_outstanding dev con _ _ hstep ih
  | stream_shutdown r _ hstep ih =>
    rw [v4l2_stream_shutdown_outstanding dev _ _ r hstep]; exact ih
  | parent status fmt _ ih => exact ih

theorem append_singleton_ne {α : Type} (l1 l2 : List α) (a b : α) (hab : a ≠ b) :
    l1 ++ [a] ≠ l2 ++ [b] := by
  intro h
  have := congrArg List.getLast? h
  simp [List.getLast?_concat] at this
  exact hab this

theorem v4l2_try_produce_frame_no_sleep (dev : Device) (con : Consumer) (s : St)
    (hroom : s.self.buffers_outstanding ≠ s.self.num_buffers) :
    v4l2_try_produce_frame dev con s ≠ Except.ok (s.log Event.nanosleep) := by
  unfold v4l2_try_produce_frame
  rw [if_neg hroom]
  split
  · dsimp only
    split
    · simp
    · split
      · simp
      · rename_i r3 _
        rw [v4l2_stream_on_spec]
        intro h
        have ht := congrArg St.trace (Except.ok.inj h)
        exact append_singleton_ne _ _ _ _ (by simp) ht
  · dsimp only
    split
    · simp
    · intro h
      have ht := congrArg St.trace (Except.ok.inj h)
      exact append_singleton_ne _ _ _ _ (by simp) ht


theorem enumstd_loop_list (dev : CtlDevice) (stdid : Nat) (L : List V4l2Standard)
    (henum : ∀ h i, dev.enumstd h i = L[i]?) (hlen : L.length < MAX_INPUTS) :
    ∀ (n : Nat) (e : EnumStd), e.i ≤ L.length → L.length ≤ e.i + n →
      ∃ cv tr, enumstd_loop dev stdid n e =
        Except.ok { i := L.length, cur_val := cv,
                    stds := e.stds ++ (L.drop e.i).map (fun x => x.id),
                    std_descs := e.std_descs ++ (L.drop e.i).map (fun x => x.name),
                    trace := tr } := by
  intro n
  induction n with
  | zero =>
    intro e h1 h2
    have hi : e.i = L.length := by omega
    refine ⟨e.cur_val, e.trace ++ [CtlEvent.enumstd e.i (dev.enumstd e.trace e.i)], ?_⟩
    simp only [enumstd_loop]
    rw [hi, List.drop_length]
    simp [← hi]
  | succ n ih =>
    intro e h1 h2
    simp only [enumstd_loop]
    rw [henum]
    by_cases hlt : e.i < L.length
    · rw [List.getElem?_eq_getElem hlt]
      dsimp only
      rw [if_pos (by omega)]
      obtain ⟨cv, tr, h⟩ := ih
        { i := e.i + 1, cur_val := if Nat.land (L[e.i]).id stdid ≠ 0 then e.i else e.cur_val,
          stds := e.stds ++ [(L[e.i]).id], std_descs := e.std_descs ++ [(L[e.i]).name],
          trace := e.trace ++ [CtlEvent.enumstd e.i (some L[e.i])] }
        (by simpa using hlt) (by simp only; omega)
      refine ⟨cv, tr, ?_⟩
      rw [h, List.drop_eq_getElem_cons hlt]
      simp only [List.map_cons, List.append_assoc, List.singleton_append]
    · have hi : e.i = L.length := by omega
      rw [List.getElem?_eq_none (by omega)]
      refine ⟨e.cur_val, e.trace ++ [CtlEvent.enumstd e.i none], ?_⟩
      dsimp only
      rw [hi, List.drop_length]
      simp [← hi]

theorem update_video_standards_list (dev : CtlDevice) (s : CtlSt) (L : List V4l2Standard)
    (henum : ∀ h i, dev.enumstd h i = L[i]?) (hlen : L.length < MAX_INPUTS) :
    ∃ s1, update_video_standards dev s true = Except.ok (0, s1) ∧
      (L ≠ [] → s1.standard_ctl.entries = L.map (fun x => x.name) ∧
        s1.standard_ctl.enabled = true ∧
        s1.standard_ctl.stds = some (L.map (fun x => x.id))) ∧
      (L = [] → s1.standard_ctl.entries = s.standard_ctl.entries ∧
        s1.standard_ctl.enabled = false ∧
        s1.standard_ctl.stds = s.standard_ctl.stds) := by
  obtain ⟨cv, tr, h⟩ := enumstd_loop_list dev ((dev.g_std s.trace).getD 0) L henum hlen
    MAX_STANDARDS
    { i := 0, cur_val := 0, stds := [], std_descs := [],
      trace := s.trace ++ [CtlEvent.g_std (dev.g_std s.trace)] }
    (Nat.zero_le _) (by simp only [MAX_STANDARDS, MAX_INPUTS] at *; omega)
  unfold update_video_standards
  dsimp only
  rw [h]
  dsimp only
  by_cases h0 : L.length = 0
  · rw [if_pos h0]
    refine ⟨_, rfl, ?_, ?_⟩
    · intro hne
      exact absurd (List.length_eq_zero.mp h0) hne
    · intro _
      exact ⟨rfl, rfl, rfl⟩
  · rw [if_neg h0, if_neg (by omega)]
    refine ⟨_, rfl, ?_, ?_⟩
    · intro _
      simp [cam_unit_control_force_set_int, cam_unit_control_modify_enum]
    · intro hnil
      exact absurd (by rw [hnil]; rfl) h0


theorem menu_loop_spec (dev : CtlDevice) (id bound : Nat) (hb : bound + 1 < 4294967296) :
    ∀ (cap index : Nat) (entries : List String) (tr : List CtlEvent) (names : List String),
      index + cap = bound + 1 → names.length ≤ cap →
      (∀ (j : Nat) (hj : j < names.length),
        dev.querymenu (tr ++ menu_ok_events id index (names.take j)) id (index + j) =
          some names[j]) →
      (names.length < cap →
        dev.querymenu (tr ++ menu_ok_events id index names) id (index + names.length) = none) →
      menu_loop dev id bound cap index entries tr =
        Except.ok (entries ++ names,
          tr ++ menu_ok_events id index names ++
            (if names.length < cap then
               [CtlEvent.querymenu id (index + names.length) none] else [])) := by
  intro cap
  induction cap with
  | zero =>
    intro index entries tr names hcap hlen _ _
    have hn : names = [] := List.length_eq_zero.mp (by omega)
    subst hn
    simp only [menu_loop]
    rw [if_neg (by omega)]
    simp [menu_ok_events]
  | succ cap ih =>
    intro index entries tr names hcap hlen hok hstop
    simp only [menu_loop]
    rw [if_pos (by omega)]
    cases names with
    | nil =>
      have h := hstop (by simp)
      simp only [menu_ok_events, List.append_nil, List.length_nil, Nat.add_zero] at h
      rw [h]
      simp [menu_ok_events]
    | cons n ns =>
      have h0 := hok 0 (by simp)
      simp only [List.take_zero, menu_ok_events, List.append_nil, Nat.add_zero,
        List.getElem_cons_zero] at h0
      rw [h0]
      dsimp only
      have hu : u32 (index + 1) = index + 1 := by
        unfold u32
        exact Nat.mod_eq_of_lt (by omega)
      rw [hu]
      have hlen2 : ns.length ≤ cap := by simpa using hlen
      rw [ih (index + 1) (entries ++ [n]) (tr ++ [CtlEvent.querymenu id index (some n)]) ns
        (by omega) hlen2 ?_ ?_]
      · simp only [menu_ok_events, List.length_cons, List.append_assoc, List.singleton_append,
          Nat.add_lt_add_iff_right]
        have : index + 1 + ns.length = index + (ns.length + 1) := by omega
        rw [this]
      · intro j hj
        have h := hok (j + 1) (by simpa using hj)
        simp only [List.take_succ_cons, menu_ok_events, List.getElem_cons_succ] at h
        rw [List.append_assoc, List.singleton_append]
        have e : index + 1 + j = index + (j + 1) := by omega
        rw [e]
        exact h
      · intro hlt
        have h := hstop (by simpa using hlt)
        simp only [menu_ok_events, List.length_cons] at h
        rw [List.append_assoc, List.singleton_append]
        have e : index + 1 + ns.length = index + (ns.length + 1) := by omega
        rw [e]
        exact h

theorem u32_of_int_of_nat (n : Nat) (h : n < 4294967296) : u32_of_int (n : Int) = n := by
  unfold u32_of_int
  have : ((n : Int) % 4294967296) = (n : Int) := Int.emod_eq_of_lt (by omega) (by omega)
  rw [this]
  simp


theorem menu_loop_ok (dev : CtlDevice) (id bound : Nat) (hb : bound + 1 < 4294967296) :
    ∀ (cap index : Nat) (entries : List String) (tr : List CtlEvent),
      bound + 1 ≤ index + cap → index ≤ bound + 1 →
      ∃ names evs, menu_loop dev id bound cap index entries tr = Except.ok (names, tr ++ evs) ∧
        evs.filterMap CtlEvent.built = [] ∧ evs.filterMap CtlEvent.queried = [] ∧
        evs.filterMap CtlEvent.refused = [] := by
  intro cap
  induction cap with
  | zero =>
    intro index entries tr h1 h2
    refine ⟨entries, [], ?_, rfl, rfl, rfl⟩
    simp only [menu_loop]
    rw [if_neg (by omega)]
    simp
  | succ cap ih =>
    intro index entries tr h1 h2
    simp only [menu_loop]
    by_cases hle : index ≤ bound
    · rw [if_pos hle]
      cases hq : dev.querymenu tr id index with
      | none =>
        exact ⟨entries, [CtlEvent.querymenu id index none], rfl, rfl, rfl, rfl⟩
      | some name =>
        dsimp only
        have hu : u32 (index + 1) = index + 1 := by
          unfold u32
          exact Nat.mod_eq_of_lt (by omega)
        rw [hu]
        obtain ⟨names, evs, h, hb1, hb2, hb3⟩ := ih (index + 1) (entries ++ [name])
          (tr ++ [CtlEvent.querymenu id index (some name)]) (by omega) (by omega)
        refine ⟨names, CtlEvent.querymenu id index (some name) :: evs, ?_, ?_, ?_, ?_⟩
        · rw [h, List.append_assoc, List.singleton_append]
        · simpa [List.filterMap_cons, CtlEvent.built] using hb1
        · simpa [List.filterMap_cons, CtlEvent.queried] using hb2
        · simpa [List.filterMap_cons, CtlEvent.refused] using hb3
    · rw [if_neg hle]
      exact ⟨entries, [], by simp, rfl, rfl, rfl⟩

/-- A menu whose reported minimum and maximum are non-negative `int` values
keeps its option loop inside the arrays, so `add_control` returns. -/
theorem add_control_ok (dev : CtlDevice) (tr : List CtlEvent) (handle : Nat) (q : V4l2Queryctrl)
    (hsane : q.type = V4l2CtrlType.menu → menu_range_ok q = true) :
    ∃ r, add_control dev tr handle q = Except.ok r ∧
      (r.1.toList).map (fun c => c.queryctrl_id) =
        (if kind_supported q.type then [q.id] else []) ∧
      ∃ evs, r.2 = tr ++ evs ∧
        evs.filterMap CtlEvent.built = [] ∧ evs.filterMap CtlEvent.queried = [] ∧
        evs.filterMap CtlEvent.refused = [] := by
  unfold add_control
  dsimp only
  cases ht : q.type with
  | integer => exact ⟨_, rfl, rfl, [], (List.append_nil _).symm, rfl, rfl, rfl⟩
  | boolean => exact ⟨_, rfl, rfl, [], (List.append_nil _).symm, rfl, rfl, rfl⟩
  | button => exact ⟨_, rfl, rfl, [], (List.append_nil _).symm, rfl, rfl, rfl⟩
  | integer64 => exact ⟨_, rfl, rfl, [], (List.append_nil _).symm, rfl, rfl, rfl⟩
  | other => exact ⟨_, rfl, rfl, [], (List.append_nil _).symm, rfl, rfl, rfl⟩
  | menu =>
    have hs := hsane ht
    simp only [menu_range_ok, Bool.and_eq_true, decide_eq_true_eq] at hs
    obtain ⟨⟨⟨h0, h0b⟩, hmax⟩, h1⟩ := hs
    dsimp only
    obtain ⟨hi, hhi⟩ := Int.eq_ofNat_of_zero_le hmax
    obtain ⟨lo, hlo⟩ := Int.eq_ofNat_of_zero_le h0
    have hbound : u32_of_int q.maximum = hi := by
      rw [hhi]; exact u32_of_int_of_nat hi (by omega)
    have hindex : u32_of_int q.minimum = lo := by
      rw [hlo]; exact u32_of_int_of_nat lo (by omega)
    rw [hbound, hindex]
    by_cases hlh : lo ≤ hi + 1
    · obtain ⟨names, evs, h, hb1, hb2, hb3⟩ := menu_loop_ok dev q.id hi (by omega)
        (q.maximum - q.minimum + 1).toNat lo [] tr (by omega) hlh
      rw [h]
      exact ⟨_, rfl, rfl, evs, rfl, hb1, hb2, hb3⟩
    · have hcap : (q.maximum - q.minimum + 1).toNat = 0 := by omega
      rw [hcap]
      simp only [menu_loop]
      rw [if_neg (by omega)]
      exact ⟨_, rfl, rfl, [], (List.append_nil _).symm, rfl, rfl, rfl⟩

theorem discover_one_spec (dev : CtlDevice) (r : CtlReg) (q : V4l2Queryctrl)
    (hsane : q.type = V4l2CtrlType.menu → menu_range_ok q = true) :
    ∃ cs evs, discover_one dev r q =
        Except.ok { controls := r.controls ++ cs, trace := r.trace ++ evs } ∧
      cs.map (fun c => c.queryctrl_id) = (if kind_supported q.type then [q.id] else []) ∧
      evs.filterMap CtlEvent.built = [] ∧ evs.filterMap CtlEvent.queried = [] ∧
      evs.filterMap CtlEvent.refused = [] := by
  obtain ⟨⟨c, tr1⟩, h, hc, evs, he, hb1, hb2, hb3⟩ :=
    add_control_ok dev r.trace r.controls.length q hsane
  simp only at he hc
  subst he
  unfold discover_one
  rw [h]
  cases c with
  | none =>
    refine ⟨[], evs, ?_, hc, hb1, hb2, hb3⟩
    rw [List.append_nil]
  | some c => exact ⟨[c], evs, rfl, hc, hb1, hb2, hb3⟩


theorem built_of_disabled (id : Nat) (q : V4l2Queryctrl) (h : ctrl_disabled q = true) :
    CtlEvent.built (CtlEvent.queryctrl id (QueryctrlRes.ok q)) = none := by
  simp [CtlEvent.built, h]

theorem built_of_enabled (id : Nat) (q : V4l2Queryctrl) (h : ¬ ctrl_disabled q = true) :
    (CtlEvent.built (CtlEvent.queryctrl id (QueryctrlRes.ok q))).toList =
      (if kind_supported q.type then [q.id] else []) := by
  have h2 : ctrl_disabled q = false := by simpa using h
  cases hk : kind_supported q.type <;> simp [CtlEvent.built, h2, hk]

theorem base_loop_spec (dev : CtlDevice)
    (hsane : ∀ h id q, dev.queryctrl h id = QueryctrlRes.ok q →
      q.type = V4l2CtrlType.menu → menu_range_ok q = true) :
    ∀ (n id : Nat) (r : CtlReg),
      ∃ cs evs, base_loop dev n id r =
          Except.ok { controls := r.controls ++ cs, trace := r.trace ++ evs } ∧
        cs.map (fun c => c.queryctrl_id) = evs.filterMap CtlEvent.built ∧
        evs.filterMap CtlEvent.queried = List.range' id n := by
  intro n
  induction n with
  | zero =>
    intro id r
    refine ⟨[], [], ?_, rfl, rfl⟩
    simp [base_loop]
  | succ n ih =>
    intro id r
    simp only [base_loop]
    cases hq : dev.queryctrl r.trace id with
    | ok q =>
      dsimp only
      by_cases hd : ctrl_disabled q = true
      · rw [if_pos hd]
        obtain ⟨cs, evs, h, hc, hr⟩ := ih (id + 1)
          { r with trace := r.trace ++ [CtlEvent.queryctrl id (QueryctrlRes.ok q)] }
        refine ⟨cs, CtlEvent.queryctrl id (QueryctrlRes.ok q) :: evs, ?_, ?_, ?_⟩
        · rw [h]; simp
        · rw [List.filterMap_cons, built_of_disabled id q hd]; exact hc
        · simp [List.filterMap_cons, CtlEvent.queried, hr, List.range'_succ]
      · rw [if_neg hd]
        obtain ⟨cs1, evs1, h1, hc1, hb1, hq1, _⟩ := discover_one_spec dev
          { r with trace := r.trace ++ [CtlEvent.queryctrl id (QueryctrlRes.ok q)] } q
          (hsane _ _ _ hq)
        rw [h1]
        dsimp only
        obtain ⟨cs2, evs2, h2, hc2, hr2⟩ := ih (id + 1)
          { controls := r.controls ++ cs1,
            trace := r.trace ++ [CtlEvent.queryctrl id (QueryctrlRes.ok q)] ++ evs1 }
        refine ⟨cs1 ++ cs2, CtlEvent.queryctrl id (QueryctrlRes.ok q) :: (evs1 ++ evs2),
          ?_, ?_, ?_⟩
        · rw [h2]; simp
        · rw [List.map_append, hc1, hc2, List.filterMap_cons, List.filterMap_append, hb1,
            ← built_of_enabled id q hd]
          cases CtlEvent.built (CtlEvent.queryctrl id (QueryctrlRes.ok q)) <;> rfl
        · simp [List.filterMap_cons, CtlEvent.queried, List.filterMap_append, hq1, hr2,
            List.range'_succ]
    | einval =>
      dsimp only
      obtain ⟨cs, evs, h, hc, hr⟩ := ih (id + 1)
        { r with trace := r.trace ++ [CtlEvent.queryctrl id QueryctrlRes.einval] }
      refine ⟨cs, CtlEvent.queryctrl id QueryctrlRes.einval :: evs, ?_, ?_, ?_⟩
      · rw [h]; simp
      · simpa [List.filterMap_cons, CtlEvent.built] using hc
      · simp [List.filterMap_cons, CtlEvent.queried, hr, List.range'_succ]
    | error =>
      dsimp only
      obtain ⟨cs, evs, h, hc, hr⟩ := ih (id + 1)
        { r with trace := r.trace ++ [CtlEvent.queryctrl id QueryctrlRes.error] }
      refine ⟨cs, CtlEvent.queryctrl id QueryctrlRes.error :: evs, ?_, ?_, ?_⟩
      · rw [h]; simp
      · simpa [List.filterMap_cons, CtlEvent.built] using hc
      · simp [List.filterMap_cons, CtlEvent.queried, hr, List.range'_succ]

/-- The private loop asks for the ids from `id` on and leaves at the first
`EINVAL`, which is then its last event. -/
theorem private_loop_spec (dev : CtlDevice)
    (hsane : ∀ h id q, dev.queryctrl h id = QueryctrlRes.ok q →
      q.type = V4l2CtrlType.menu → menu_range_ok q = true) :
    ∀ (n id : Nat) (r : CtlReg),
      ∃ cs evs, private_loop dev n id r =
          Except.ok { controls := r.controls ++ cs, trace := r.trace ++ evs } ∧
        cs.map (fun c => c.queryctrl_id) = evs.filterMap CtlEvent.built ∧
        ((evs.filterMap CtlEvent.queried = List.range' id n ∧
            evs.filterMap CtlEvent.refused = []) ∨
         (∃ k evs0, k < n ∧ evs = evs0 ++ [CtlEvent.queryctrl (id + k) QueryctrlRes.einval] ∧
            evs0.filterMap CtlEvent.queried = List.range' id k ∧
            evs0.filterMap CtlEvent.refused = [])) := by
  intro n
  induction n with
  | zero =>
    intro id r
    refine ⟨[], [], ?_, rfl, Or.inl ⟨rfl, rfl⟩⟩
    simp [private_loop]
  | succ n ih =>
    intro id r
    simp only [private_loop]
    cases hq : dev.queryctrl r.trace id with
    | ok q =>
      dsimp only
      by_cases hd : ctrl_disabled q = true
      · rw [if_pos hd]
        obtain ⟨cs, evs, h, hc, hr⟩ := ih (id + 1)
          { r with trace := r.trace ++ [CtlEvent.queryctrl id (QueryctrlRes.ok q)] }
        refine ⟨cs, CtlEvent.queryctrl id (QueryctrlRes.ok q) :: evs, ?_, ?_, ?_⟩
        · rw [h]; simp
        · rw [List.filterMap_cons, built_of_disabled id q hd]; exact hc
        · rcases hr with ⟨hr1, hr2⟩ | ⟨k, evs0, hk, he, hr1, hr2⟩
          · left
            exact ⟨by simp [List.filterMap_cons, CtlEvent.queried, hr1, List.range'_succ],
              by simpa [List.filterMap_cons, CtlEvent.refused] using hr2⟩
          · right
            refine ⟨k + 1, CtlEvent.queryctrl id (QueryctrlRes.ok q) :: evs0, by omega, ?_, ?_, ?_⟩
            · rw [he, List.cons_append]
              have e : id + 1 + k = id + (k + 1) := by omega
              rw [e]
            · simp [List.filterMap_cons, CtlEvent.queried, hr1, List.range'_succ]
            · simpa [List.filterMap_cons, CtlEvent.refused] using hr2
      · rw [if_neg hd]
        obtain ⟨cs1, evs1, h1, hc1, hb1, hq1, hf1⟩ := discover_one_spec dev
          { r with trace := r.trace ++ [CtlEvent.queryctrl id (QueryctrlRes.ok q)] } q
          (hsane _ _ _ hq)
        rw [h1]
        dsimp only
        obtain ⟨cs2, evs2, h2, hc2, hr⟩ := ih (id + 1)
          { controls := r.controls ++ cs1,
            trace := r.trace ++ [CtlEvent.queryctrl id (QueryctrlRes.ok q)] ++ evs1 }
        refine ⟨cs1 ++ cs2, CtlEvent.queryctrl id (QueryctrlRes.ok q) :: (evs1 ++ evs2),
          ?_, ?_, ?_⟩
        · rw [h2]; simp
        · rw [List.map_append, hc1, hc2, List.filterMap_cons, List.filterMap_append, hb1,
            ← built_of_enabled id q hd]
          cases CtlEvent.built (CtlEvent.queryctrl id (QueryctrlRes.ok q)) <;> rfl
        · rcases hr with ⟨hr1, hr2⟩ | ⟨k, evs0, hk, he, hr1, hr2⟩
          · left
            exact ⟨by simp [List.filterMap_cons, CtlEvent.queried, List.filterMap_append, hq1,
                hr1, List.range'_succ],
              by simp [List.filterMap_cons, CtlEvent.refused, List.filterMap_append, hf1, hr2]⟩
          · right
            refine ⟨k + 1, CtlEvent.queryctrl id (QueryctrlRes.ok q) :: (evs1 ++ evs0),
              by omega, ?_, ?_, ?_⟩
            · rw [he, List.cons_append, List.append_assoc]
              have e : id + 1 + k = id + (k + 1) := by omega
              rw [e]
            · simp [List.filterMap_cons, CtlEvent.queried, List.filterMap_append, hq1, hr1,
                List.range'_succ]
            · simp [List.filterMap_cons, CtlEvent.refused, List.filterMap_append, hf1, hr2]
    | einval =>
      dsimp only
      refine ⟨[], [CtlEvent.queryctrl id QueryctrlRes.einval], ?_, rfl, Or.inr ?_⟩
      · simp
      · exact ⟨0, [], by omega, rfl, rfl, rfl⟩
    | error =>
      dsimp only
      obtain ⟨cs, evs, h, hc, hr⟩ := ih (id + 1)
        { r with trace := r.trace ++ [CtlEvent.queryctrl id QueryctrlRes.error] }
      refine ⟨cs, CtlEvent.queryctrl id QueryctrlRes.error :: evs, ?_, ?_, ?_⟩
      · rw [h]; simp
      · simpa [List.filterMap_cons, CtlEvent.built] using hc
      · rcases hr with ⟨hr1, hr2⟩ | ⟨k, evs0, hk, he, hr1, hr2⟩
        · left
          exact ⟨by simp [List.filterMap_cons, CtlEvent.queried, hr1, List.range'_succ],
            by simpa [List.filterMap_cons, CtlEvent.refused] using hr2⟩
        · right
          refine ⟨k + 1, CtlEvent.queryctrl id QueryctrlRes.error :: evs0, by omega, ?_, ?_, ?_⟩
          · rw [he, List.cons_append]
            have e : id + 1 + k = id + (k + 1) := by omega
            rw [e]
          · simp [List.filterMap_cons, CtlEvent.queried, hr1, List.range'_succ]
          · simpa [List.filterMap_cons, CtlEvent.refused] using hr2


/-! ## The value a control set reports -/

/-- C21, counterexample.  The brightness control has bounds 0 and 255; a
successful set on a device that reads back 300 reports 300 as the actual value,
above the maximum; and a proposed value of 1000 is sent to the device as it is. -/
theorem C21_actual_outside_bounds :
    is_user_control ctl_st0 brightness_ctl = true ∧
    brightness_ctl.type = CamUnitControlType.int ∧
    brightness_ctl.min = 0 ∧ brightness_ctl.max = 255 ∧
    v4l2_try_set_control (good_ctl_device 300) ctl_st0 brightness_ctl
        (GValue.int 1000) (GValue.int 128) =
      Except.ok (true, GValue.int 300,
        { ctl_st0 with trace := [CtlEvent.s_ctrl V4L2_CID_BASE 1000 true,
                                 CtlEvent.g_ctrl V4L2_CID_BASE (some 300)] }) ∧
    ¬ (g_value_get_int (GValue.int 300) ≤ brightness_ctl.max) :=
  ⟨rfl, rfl, rfl, rfl, rfl, by decide⟩

/-- C21, amended.  For an integer user control that is no one-shot control, a
set the device accepts and reads back reports success with exactly the value
read back as the actual value, after sending the proposed value unchanged; so
the actual value lies within the control's bounds if and only if the value the
device reads back does. -/
theorem C21_actual_is_readback (dev : CtlDevice) (s : CtlSt) (ctl : CamUnitControl)
    (proposed actual : GValue) (r : Int)
    (huser : is_user_control s ctl = true)
    (htype : ctl.type = CamUnitControlType.int)
    (hone : ctl.one_shot = false)
    (hset : dev.s_ctrl s.trace ctl.queryctrl_id (g_value_get_int proposed) = true)
    (hget : dev.g_ctrl (s.trace ++
        [CtlEvent.s_ctrl ctl.queryctrl_id (g_value_get_int proposed) true])
        ctl.queryctrl_id = some r) :
    v4l2_try_set_control dev s ctl proposed actual =
      Except.ok (true, GValue.int r,
        { s with trace := s.trace ++
            [CtlEvent.s_ctrl ctl.queryctrl_id (g_value_get_int proposed) true] ++
            [CtlEvent.g_ctrl ctl.queryctrl_id (some r)] }) ∧
    ((ctl.min ≤ g_value_get_int (GValue.int r) ∧ g_value_get_int (GValue.int r) ≤ ctl.max) ↔
      (ctl.min ≤ r ∧ r ≤ ctl.max)) := by
  refine ⟨?_, Iff.rfl⟩
  rw [v4l2_try_set_control_user dev s ctl proposed actual huser, htype]
  simp only [vctl_value, store_readback]
  rw [if_pos hset, hone, hget]
  rfl

/-- C21, amended, at the brightness control on a device that reads back 200. -/
theorem C21_actual_is_readback_witness :
    v4l2_try_set_control (good_ctl_device 200) ctl_st0 brightness_ctl
        (GValue.int 100) (GValue.int 128) =
      Except.ok (true, GValue.int 200,
        { ctl_st0 with trace := ctl_st0.trace ++
            [CtlEvent.s_ctrl brightness_ctl.queryctrl_id (g_value_get_int (GValue.int 100)) true] ++
            [CtlEvent.g_ctrl brightness_ctl.queryctrl_id (some 200)] }) ∧
    ((brightness_ctl.min ≤ g_value_get_int (GValue.int 200) ∧
        g_value_get_int (GValue.int 200) ≤ brightness_ctl.max) ↔
      (brightness_ctl.min ≤ 200 ∧ 200 ≤ brightness_ctl.max)) :=
  C21_actual_is_readback (good_ctl_device 200) ctl_st0 brightness_ctl
    (GValue.int 100) (GValue.int 128) 200 rfl rfl rfl rfl rfl

/-! ## The would-block guard -/

/-- C28.  In every reachable state of the V4L2 unit `buffers_outstanding` is 0,
so it never exceeds `num_buffers`; and `v4l2_try_produce_frame` takes its
early return (one sleep, nothing else) exactly when `num_buffers` is 0. -/
theorem C28_outstanding_is_zero (dev : Device) (con : Consumer) (s : St)
    (h : Reachable dev con s) :
    s.self.buffers_outstanding = 0 ∧
    s.self.buffers_outstanding ≤ s.self.num_buffers ∧
    (v4l2_try_produce_frame dev con s = Except.ok (s.log Event.nanosleep) ↔
      s.self.num_buffers = 0) := by
  have h0 := reachable_outstanding dev con s h
  refine ⟨h0, by omega, ?_, ?_⟩
  · intro hs
    by_contra hne
    exact v4l2_try_produce_frame_no_sleep dev con s (by omega) hs
  · intro hn
    unfold v4l2_try_produce_frame
    rw [if_pos (by omega)]

/-- C28 at the state a successful initialisation with two buffers leaves. -/
theorem C28_outstanding_is_zero_witness :
    st_initialised.self.buffers_outstanding = 0 ∧
    st_initialised.self.buffers_outstanding ≤ st_initialised.self.num_buffers ∧
    (v4l2_try_produce_frame (good_device 2 (fun _ => 4096)) con0 st_initialised =
        Except.ok (st_initialised.log Event.nanosleep) ↔
      st_initialised.self.num_buffers = 0) :=
  C28_outstanding_is_zero (good_device 2 (fun _ => 4096)) con0 st_initialised
    (Reachable.stream_init fmt0 0
      (Reachable.construct CamUnitStatus.idle fmt0 3) rfl)


/-! ## The standards of the selected input -/

/-- C25, counterexample.  The standard control lists the two standards of the
previous input; the input is set with success on a device that enumerates no
standard for the new input: the control still lists the two old standards, it
is only disabled. -/
theorem C25_old_standards_stay :
    ∃ s1, v4l2_try_set_control (std_device []) ctl_st_pal input_ctl
        (GValue.int 1) (GValue.int 0) = Except.ok (true, GValue.int 1, s1) ∧
      s1.standard_ctl.entries = ["PAL", "NTSC"] ∧
      s1.standard_ctl.entries ≠ ([] : List V4l2Standard).map (fun x => x.name) ∧
      s1.standard_ctl.stds = some [1, 2] ∧
      s1.standard_ctl.enabled = false ∧
      s1.trace = [CtlEvent.s_input 1 true, CtlEvent.g_std none, CtlEvent.enumstd 0 none] :=
  ⟨_, rfl, rfl, by decide, rfl, rfl, rfl⟩

/-- C25, amended.  After a successful set of the input control on a device that
enumerates the standards `L` (fewer than 32): if `L` is not empty the standard
control is enabled and its option list is exactly the names of `L` in order,
with the ids of `L` attached; if `L` is empty the option list and the attached
ids are left as they were and the control is disabled. -/
theorem C25_standards_follow_enumeration (dev : CtlDevice) (s : CtlSt) (ctl : CamUnitControl)
    (proposed actual : GValue) (L : List V4l2Standard)
    (hid : ctl.id = "input")
    (hin : dev.s_input s.trace (g_value_get_int proposed) = true)
    (henum : ∀ h i, dev.enumstd h i = L[i]?) (hlen : L.length < MAX_INPUTS) :
    ∃ s1, v4l2_try_set_control dev s ctl proposed actual =
        Except.ok (true, GValue.int (g_value_get_int proposed), s1) ∧
      (L ≠ [] → s1.standard_ctl.entries = L.map (fun x => x.name) ∧
        s1.standard_ctl.enabled = true ∧
        s1.standard_ctl.stds = some (L.map (fun x => x.id))) ∧
      (L = [] → s1.standard_ctl.entries = s.standard_ctl.entries ∧
        s1.standard_ctl.enabled = false ∧
        s1.standard_ctl.stds = s.standard_ctl.stds) := by
  obtain ⟨s1, h1, h2, h3⟩ := update_video_standards_list dev
    { s with trace := s.trace ++ [CtlEvent.s_input (g_value_get_int proposed) true] } L henum hlen
  refine ⟨s1, ?_, h2, h3⟩
  unfold v4l2_try_set_control
  rw [if_pos hid]
  dsimp only
  rw [if_pos hin, h1]

/-- C25, amended, at a device that enumerates three standards for the new
input while the control listed two for the previous one. -/
theorem C25_standards_follow_enumeration_witness :
    ∃ s1, v4l2_try_set_control (std_device three_standards) ctl_st_pal input_ctl
        (GValue.int 1) (GValue.int 0) =
        Except.ok (true, GValue.int (g_value_get_int (GValue.int 1)), s1) ∧
      (three_standards ≠ [] →
        s1.standard_ctl.entries = three_standards.map (fun x => x.name) ∧
        s1.standard_ctl.enabled = true ∧
        s1.standard_ctl.stds = some (three_standards.map (fun x => x.id))) ∧
      (three_standards = [] → s1.standard_ctl.entries = ctl_st_pal.standard_ctl.entries ∧
        s1.standard_ctl.enabled = false ∧
        s1.standard_ctl.stds = ctl_st_pal.standard_ctl.stds) :=
  C25_standards_follow_enumeration (std_device three_standards) ctl_st_pal input_ctl
    (GValue.int 1) (GValue.int 0) three_standards rfl rfl (fun _ _ => rfl) (by decide)

/-! ## The arrays of `update_video_standards` -/

/-- C29, failing input.  On a device that enumerates 32 standards the function
stores the terminating NULL at index 32 of the 32-entry description array, and
on a device that enumerates 35 it stores the 33rd standard at index 32 of both
arrays: either run ends in an out-of-bounds access; with 31 standards it ends
without one. -/
theorem C29_thirty_two_standards_overrun :
    fault_of (update_video_standards (std_device thirty_two_standards) ctl_st0 true) =
      some Fault.out_of_bounds ∧
    fault_of (update_video_standards
        (std_device (thirty_two_standards ++ three_standards)) ctl_st0 true) =
      some Fault.out_of_bounds ∧
    fault_of (update_video_standards (std_device (thirty_two_standards.drop 1)) ctl_st0 true) =
      none :=
  ⟨rfl, rfl, rfl⟩


/-! ## The option list of a menu control -/

/-- C23.  For a menu control with option range `lo..hi`: when the option
queries for `lo`, `lo + 1`, ... answer the names `names` and the next query, if
the range is not exhausted, fails, `add_control` still creates the control, an
Enum descriptor whose option list is exactly `names` in order: `k - lo` entries
when the first failure is at index `k`, and `hi - lo + 1` entries when no query
fails. -/
theorem C23_menu_truncated_at_first_failure (dev : CtlDevice) (tr : List CtlEvent)
    (handle : Nat) (q : V4l2Queryctrl) (lo hi : Nat) (names : List String)
    (htype : q.type = V4l2CtrlType.menu)
    (hmin : q.minimum = (lo : Int)) (hmax : q.maximum = (hi : Int))
    (hle : lo ≤ hi) (hhi : hi < 2147483648)
    (hlen : names.length ≤ hi - lo + 1)
    (hok : ∀ (j : Nat) (hj : j < names.length),
      dev.querymenu (tr ++ menu_ok_events q.id lo (names.take j)) q.id (lo + j) = some names[j])
    (hstop : names.length < hi - lo + 1 →
      dev.querymenu (tr ++ menu_ok_events q.id lo names) q.id (lo + names.length) = none) :
    ∃ c tr1, add_control dev tr handle q = Except.ok (some c, tr1) ∧
      c.type = CamUnitControlType.enum ∧ c.queryctrl_id = q.id ∧
      c.entries = names ∧
      (names.length < hi - lo + 1 →
        tr1 = tr ++ menu_ok_events q.id lo names ++
          [CtlEvent.querymenu q.id (lo + names.length) none]) ∧
      (names.length = hi - lo + 1 → tr1 = tr ++ menu_ok_events q.id lo names) := by
  have hcap : (q.maximum - q.minimum + 1).toNat = hi - lo + 1 := by
    rw [hmin, hmax]; omega
  have hbound : u32_of_int q.maximum = hi := by
    rw [hmax]; exact u32_of_int_of_nat hi (by omega)
  have hindex : u32_of_int q.minimum = lo := by
    rw [hmin]; exact u32_of_int_of_nat lo (by omega)
  have hrun := menu_loop_spec dev q.id hi (by omega) (hi - lo + 1) lo [] tr names
    (by omega) hlen hok hstop
  unfold add_control
  dsimp only
  rw [htype]
  dsimp only
  rw [hcap, hbound, hindex, hrun]
  refine ⟨_, _, rfl, rfl, rfl, ?_, ?_, ?_⟩
  · simp [cam_unit_add_control_enum]
  · intro h
    rw [if_pos h]
  · intro h
    rw [if_neg (by omega)]
    simp

/-- C23 at a menu with option range 0..3 on a device that names the options 0
and 1 only: the control is created with these two names. -/
theorem C23_menu_truncated_at_first_failure_witness :
    ∃ c tr1, add_control (menu_device 0 ["50 Hz", "60 Hz"]) [] 4 power_line_q =
        Except.ok (some c, tr1) ∧
      c.type = CamUnitControlType.enum ∧ c.queryctrl_id = power_line_q.id ∧
      c.entries = ["50 Hz", "60 Hz"] ∧
      (["50 Hz", "60 Hz"].length < 3 - 0 + 1 →
        tr1 = [] ++ menu_ok_events power_line_q.id 0 ["50 Hz", "60 Hz"] ++
          [CtlEvent.querymenu power_line_q.id (0 + ["50 Hz", "60 Hz"].length) none]) ∧
      (["50 Hz", "60 Hz"].length = 3 - 0 + 1 →
        tr1 = [] ++ menu_ok_events power_line_q.id 0 ["50 Hz", "60 Hz"]) :=
  C23_menu_truncated_at_first_failure (menu_device 0 ["50 Hz", "60 Hz"]) [] 4 power_line_q
    0 3 ["50 Hz", "60 Hz"] rfl rfl rfl (by decide) (by decide) (by decide)
    (by
      intro j hj
      have hj2 : j < 2 := hj
      interval_cases j <;> rfl)
    (fun _ => rfl)


/-! ## Control discovery -/

/-- C22, counterexample.  The device reports a 64-bit integer control in the
base range and a boolean control at the second private id, neither flagged
disabled; discovery builds a descriptor for the brightness control only: none
for the 64-bit control, and the private control is never asked for, the loop
over the private range having left at the first refused id. -/
theorem C22_reported_controls_without_descriptor :
    ∃ r1, add_user_controls discovery_device n_base_24 reg0 = Except.ok r1 ∧
      r1.controls.map (fun c => c.queryctrl_id) = [V4L2_CID_BASE] ∧
      discovery_device.queryctrl r1.trace (V4L2_CID_BASE + 2) = QueryctrlRes.ok int64_q ∧
      ctrl_disabled int64_q = false ∧
      discovery_device.queryctrl r1.trace (V4L2_CID_PRIVATE_BASE + 1) =
        QueryctrlRes.ok private_q ∧
      ctrl_disabled private_q = false ∧
      r1.trace.filterMap CtlEvent.queried =
        List.range' V4L2_CID_BASE 24 ++ [V4L2_CID_PRIVATE_BASE] :=
  ⟨_, rfl, rfl, rfl, rfl, rfl, rfl, rfl⟩

/-- C22, amended.  On a device whose reported menus have non-negative `int`
bounds, `add_user_controls` returns after asking for every id of the base
range and then for the private ids in ascending order, up to 100 of them or up
to the first one refused with `EINVAL`; it has built exactly one descriptor, in
the order of the queries, for each queried control that is reported, not
flagged disabled and of kind integer, boolean, menu or button, and none for
any other. -/
theorem C22_discovery_builds_supported_kinds (dev : CtlDevice) (n_base : Nat) (r : CtlReg)
    (hsane : ∀ h id q, dev.queryctrl h id = QueryctrlRes.ok q →
      q.type = V4l2CtrlType.menu → menu_range_ok q = true) :
    ∃ cs evsB evsP, add_user_controls dev n_base r =
        Except.ok { controls := r.controls ++ cs, trace := r.trace ++ evsB ++ evsP } ∧
      cs.map (fun c => c.queryctrl_id) = (evsB ++ evsP).filterMap CtlEvent.built ∧
      evsB.filterMap CtlEvent.queried = List.range' V4L2_CID_BASE n_base ∧
      ((evsP.filterMap CtlEvent.queried = List.range' V4L2_CID_PRIVATE_BASE 100 ∧
          evsP.filterMap CtlEvent.refused = []) ∨
       (∃ k evs0, k < 100 ∧
          evsP = evs0 ++ [CtlEvent.queryctrl (V4L2_CID_PRIVATE_BASE + k) QueryctrlRes.einval] ∧
          evs0.filterMap CtlEvent.queried = List.range' V4L2_CID_PRIVATE_BASE k ∧
          evs0.filterMap CtlEvent.refused = [])) := by
  unfold add_user_controls
  generalize V4L2_CID_BASE = id1
  generalize (100 : Nat) = n2
  generalize V4L2_CID_PRIVATE_BASE = id2
  obtain ⟨cs1, evsB, h1, hc1, hq1⟩ := base_loop_spec dev hsane n_base id1 r
  obtain ⟨cs2, evsP, h2, hc2, hq2⟩ :=
    private_loop_spec dev hsane n2 id2 { controls := r.controls ++ cs1, trace := r.trace ++ evsB }
  refine ⟨cs1 ++ cs2, evsB, evsP, ?_, ?_, hq1, hq2⟩
  · rw [h1]
    dsimp only
    rw [h2]
    simp only [List.append_assoc]
  · rw [List.map_append, hc1, hc2, List.filterMap_append]

/-- C22, amended, at a device with a brightness control, a disabled contrast
control and one private control at the first private id. -/
theorem C22_discovery_builds_supported_kinds_witness :
    ∃ cs evsB evsP, add_user_controls discovery_device2 n_base_24 reg0 =
        Except.ok { controls := reg0.controls ++ cs, trace := reg0.trace ++ evsB ++ evsP } ∧
      cs.map (fun c => c.queryctrl_id) = (evsB ++ evsP).filterMap CtlEvent.built ∧
      evsB.filterMap CtlEvent.queried =
        List.range' V4L2_CID_BASE (n_base_24) ∧
      ((evsP.filterMap CtlEvent.queried = List.range' V4L2_CID_PRIVATE_BASE 100 ∧
          evsP.filterMap CtlEvent.refused = []) ∨
       (∃ k evs0, k < 100 ∧
          evsP = evs0 ++ [CtlEvent.queryctrl (V4L2_CID_PRIVATE_BASE + k) QueryctrlRes.einval] ∧
          evs0.filterMap CtlEvent.queried = List.range' V4L2_CID_PRIVATE_BASE k ∧
          evs0.filterMap CtlEvent.refused = [])) :=
  C22_discovery_builds_supported_kinds discovery_device2 n_base_24 reg0 (by
    intro h id q hq hm
    simp only [discovery_device2] at hq
    split at hq
    · cases hq; exact absurd hm (by decide)
    · split at hq
      · cases hq; exact absurd hm (by decide)
      · split at hq
        · cases hq; exact absurd hm (by decide)
        · exact absurd hq (by simp))


/-! ## The dc1394 unit: auxiliary facts -/

theorem cycle_timer_loop_trace (dev : DcDevice) :
    ∀ (n : Nat) (ct : Raw1394CycleTimer) (tr : List DcEvent),
      ∃ evs, (cycle_timer_loop dev n ct tr).2 = tr ++ evs ∧
        (∀ e ∈ evs, ∃ r, e = DcEvent.get_cycle_timer r) := by
  intro n
  induction n with
  | zero =>
    intro ct tr
    exact ⟨[], by simp [cycle_timer_loop], by simp⟩
  | succ n ih =>
    intro ct tr
    simp only [cycle_timer_loop]
    split
    · split
      · obtain ⟨evs, h, hall⟩ := ih ct (tr ++ [DcEvent.get_cycle_timer none])
        refine ⟨DcEvent.get_cycle_timer none :: evs, ?_, ?_⟩
        · rw [h, List.append_assoc, List.singleton_append]
        · intro e he
          rcases List.mem_cons.mp he with h1 | h1
          · exact ⟨none, h1⟩
          · exact hall e h1
      · rename_i r _
        obtain ⟨evs, h, hall⟩ := ih
          { cycle_timer := u32 r.cycle_timer, local_time := u64 r.local_time }
          (tr ++ [DcEvent.get_cycle_timer (some r)])
        refine ⟨DcEvent.get_cycle_timer (some r) :: evs, ?_, ?_⟩
        · rw [h, List.append_assoc, List.singleton_append]
        · intro e he
          rcases List.mem_cons.mp he with h1 | h1
          · exact ⟨some r, h1⟩
          · exact hall e h1
    · exact ⟨[], by simp, by simp⟩

theorem filterMap_frame_of_reads (evs : List DcEvent)
    (h : ∀ e ∈ evs, ∃ r, e = DcEvent.get_cycle_timer r) :
    evs.filterMap DcEvent.frame = [] ∧ evs.filterMap DcEvent.enqueued = [] := by
  induction evs with
  | nil => exact ⟨rfl, rfl⟩
  | cons e t ih =>
    obtain ⟨r, hr⟩ := h e (List.mem_cons_self _ _)
    obtain ⟨h1, h2⟩ := ih (fun x hx => h x (List.mem_cons_of_mem _ hx))
    subst hr
    exact ⟨by simpa [List.filterMap_cons, DcEvent.frame] using h1,
      by simpa [List.filterMap_cons, DcEvent.enqueued] using h2⟩

theorem cycle_timer_loop_local_time (dev : DcDevice) :
    ∀ (n : Nat) (ct : Raw1394CycleTimer) (tr : List DcEvent),
      ct.local_time < 18446744073709551616 →
      (cycle_timer_loop dev n ct tr).1.local_time < 18446744073709551616 := by
  intro n
  induction n with
  | zero =>
    intro ct tr h
    simpa [cycle_timer_loop] using h
  | succ n ih =>
    intro ct tr h
    simp only [cycle_timer_loop]
    split
    · split
      · exact ih _ _ h
      · exact ih _ _ (Nat.mod_lt _ (by decide))
    · exact h

/-- The microsecond value of a cycle timer whose fields are valid is below
128 seconds. -/
theorem cycle_timer_to_usec_lt (c : Nat) (hc : cycle_count c < 8000)
    (ho : cycle_offset c < 3072) : CYCLE_TIMER_TO_USEC c 0x7f < 128000000 := by
  unfold CYCLE_TIMER_TO_USEC
  unfold cycle_count at hc
  unfold cycle_offset at ho
  have hs : Nat.land (u32 c >>> 25) 0x7f ≤ 0x7f := Nat.and_le_right
  generalize Nat.land (u32 c >>> 25) 0x7f = sec at hs ⊢
  generalize Nat.land (u32 c) 0x01fff000 >>> 12 = cnt at hc ⊢
  generalize Nat.land (u32 c) 0x00000fff = off at ho ⊢
  unfold u32
  rw [Nat.mod_eq_of_lt (show sec * 1000000 < 4294967296 by omega),
    Nat.mod_eq_of_lt (show cnt * 125 < 4294967296 by omega),
    Nat.mod_eq_of_lt (show off * 125 < 4294967296 by omega),
    Nat.mod_eq_of_lt (show sec * 1000000 + cnt * 125 < 4294967296 by omega)]
  have he : off * 125 / 3072 ≤ 124 := by omega
  generalize off * 125 / 3072 = e at he ⊢
  rw [Nat.mod_eq_of_lt (show sec * 1000000 + cnt * 125 + e < 4294967296 by omega)]
  omega

theorem usec_diff_spec (now bus : Nat)
    (hnc : cycle_count now < 8000) (hno : cycle_offset now < 3072)
    (hbc : cycle_count bus < 8000) (hbo : cycle_offset bus < 3072) :
    0 ≤ usec_diff now bus ∧ usec_diff now bus < 128000000 ∧
    usec_diff now bus =
      ((CYCLE_TIMER_TO_USEC now 0x7f : Int) - (CYCLE_TIMER_TO_USEC bus 0x7f : Int)) % 128000000 := by
  have hA := cycle_timer_to_usec_lt now hnc hno
  have hB := cycle_timer_to_usec_lt bus hbc hbo
  unfold usec_diff
  dsimp only
  generalize CYCLE_TIMER_TO_USEC now 0x7f = A at hA ⊢
  generalize CYCLE_TIMER_TO_USEC bus 0x7f = B at hB ⊢
  unfold int_of_u32 u32 CYCLE_TIMER_MAX_USEC
  by_cases hAB : B ≤ A
  · have e : (A + 4294967296 - B) % 4294967296 = A - B := by omega
    rw [e, if_pos (show A - B < 2147483648 by omega),
      if_neg (show ¬ ((A - B : Nat) : Int) < 0 by omega)]
    omega
  · have e : (A + 4294967296 - B) % 4294967296 = A + 4294967296 - B := by omega
    rw [e, if_neg (show ¬ A + 4294967296 - B < 2147483648 by omega),
      if_pos (show ((A + 4294967296 - B : Nat) : Int) - 4294967296 < 0 by omega)]
    omega

/-- The macro `CYCLE_TIMER_TO_USEC` with the mask 0x7f, field by field: the
seconds (bits 25 to 31), the cycle count (bits 12 to 24) and the cycle offset
(bits 0 to 11). -/
theorem cycle_timer_fields (c : Nat) :
    Nat.land (u32 c >>> 25) 0x7f = c / 33554432 % 128 ∧
    Nat.land (u32 c) 0x01fff000 >>> 12 = c / 4096 % 8192 ∧
    Nat.land (u32 c) 0x00000fff = c % 4096 := by
  refine ⟨?_, ?_, ?_⟩
  · show (u32 c >>> 25) &&& (2 ^ 7 - 1) = c / 33554432 % 128
    rw [Nat.and_pow_two_sub_one_eq_mod, Nat.shiftRight_eq_div_pow]
    unfold u32
    omega
  · show (u32 c &&& 0x01fff000) >>> 12 = c / 4096 % 8192
    have hd : (u32 c &&& 0x01fff000) >>> 12 = (u32 c >>> 12) &&& (2 ^ 13 - 1) := by
      apply Nat.eq_of_testBit_eq
      intro j
      rw [show (0x01fff000 : Nat) = (2 ^ 13 - 1) <<< 12 from by decide]
      simp only [Nat.testBit_shiftRight, Nat.testBit_and, Nat.testBit_shiftLeft,
        Nat.testBit_two_pow_sub_one]
      have e1 : 12 + j - 12 = j := by omega
      have e2 : (12 + j ≥ 12) := by omega
      simp [e1, e2]
    rw [hd, Nat.and_pow_two_sub_one_eq_mod, Nat.shiftRight_eq_div_pow]
    unfold u32
    omega
  · show u32 c &&& (2 ^ 12 - 1) = c % 4096
    rw [Nat.and_pow_two_sub_one_eq_mod]
    unfold u32
    omega

theorem cycle_timer_to_usec_fields (c : Nat) :
    CYCLE_TIMER_TO_USEC c 0x7f =
      c / 33554432 % 128 * 1000000 + c / 4096 % 8192 * 125 + c % 4096 * 125 / 3072 := by
  obtain ⟨h1, h2, h3⟩ := cycle_timer_fields c
  unfold CYCLE_TIMER_TO_USEC
  rw [h1, h2, h3]
  have hs : c / 33554432 % 128 < 128 := Nat.mod_lt _ (by decide)
  have hc : c / 4096 % 8192 < 8192 := Nat.mod_lt _ (by decide)
  have ho : c % 4096 < 4096 := Nat.mod_lt _ (by decide)
  generalize c / 33554432 % 128 = sec at hs ⊢
  generalize c / 4096 % 8192 = cnt at hc ⊢
  generalize c % 4096 = off at ho ⊢
  unfold u32
  rw [Nat.mod_eq_of_lt (show sec * 1000000 < 4294967296 by omega),
    Nat.mod_eq_of_lt (show cnt * 125 < 4294967296 by omega),
    Nat.mod_eq_of_lt (show off * 125 < 4294967296 by omega),
    Nat.mod_eq_of_lt (show sec * 1000000 + cnt * 125 < 4294967296 by omega)]
  have he : off * 125 / 3072 ≤ 166 := by omega
  generalize off * 125 / 3072 = e at he ⊢
  exact Nat.mod_eq_of_lt (by omega)

theorem u64_of_int_of_range (v : Int) (h0 : 0 ≤ v) (h1 : v < 18446744073709551616) :
    ((u64_of_int v : Nat) : Int) = v := by
  unfold u64_of_int
  rw [Int.emod_eq_of_lt h0 h1]
  omega


theorem u32_of_int_int_of_u32 (x : Nat) (h : x < 4294967296) :
    u32_of_int (int_of_u32 x) = x := by
  unfold u32_of_int int_of_u32
  split <;> omega

theorem desired_packet_cases (v : Int) (u m : Nat)
    (hv1 : 1 ≤ v) (hv2 : v ≤ 4192) (hu : 0 < u) (hum : u ≤ m) (hm : m < 4294967296) :
    u32_of_int (desired_packet v u m) =
      if v.toNat / u * u > m then m
      else if v.toNat / u * u < u then u else v.toNat / u * u := by
  have hq1 : v.toNat / u * u ≤ v.toNat := Nat.div_mul_le_self _ _
  have hn : u32_of_int v = v.toNat := by
    unfold u32_of_int
    rw [Int.emod_eq_of_lt (by omega) (by omega)]
  have hu32 : u32 u = u := Nat.mod_eq_of_lt (by omega)
  have hm32 : u32 m = m := Nat.mod_eq_of_lt hm
  unfold desired_packet
  dsimp only
  rw [hn, hu32, hm32]
  generalize v.toNat / u * u = q at hq1 ⊢
  have hq32 : u32 q = q := Nat.mod_eq_of_lt (by omega)
  have hqi : int_of_u32 q = (q : Int) := by
    unfold int_of_u32
    rw [if_pos (by omega)]
  rw [hq32, hqi, u32_of_int_of_nat q (by omega)]
  by_cases h1 : q > m
  · rw [if_pos h1, if_pos h1, u32_of_int_int_of_u32 m hm, if_neg (by omega),
      u32_of_int_int_of_u32 m hm]
  · rw [if_neg h1, if_neg h1, u32_of_int_of_nat q (by omega)]
    by_cases h2 : q < u
    · rw [if_pos h2, if_pos h2, u32_of_int_int_of_u32 u (by omega)]
    · rw [if_neg h2, if_neg h2, u32_of_int_of_nat q (by omega)]

theorem desired_packet_spec (v : Int) (u m : Nat)
    (hv1 : 1 ≤ v) (hv2 : v ≤ 4192) (hu : 0 < u) (hum : u ≤ m) (hm : m < 4294967296) :
    u ≤ u32_of_int (desired_packet v u m) ∧ u32_of_int (desired_packet v u m) ≤ m ∧
    (u32_of_int (desired_packet v u m) % u = 0 ∨ u32_of_int (desired_packet v u m) = m) := by
  rw [desired_packet_cases v u m hv1 hv2 hu hum hm]
  have hq2 : v.toNat / u * u % u = 0 := Nat.mul_mod_left _ _
  generalize v.toNat / u * u = q at hq2 ⊢
  by_cases h1 : q > m
  · rw [if_pos h1]
    exact ⟨hum, Nat.le_refl _, Or.inr rfl⟩
  · rw [if_neg h1]
    by_cases h2 : q < u
    · rw [if_pos h2]
      exact ⟨Nat.le_refl _, hum, Or.inl (Nat.mod_self u)⟩
    · rw [if_neg h2]
      exact ⟨by omega, by omega, Or.inl hq2⟩

theorem stream_init_capture_spec (dev : DcDevice) (s4 : DcSt) (i : Int) :
    (stream_init_capture dev s4 i).2.self.packet_size = s4.self.packet_size ∧
    (stream_init_capture dev s4 i).2.controls = s4.controls ∧
    (stream_init_capture dev s4 i).2.trace.filterMap DcEvent.sent_packet_size =
      s4.trace.filterMap DcEvent.sent_packet_size := by
  unfold stream_init_capture
  dsimp only [DcSt.log]
  split_ifs <;> simp [List.filterMap_append, DcEvent.sent_packet_size]


/-! ## The timestamp of a dc1394 frame -/

/-- C26.  On a streaming dc1394 unit whose dequeue succeeds, if embedded
timestamps are not enabled or the cycle timer is still 0xffffffff after the
loop of 100 attempts, the call returns after the dequeue, some cycle timer
reads, one emitted frame and the re-enqueue of the dequeued frame, in this
order; the frame carries the image and the timestamp the device reported for
it, and it is the only frame emitted. -/
theorem C26_fallback_to_device_timestamp (dev : DcDevice) (s : DcSt)
    (frame : Dc1394VideoFrame)
    (hst : s.self.status = CamUnitStatus.streaming)
    (hdq : dev.capture_dequeue s.trace = some frame)
    (hinv : s.self.embedded_timestamp = 0 ∨
      (cycle_timer_loop dev 100 { cycle_timer := 0xffffffff, local_time := 0 }
        (s.trace ++ [DcEvent.capture_dequeue (some frame)])).1.cycle_timer = 0xffffffff) :
    ∃ s1 evs buf, dc1394_try_produce_frame dev s = Except.ok s1 ∧
      s1.trace = s.trace ++ [DcEvent.capture_dequeue (some frame)] ++ evs ++
        [DcEvent.produce_frame buf, DcEvent.capture_enqueue frame] ∧
      (∀ e ∈ evs, ∃ r, e = DcEvent.get_cycle_timer r) ∧
      buf.data = frame.image ∧
      buf.timestamp = u64 frame.timestamp ∧
      (frame.timestamp < 18446744073709551616 → buf.timestamp = frame.timestamp) ∧
      s1.trace.filterMap DcEvent.frame = s.trace.filterMap DcEvent.frame ++ [buf] ∧
      s1.trace.filterMap DcEvent.enqueued = s.trace.filterMap DcEvent.enqueued ++ [frame] := by
  obtain ⟨evs, hevs, hall⟩ := cycle_timer_loop_trace dev 100
    { cycle_timer := 0xffffffff, local_time := 0 }
    (s.trace ++ [DcEvent.capture_dequeue (some frame)])
  obtain ⟨hf, he⟩ := filterMap_frame_of_reads evs hall
  have hguard : ¬ (s.self.embedded_timestamp ≠ 0 ∧
      (cycle_timer_loop dev 100 { cycle_timer := 0xffffffff, local_time := 0 }
        (s.trace ++ [DcEvent.capture_dequeue (some frame)])).1.cycle_timer ≠ 0xffffffff) := by
    rcases hinv with h | h
    · exact fun hc => hc.1 h
    · exact fun hc => hc.2 h
  refine ⟨{ s with trace := s.trace ++ [DcEvent.capture_dequeue (some frame)] ++ evs ++
      [DcEvent.produce_frame
        { data := frame.image, length := frame.image_bytes, bytesused := frame.image_bytes,
          timestamp := u64 frame.timestamp, source_guid := s.self.euid_64 },
       DcEvent.capture_enqueue frame] }, evs,
    { data := frame.image, length := frame.image_bytes, bytesused := frame.image_bytes,
      timestamp := u64 frame.timestamp, source_guid := s.self.euid_64 }, ?_, rfl, hall, rfl, rfl,
    ?_, ?_, ?_⟩
  · unfold dc1394_try_produce_frame
    rw [if_neg (by simp [hst]), hdq]
    dsimp only [DcSt.log]
    rw [if_neg hguard, hevs]
    simp
  · intro hlt
    exact Nat.mod_eq_of_lt hlt
  · simp [List.filterMap_append, hf, DcEvent.frame]
  · simp [List.filterMap_append, he, DcEvent.enqueued]

/-- C26 on a bus whose cycle timer cannot be read, with embedded timestamps
enabled. -/
theorem C26_fallback_to_device_timestamp_witness :
    ∃ s1 evs buf, dc1394_try_produce_frame dc_device_no_timer dc_st_streaming = Except.ok s1 ∧
      s1.trace = dc_st_streaming.trace ++ [DcEvent.capture_dequeue (some frame0)] ++ evs ++
        [DcEvent.produce_frame buf, DcEvent.capture_enqueue frame0] ∧
      (∀ e ∈ evs, ∃ r, e = DcEvent.get_cycle_timer r) ∧
      buf.data = frame0.image ∧
      buf.timestamp = u64 frame0.timestamp ∧
      (frame0.timestamp < 18446744073709551616 → buf.timestamp = frame0.timestamp) ∧
      s1.trace.filterMap DcEvent.frame =
        dc_st_streaming.trace.filterMap DcEvent.frame ++ [buf] ∧
      s1.trace.filterMap DcEvent.enqueued =
        dc_st_streaming.trace.filterMap DcEvent.enqueued ++ [frame0] :=
  C26_fallback_to_device_timestamp dc_device_no_timer dc_st_streaming frame0 rfl rfl
    (Or.inr (by decide))

/-- C27, counterexample.  The cycle timer reads 0xfffff000 (127 s, cycle count
8191, offset 0, a microsecond value of 128023875) and the image starts with
four zero bytes (a microsecond value of 0): the frame is stamped with
`local_time - 128023875`, so `d` is 128023875, which is neither below
128000000 nor the difference modulo 128000000 (that is 23875). -/
theorem C27_difference_not_reduced :
    ∃ s1 buf, dc1394_try_produce_frame dc_device_count_8191 dc_st_streaming = Except.ok s1 ∧
      s1.trace.filterMap DcEvent.frame = [buf] ∧
      buf.timestamp = 1699999871976125 ∧
      (1700000000000000 : Int) - 1699999871976125 = 128023875 ∧
      usec_diff 4294963200 0 = 128023875 ∧
      4294963200 / 33554432 % 128 * 1000000 + 4294963200 / 4096 % 8192 * 125 +
        4294963200 % 4096 * 125 / 3072 = 128023875 ∧
      ((128023875 : Int) - 0) % 128000000 = 23875 ∧
      ¬ ((128023875 : Int) < 128000000) :=
  ⟨_, _, rfl, rfl, by decide, by decide, by decide, by decide, by decide, by decide⟩

/-- C27, amended.  On a streaming dc1394 unit with embedded timestamps enabled,
a successful dequeue of an image that starts with the bytes `b0 b1 b2 b3` and a
cycle timer read `ct` other than 0xffffffff: when the cycle timer and `bus`,
the big-endian number `b0 b1 b2 b3` with its low 4 bits cleared, both have a
cycle count (bits 12 to 24) below 8000 and an offset (bits 0 to 11) below 3072,
the one frame emitted carries the 64-bit value of `ct.local_time - d`, where `d`
is the difference of the two microsecond values (seconds times 1000000 plus
cycle count times 125 plus offset times 125 / 3072) modulo 128000000, so
`0 ≤ d < 128000000`; it is `ct.local_time - d` itself when `d ≤ ct.local_time`. -/
theorem C27_embedded_timestamp (dev : DcDevice) (s : DcSt) (frame : Dc1394VideoFrame)
    (b0 b1 b2 b3 : Nat) (rest : List Nat) (ct : Raw1394CycleTimer) (bus : Nat)
    (hst : s.self.status = CamUnitStatus.streaming)
    (hdq : dev.capture_dequeue s.trace = some frame)
    (himg : frame.image = b0 :: b1 :: b2 :: b3 :: rest)
    (hemb : s.self.embedded_timestamp ≠ 0)
    (hct : (cycle_timer_loop dev 100 { cycle_timer := 0xffffffff, local_time := 0 }
        (s.trace ++ [DcEvent.capture_dequeue (some frame)])).1 = ct)
    (hvalid : ct.cycle_timer ≠ 0xffffffff)
    (hbus : bus = Nat.land
      (u32 (Nat.lor (Nat.lor (Nat.lor ((b0 % 256) <<< 24) ((b1 % 256) <<< 16))
        ((b2 % 256) <<< 8)) (b3 % 256))) 0xfffffff0)
    (hnc : ct.cycle_timer / 4096 % 8192 < 8000) (hno : ct.cycle_timer % 4096 < 3072)
    (hbc : bus / 4096 % 8192 < 8000) (hbo : bus % 4096 < 3072) :
    ∃ s1 buf, ∃ d : Int, dc1394_try_produce_frame dev s = Except.ok s1 ∧
      s1.trace.filterMap DcEvent.frame = s.trace.filterMap DcEvent.frame ++ [buf] ∧
      d = (((ct.cycle_timer / 33554432 % 128 * 1000000 + ct.cycle_timer / 4096 % 8192 * 125 +
              ct.cycle_timer % 4096 * 125 / 3072 : Nat) : Int) -
           ((bus / 33554432 % 128 * 1000000 + bus / 4096 % 8192 * 125 +
              bus % 4096 * 125 / 3072 : Nat) : Int)) % 128000000 ∧
      0 ≤ d ∧ d < 128000000 ∧
      buf.timestamp = u64_of_int ((ct.local_time : Int) - d) ∧
      (d ≤ (ct.local_time : Int) → (buf.timestamp : Int) = (ct.local_time : Int) - d) := by
  obtain ⟨evs, hevs, hall⟩ := cycle_timer_loop_trace dev 100
    { cycle_timer := 0xffffffff, local_time := 0 }
    (s.trace ++ [DcEvent.capture_dequeue (some frame)])
  obtain ⟨hf, _⟩ := filterMap_frame_of_reads evs hall
  have hlt : ct.local_time < 18446744073709551616 := by
    rw [← hct]
    exact cycle_timer_loop_local_time dev 100 _ _ (by decide)
  have hbt : bus_timestamp frame.image = some bus := by
    rw [himg, hbus]; rfl
  obtain ⟨f1, f2, f3⟩ := cycle_timer_fields ct.cycle_timer
  obtain ⟨g1, g2, g3⟩ := cycle_timer_fields bus
  obtain ⟨hd0, hd1, hd2⟩ := usec_diff_spec ct.cycle_timer bus
    (by unfold cycle_count; rw [f2]; exact hnc) (by unfold cycle_offset; rw [f3]; exact hno)
    (by unfold cycle_count; rw [g2]; exact hbc) (by unfold cycle_offset; rw [g3]; exact hbo)
  rw [cycle_timer_to_usec_fields, cycle_timer_to_usec_fields] at hd2
  refine ⟨{ s with trace := s.trace ++ [DcEvent.capture_dequeue (some frame)] ++ evs ++
      [DcEvent.produce_frame
        { data := frame.image, length := frame.image_bytes, bytesused := frame.image_bytes,
          timestamp := u64_of_int ((ct.local_time : Int) - usec_diff ct.cycle_timer bus),
          source_guid := s.self.euid_64 },
       DcEvent.capture_enqueue frame] },
    { data := frame.image, length := frame.image_bytes,
      bytesused := frame.image_bytes,
      timestamp := u64_of_int ((ct.local_time : Int) - usec_diff ct.cycle_timer bus),
      source_guid := s.self.euid_64 }, usec_diff ct.cycle_timer bus, ?_, ?_, hd2, hd0, hd1,
    rfl, ?_⟩
  · unfold dc1394_try_produce_frame
    rw [if_neg (by simp [hst]), hdq]
    dsimp only [DcSt.log]
    rw [hct, if_pos ⟨hemb, hvalid⟩, hbt]
    dsimp only
    rw [hevs]
    simp
  · simp [List.filterMap_append, hf, DcEvent.frame]
  · intro hle
    exact u64_of_int_of_range _ (by omega) (by omega)

/-- C27, amended, on a camera that stamps the frame with 9 s, cycle 7000,
offset 80 while the bus reads 10 s, cycle 4000, offset 100 at the local time
1700000000625001: `d` is 625001 and the frame is stamped 1700000000000000. -/
theorem C27_embedded_timestamp_witness :
    ∃ s1 buf, dc1394_try_produce_frame (dc_device 8 4096) dc_st_streaming = Except.ok s1 ∧
      s1.trace.filterMap DcEvent.frame = [buf] ∧
      buf.timestamp = 1700000000000000 := by
  obtain ⟨s1, buf, d, h, hf, hd, _, _, ht, _⟩ :=
    C27_embedded_timestamp (dc_device 8 4096) dc_st_streaming frame0 19 181 128 83 [0, 0, 0, 0]
      { cycle_timer := 351928420, local_time := 1700000000625001 } 330661968
      rfl rfl rfl (by decide) (by decide) (by decide) (by decide)
      (by decide) (by decide) (by decide) (by decide)
  have hd2 : d = 625001 := by rw [hd]; decide
  refine ⟨s1, buf, h, hf, ?_⟩
  rw [ht, hd2]
  decide

/-! ## The packet size of the dc1394 stream -/

/-- C30, counterexample.  With the packet-size control at 4192 on a camera
that reports the packet unit 8 and the maximum 100, `dc1394_stream_init` stores
and sends the packet size 100, which is no multiple of 8. -/
theorem C30_packet_size_not_multiple_of_unit :
    ∃ s1, dc1394_stream_init (dc_device 8 100) (dc_st_packet 4192) dc_format0 =
        Except.ok (0, s1) ∧
      s1.self.packet_size = 100 ∧
      s1.trace.filterMap DcEvent.sent_packet_size = [100] ∧
      (cam_unit_find_control s1.controls "packet-size").map (fun c => c.value) = some 100 ∧
      100 % 8 ≠ 0 :=
  ⟨_, rfl, rfl, rfl, rfl, by decide⟩

/-- C30, amended.  For a format that matches its Format 7 mode, a packet-size
control value in [1, 4192] and reported packet unit `u` and maximum `m` with
`0 < u ≤ m`, `dc1394_stream_init` returns having stored and sent, once, a packet
size `p` with `u ≤ p ≤ m`, so `p` is positive; `p` is a multiple of `u` or it is
`m` itself, hence a multiple of `u` whenever `u` divides `m`. -/
theorem C30_packet_size_within_unit_and_max (dev : DcDevice) (s : DcSt)
    (format : Dc1394UnitFormat) (mode : Dc1394Format7Mode) (color_coding : Dc1394ColorCoding)
    (ctl : CamUnitControl) (u m : Nat)
    (hi : 0 ≤ format.format7_mode) (hj : 0 ≤ format.color_coding)
    (hmode : (dev.format7_get_modeset s.trace)[format.format7_mode.toNat]? = some mode)
    (hcoding : mode.color_codings[format.color_coding.toNat]? = some color_coding)
    (hpix : format.pixelformat = dc1394_pixel_format color_coding mode.color_filter)
    (hw : format.width = mode.max_size_x) (hh : format.height = mode.max_size_y)
    (hctl : cam_unit_find_control s.controls "packet-size" = some ctl)
    (hv1 : 1 ≤ ctl.value) (hv2 : ctl.value ≤ 4192)
    (hpara : dev.format7_get_packet_para (trace_before_packet_para dev s format color_coding)
      format.format7_mode = (u, m))
    (hu : 0 < u) (hum : u ≤ m) (hm : m < 4294967296) :
    ∃ r s1 p, dc1394_stream_init dev s format = Except.ok (r, s1) ∧
      s1.self.packet_size = p ∧
      s1.trace.filterMap DcEvent.sent_packet_size =
        s.trace.filterMap DcEvent.sent_packet_size ++ [p] ∧
      p = u32_of_int (desired_packet ctl.value u m) ∧
      u ≤ p ∧ p ≤ m ∧ 0 < p ∧ (p % u = 0 ∨ p = m) ∧ (m % u = 0 → p % u = 0) := by
  obtain ⟨h1, h2, h3⟩ := desired_packet_spec ctl.value u m hv1 hv2 hu hum hm
  have hne : ¬ u32_of_int (desired_packet ctl.value u m) = 0 := by omega
  have hu32 : ¬ u32 u = 0 := by
    unfold u32
    rw [Nat.mod_eq_of_lt (by omega)]
    omega
  have hfacts : u ≤ u32_of_int (desired_packet ctl.value u m) ∧
      u32_of_int (desired_packet ctl.value u m) ≤ m ∧
      0 < u32_of_int (desired_packet ctl.value u m) ∧
      (u32_of_int (desired_packet ctl.value u m) % u = 0 ∨
        u32_of_int (desired_packet ctl.value u m) = m) ∧
      (m % u = 0 → u32_of_int (desired_packet ctl.value u m) % u = 0) := by
    refine ⟨h1, h2, by omega, h3, ?_⟩
    intro hd
    rcases h3 with h | h
    · exact h
    · rw [h]; exact hd
  unfold trace_before_packet_para at hpara
  unfold dc1394_stream_init
  dsimp only [DcSt.log]
  rw [if_neg (by omega), hmode]
  dsimp only
  rw [hcoding]
  dsimp only
  rw [if_neg (by simp [hpix, hw, hh]), hpara, hctl]
  dsimp only [cam_unit_control_get_int]
  rw [if_neg hu32, if_neg hne]
  obtain ⟨hp, _, ht⟩ := stream_init_capture_spec dev
    { self := { s.self with packet_size := u32_of_int (desired_packet ctl.value u m) },
      controls := update_control
        (fun c => cam_unit_control_force_set_int c (desired_packet ctl.value u m))
        s.controls "packet-size",
      trace := s.trace ++ [DcEvent.format7_get_modeset (dev.format7_get_modeset s.trace)] ++
        [DcEvent.video_set_mode format.format7_mode, DcEvent.video_set_iso_speed_400,
         DcEvent.format7_set_image_size format.format7_mode format.width format.height,
         DcEvent.format7_set_image_position format.format7_mode 0 0,
         DcEvent.format7_set_color_coding format.format7_mode color_coding] ++
        [DcEvent.format7_get_packet_para format.format7_mode u m] ++
        [DcEvent.format7_set_byte_per_packet format.format7_mode
          (u32_of_int (desired_packet ctl.value u m))] }
    format.format7_mode
  refine ⟨_, _, _, rfl, hp, Eq.trans ht ?_, rfl, hfacts⟩
  simp [List.filterMap_append, DcEvent.sent_packet_size]

/-- C30, amended, at the control value 4192 on a camera that reports the unit 8
and the maximum 4096. -/
theorem C30_packet_size_within_unit_and_max_witness :
    ∃ r s1 p, dc1394_stream_init (dc_device 8 4096) (dc_st_packet 4192) dc_format0 =
        Except.ok (r, s1) ∧
      s1.self.packet_size = p ∧
      s1.trace.filterMap DcEvent.sent_packet_size =
        (dc_st_packet 4192).trace.filterMap DcEvent.sent_packet_size ++ [p] ∧
      p = u32_of_int (desired_packet (packet_size_ctl 4192).value 8 4096) ∧
      8 ≤ p ∧ p ≤ 4096 ∧ 0 < p ∧ (p % 8 = 0 ∨ p = 4096) ∧ (4096 % 8 = 0 → p % 8 = 0) :=
  C30_packet_size_within_unit_and_max (dc_device 8 4096) (dc_st_packet 4192) dc_format0 mode0
    Dc1394ColorCoding.mono8 (packet_size_ctl 4192) 8 4096 (by decide) (by decide) rfl rfl rfl
    rfl rfl rfl (by decide) (by decide) rfl (by decide) (by decide) (by decide)


theorem find_update_control (f : CamUnitControl → CamUnitControl)
    (hf : ∀ c, (f c).id = c.id) (id : String) :
    ∀ (cs : List CamUnitControl),
      cam_unit_find_control (update_control f cs id) id =
        (cam_unit_find_control cs id).map f := by
  intro cs
  induction cs with
  | nil => rfl
  | cons c t ih =>
    simp only [update_control, cam_unit_find_control]
    by_cases h : c.id = id
    · rw [if_pos h, if_pos h]
      simp only [cam_unit_find_control]
      rw [if_pos (by rw [hf]; exact h)]
      rfl
    · rw [if_neg h, if_neg h]
      simp only [cam_unit_find_control]
      rw [if_neg h]
      exact ih

theorem refresh_dependent_id (float_step : Nat → Nat → Nat) (f : Dc1394FeatureInfo)
    (c : CamUnitControl) : (refresh_dependent float_step f c).id = c.id := by
  unfold refresh_dependent
  split <;> rfl

theorem refresh_dependent_spec (float_step : Nat → Nat → Nat) (f : Dc1394FeatureInfo)
    (c : CamUnitControl) :
    (refresh_dependent float_step f c).enabled = (f.is_on && !f.auto_active) ∧
    (refresh_dependent float_step f c).type = c.type ∧
    (c.type = CamUnitControlType.int →
      (refresh_dependent float_step f c).min = int_of_u32 f.min ∧
      (refresh_dependent float_step f c).max = int_of_u32 f.max ∧
      (refresh_dependent float_step f c).value = int_of_u32 f.value) ∧
    (c.type ≠ CamUnitControlType.int →
      (refresh_dependent float_step f c).fmin = f.abs_min ∧
      (refresh_dependent float_step f c).fmax = f.abs_max ∧
      (refresh_dependent float_step f c).fvalue = f.abs_value) := by
  unfold refresh_dependent
  by_cases h : c.type = CamUnitControlType.int
  · rw [if_pos h]
    exact ⟨rfl, rfl, fun _ => ⟨rfl, rfl, rfl⟩, fun hn => absurd h hn⟩
  · rw [if_neg h]
    exact ⟨rfl, rfl, fun hp => absurd hp h, fun _ => ⟨rfl, rfl, rfl⟩⟩

/-- A control id in which `strstr` finds `-mode` is none of the five ids that
`dc1394_try_set_control` handles before the feature controls. -/
theorem mode_id_not_special (id : String) (k : Nat)
    (hsuf : strstr "-mode".toList id.toList = some k) :
    id ≠ "packet-size" ∧ id ≠ "trigger-polarity" ∧ id ≠ "trigger-source" ∧
    id ≠ "trigger-now" ∧ id ≠ "trigger" := by
  have e1 : strstr "-mode".toList "packet-size".toList = none := by decide
  have e2 : strstr "-mode".toList "trigger-polarity".toList = none := by decide
  have e3 : strstr "-mode".toList "trigger-source".toList = none := by decide
  have e4 : strstr "-mode".toList "trigger-now".toList = none := by decide
  have e5 : strstr "-mode".toList "trigger".toList = none := by decide
  refine ⟨?_, ?_, ?_, ?_, ?_⟩ <;>
  · intro h
    rw [h] at hsuf
    simp_all


/-! ## Mode controls of the dc1394 unit -/

/-- C24.  When `dc1394_try_set_control` sets a control whose id is
`<feature>-mode` (with `<feature>` other than `white-balance`) and the registry
holds a control `<feature>`, the call succeeds after switching the feature and
reading it back as `f`; the control `<feature>` then has its enabled flag equal
to `f.is_on && !f.auto_active`, and its bounds and value are those of `f`: the
integer ones for an Integer control, the absolute ones otherwise.  The actual
value is 0, 1 or 2 for off, auto or manual as read back. -/
theorem C24_mode_set_refreshes_dependent (float_step : Nat → Nat → Nat) (dev : DcDevice)
    (s : DcSt) (ctl : CamUnitControl) (proposed actual : GValue) (k : Nat)
    (c2 : CamUnitControl)
    (hlen : ctl.id.length < 64)
    (hsuf : strstr "-mode".toList ctl.id.toList = some k)
    (hwb : String.mk (ctl.id.toList.take k) ≠ "white-balance")
    (hdep : cam_unit_find_control s.controls (String.mk (ctl.id.toList.take k)) = some c2) :
    ∃ a s1 f c, dc1394_try_set_control float_step dev s ctl proposed actual =
        Except.ok (true, a, s1) ∧
      s1.trace = s.trace ++
        (if g_value_get_int proposed = 0 then
           [DcEvent.feature_set_power ctl.dc1394_control_id false]
         else
           [DcEvent.feature_set_power ctl.dc1394_control_id true,
            DcEvent.feature_set_mode ctl.dc1394_control_id
              (decide (g_value_get_int proposed = 1))]) ++
        [DcEvent.get_camera_feature ctl.dc1394_control_id f] ∧
      f = dev.get_camera_feature (s1.trace.dropLast) ctl.dc1394_control_id ∧
      cam_unit_find_control s1.controls (String.mk (ctl.id.toList.take k)) = some c ∧
      c.enabled = (f.is_on && !f.auto_active) ∧
      c.type = c2.type ∧
      (c2.type = CamUnitControlType.int →
        c.min = int_of_u32 f.min ∧ c.max = int_of_u32 f.max ∧ c.value = int_of_u32 f.value) ∧
      (c2.type ≠ CamUnitControlType.int →
        c.fmin = f.abs_min ∧ c.fmax = f.abs_max ∧ c.fvalue = f.abs_value) ∧
      a = GValue.int (if !f.is_on then CAM_DC1394_MENU_OFF
                      else if f.auto_active then CAM_DC1394_MENU_AUTO
                      else CAM_DC1394_MENU_MANUAL) := by
  obtain ⟨n1, n2, n3, n4, n5⟩ := mode_id_not_special ctl.id k hsuf
  unfold dc1394_try_set_control
  rw [if_neg n1]
  dsimp only
  rw [if_neg n2, if_neg n3, if_neg n4, if_neg n5, if_neg (by omega), hsuf]
  dsimp only
  rw [if_neg hwb]
  by_cases hv : g_value_get_int proposed = 0
  · rw [if_pos hv, if_pos hv]
    dsimp only [DcSt.log]
    rw [hdep]
    dsimp only
    obtain ⟨h1, h2, h3, h4⟩ := refresh_dependent_spec float_step
      (dev.get_camera_feature (s.trace ++ [DcEvent.feature_set_power ctl.dc1394_control_id false])
        ctl.dc1394_control_id) c2
    refine ⟨_, _, dev.get_camera_feature
        (s.trace ++ [DcEvent.feature_set_power ctl.dc1394_control_id false])
        ctl.dc1394_control_id, refresh_dependent float_step _ c2, rfl, rfl, ?_, ?_,
      h1, h2, h3, h4, ?_⟩
    · simp
    · rw [find_update_control _ (refresh_dependent_id float_step _), hdep]
      rfl
    · split <;> [rfl; (split <;> rfl)]
  · rw [if_neg hv, if_neg hv]
    dsimp only [DcSt.log]
    rw [hdep]
    dsimp only
    obtain ⟨h1, h2, h3, h4⟩ := refresh_dependent_spec float_step
      (dev.get_camera_feature (s.trace ++ [DcEvent.feature_set_power ctl.dc1394_control_id true] ++
        [DcEvent.feature_set_mode ctl.dc1394_control_id (decide (g_value_get_int proposed = 1))])
        ctl.dc1394_control_id) c2
    refine ⟨_, _, dev.get_camera_feature
        (s.trace ++ [DcEvent.feature_set_power ctl.dc1394_control_id true] ++
          [DcEvent.feature_set_mode ctl.dc1394_control_id
            (decide (g_value_get_int proposed = 1))])
        ctl.dc1394_control_id, refresh_dependent float_step _ c2, rfl, ?_, ?_, ?_,
      h1, h2, h3, h4, ?_⟩
    · simp
    · simp
    · rw [find_update_control _ (refresh_dependent_id float_step _), hdep]
      rfl
    · split <;> [rfl; (split <;> rfl)]

/-- C24 at the exposure mode control, set from manual (2) to auto (1) on a
camera that then reports the feature as on with auto active: the exposure
control ends up disabled. -/
theorem C24_mode_set_refreshes_dependent_witness :
    exposure_mode_ctl.value = CAM_DC1394_MENU_MANUAL ∧ exposure_ctl.enabled = true ∧
    ∃ a s1 c, dc1394_try_set_control float_step0 (dc_device 8 4096) dc_st_exposure
        exposure_mode_ctl (GValue.int CAM_DC1394_MENU_AUTO) (GValue.int 2) =
        Except.ok (true, a, s1) ∧
      cam_unit_find_control s1.controls "exposure" = some c ∧
      c.enabled = false ∧ a = GValue.int CAM_DC1394_MENU_AUTO := by
  obtain ⟨a, s1, f, c, h, _, hf, hc, hen, _, _, _, ha⟩ :=
    C24_mode_set_refreshes_dependent float_step0 (dc_device 8 4096) dc_st_exposure
      exposure_mode_ctl (GValue.int CAM_DC1394_MENU_AUTO) (GValue.int 2) 8 exposure_ctl
      (by decide) (by decide) (by decide) (by decide)
  have hfa : f = feature_auto := hf
  subst hfa
  exact ⟨rfl, rfl, a, s1, c, h, hc, hen, ha⟩


end Camunits
